import Mathlib

/-!
# QSFP bus core (`drivers/net/phy/qsfp_bus.c`)

A shallow embedding of the bus registry, the bus object, the attach/detach
protocol and the capability decoder of `qsfp_bus.c`.

Conventions of the embedding:

* Opaque C pointers (`void *upstream`, `struct qsfp *`, `struct device *`,
  `struct phy_device *`, `struct fwnode_handle *`, `struct qsfp_bus *`) are
  natural numbers, `0` being `NULL`.
* A pointer to a constant operation table is an `Option` of the table,
  `none` being `NULL`.
* A callback invocation is recorded as an `Event` appended to a trace.  The
  callbacks themselves are external collaborators: they do not call back
  into the bus while they run.  Where the code uses the `int` a callback
  returns, that value is a parameter `cb_ret` of the embedded function (every
  entry point invokes at most one such callback).
* Dereferencing `NULL` or a pointer to a freed bus is undefined behaviour and
  is rendered as `none`.
* `qsfp_mutex` and the RTNL lock serialise the entry points; the embedding
  is the sequential semantics of one entry point at a time.
* A bitmap of link modes or of interface modes is the function telling which
  bits are set.  The numeric constants of `<linux/qsfp.h>`, which is not
  among the sources, are parameters (`sff_codes`); a `switch` is the chain
  of tests on its labels in the order of the source.
* A `dev_warn` is recorded as the `diagnostic` it writes.
-/

namespace QsfpBus

/-- Modelled from the spec: the module-side operation table of
`<linux/qsfp.h>` (absent from the sources).  Every operation
(attach, detach, start, stop, module_info, module_eeprom) is required, so a
table is characterised by its identity alone. -/
structure qsfp_socket_ops where
  ident : Nat
deriving DecidableEq, Repr

/-- Modelled from the spec: the upstream-side operation table of
`<linux/qsfp.h>` (absent from the sources).  `attach` and `detach` are
required; each field below tells whether the optional operation of that
name is provided (non-`NULL`). -/
structure qsfp_upstream_ops where
  link_down : Bool
  link_up : Bool
  connect_phy : Bool
  disconnect_phy : Bool
  module_insert : Bool
  module_remove : Bool
  module_start : Bool
  module_stop : Bool
deriving DecidableEq, Repr

/-- The callbacks the bus core can invoke, with their arguments. -/
inductive Event where
  /-- `upstream_ops->link_down(upstream)` -/
  | link_down (upstream : Nat)
  /-- `upstream_ops->link_up(upstream)` -/
  | link_up (upstream : Nat)
  /-- `upstream_ops->connect_phy(upstream, phydev)` -/
  | connect_phy (upstream phydev : Nat)
  /-- `upstream_ops->disconnect_phy(upstream)` -/
  | disconnect_phy (upstream : Nat)
  /-- `upstream_ops->attach(upstream, bus)` -/
  | attach (upstream bus : Nat)
  /-- `upstream_ops->detach(upstream, bus)` -/
  | detach (upstream bus : Nat)
  /-- `upstream_ops->module_insert(upstream, id)` -/
  | module_insert (upstream id : Nat)
  /-- `upstream_ops->module_remove(upstream)` -/
  | module_remove (upstream : Nat)
  /-- `upstream_ops->module_start(upstream)` -/
  | module_start (upstream : Nat)
  /-- `upstream_ops->module_stop(upstream)` -/
  | module_stop (upstream : Nat)
  /-- `socket_ops->attach(qsfp)` -/
  | sock_attach (qsfp : Nat)
  /-- `socket_ops->detach(qsfp)` -/
  | sock_detach (qsfp : Nat)
  /-- `socket_ops->start(qsfp)` -/
  | sock_start (qsfp : Nat)
  /-- `socket_ops->stop(qsfp)` -/
  | sock_stop (qsfp : Nat)
deriving DecidableEq, Repr

/-- The `struct qsfp_bus`.  The `node` list head is rendered by the bus being
an element of the registry list. -/
structure qsfp_bus where
  kref : Nat
  fwnode : Nat
  socket_ops : Option qsfp_socket_ops
  qsfp_dev : Nat
  qsfp : Nat
  qsfp_quirk : Nat
  upstream_ops : Option qsfp_upstream_ops
  upstream : Nat
  phydev : Nat
  registered : Bool
  started : Bool
deriving DecidableEq, Repr

/-- The events of an optional callback: invoked only when `c` holds. -/
def call_if (c : Bool) (e : Event) : List Event :=
  if c then [e] else []

/-- The function `qsfp_get_upstream_ops`. -/
def qsfp_get_upstream_ops (bus : qsfp_bus) : Option qsfp_upstream_ops :=
  if bus.registered then bus.upstream_ops else none

/-- The function `qsfp_register_bus`, on the bus at address `self`.  The
result is the returned `int`, the bus afterwards and the callbacks invoked,
in order; `cb_ret` is what `connect_phy` returns if it is invoked. -/
def qsfp_register_bus (self : Nat) (bus : qsfp_bus) (cb_ret : Int) :
    Option (Int × qsfp_bus × List Event) :=
  let ops := bus.upstream_ops
  let ld : List Event :=
    match ops with
    | some o => call_if o.link_down (Event.link_down bus.upstream)
    | none => []
  let connect : Bool :=
    match ops with
    | some o => o.connect_phy && bus.phydev != 0
    | none => false
  let cp : List Event := call_if connect (Event.connect_phy bus.upstream bus.phydev)
  if connect && cb_ret != 0 then
    some (cb_ret, bus, ld ++ cp)
  else
    let bus1 := { bus with registered := true }
    match bus1.socket_ops with
    | none => none
    | some _ =>
      let t := ld ++ cp ++ [Event.sock_attach bus1.qsfp]
        ++ call_if bus1.started (Event.sock_start bus1.qsfp)
      match ops with
      | some _ => some (0, bus1, t ++ [Event.attach bus1.upstream self])
      | none => some (0, bus1, t)

/-- The function `qsfp_unregister_bus`, on the bus at address `self`: the bus
afterwards and the callbacks invoked, in order. -/
def qsfp_unregister_bus (self : Nat) (bus : qsfp_bus) :
    Option (qsfp_bus × List Event) :=
  if bus.registered then
    match bus.upstream_ops, bus.socket_ops with
    | some ops, some _ =>
      some ({ bus with registered := false },
        [Event.detach bus.upstream self]
          ++ call_if bus.started (Event.sock_stop bus.qsfp)
          ++ [Event.sock_detach bus.qsfp]
          ++ call_if (bus.phydev != 0 && ops.disconnect_phy)
              (Event.disconnect_phy bus.upstream))
    | _, _ => none
  else
    some ({ bus with registered := false }, [])

/-- The function `qsfp_upstream_start`. -/
def qsfp_upstream_start (bus : qsfp_bus) : Option (qsfp_bus × List Event) :=
  if bus.registered then
    match bus.socket_ops with
    | some _ => some ({ bus with started := true }, [Event.sock_start bus.qsfp])
    | none => none
  else
    some ({ bus with started := true }, [])

/-- The function `qsfp_upstream_stop`. -/
def qsfp_upstream_stop (bus : qsfp_bus) : Option (qsfp_bus × List Event) :=
  if bus.registered then
    match bus.socket_ops with
    | some _ => some ({ bus with started := false }, [Event.sock_stop bus.qsfp])
    | none => none
  else
    some ({ bus with started := false }, [])

/-- The function `qsfp_upstream_clear`. -/
def qsfp_upstream_clear (bus : qsfp_bus) : qsfp_bus :=
  { bus with upstream_ops := none, upstream := 0 }

/-- The function `qsfp_socket_clear`. -/
def qsfp_socket_clear (bus : qsfp_bus) : qsfp_bus :=
  { bus with qsfp_dev := 0, qsfp := 0, socket_ops := none }

/-- The function `qsfp_add_phy`; `cb_ret` is what `connect_phy` returns if it
is invoked. -/
def qsfp_add_phy (bus : qsfp_bus) (phydev : Nat) (cb_ret : Int) :
    Int × qsfp_bus × List Event :=
  let called : Bool :=
    match qsfp_get_upstream_ops bus with
    | some ops => ops.connect_phy
    | none => false
  let ret : Int := if called then cb_ret else 0
  let bus1 := if ret = 0 then { bus with phydev := phydev } else bus
  (ret, bus1, call_if called (Event.connect_phy bus.upstream phydev))

/-- The function `qsfp_remove_phy`. -/
def qsfp_remove_phy (bus : qsfp_bus) : qsfp_bus × List Event :=
  let called : Bool :=
    match qsfp_get_upstream_ops bus with
    | some ops => ops.disconnect_phy
    | none => false
  ({ bus with phydev := 0 }, call_if called (Event.disconnect_phy bus.upstream))

/-- The function `qsfp_link_up`. -/
def qsfp_link_up (bus : qsfp_bus) : qsfp_bus × List Event :=
  let called : Bool :=
    match qsfp_get_upstream_ops bus with
    | some ops => ops.link_up
    | none => false
  (bus, call_if called (Event.link_up bus.upstream))

/-- The function `qsfp_link_down`. -/
def qsfp_link_down (bus : qsfp_bus) : qsfp_bus × List Event :=
  let called : Bool :=
    match qsfp_get_upstream_ops bus with
    | some ops => ops.link_down
    | none => false
  (bus, call_if called (Event.link_down bus.upstream))

/-- The function `qsfp_module_insert`; `cb_ret` is what the upstream's
`module_insert` returns if it is invoked. -/
def qsfp_module_insert (bus : qsfp_bus) (id quirk : Nat) (cb_ret : Int) :
    Int × qsfp_bus × List Event :=
  let called : Bool :=
    match qsfp_get_upstream_ops bus with
    | some ops => ops.module_insert
    | none => false
  let bus1 := { bus with qsfp_quirk := quirk }
  (if called then cb_ret else 0, bus1,
    call_if called (Event.module_insert bus1.upstream id))

/-- The function `qsfp_module_remove`. -/
def qsfp_module_remove (bus : qsfp_bus) : qsfp_bus × List Event :=
  let called : Bool :=
    match qsfp_get_upstream_ops bus with
    | some ops => ops.module_remove
    | none => false
  ({ bus with qsfp_quirk := 0 }, call_if called (Event.module_remove bus.upstream))

/-- The function `qsfp_module_start`; `cb_ret` is what the upstream's
`module_start` returns if it is invoked. -/
def qsfp_module_start (bus : qsfp_bus) (cb_ret : Int) :
    Int × qsfp_bus × List Event :=
  let called : Bool :=
    match qsfp_get_upstream_ops bus with
    | some ops => ops.module_start
    | none => false
  (if called then cb_ret else 0, bus,
    call_if called (Event.module_start bus.upstream))

/-- The function `qsfp_module_stop`. -/
def qsfp_module_stop (bus : qsfp_bus) : qsfp_bus × List Event :=
  let called : Bool :=
    match qsfp_get_upstream_ops bus with
    | some ops => ops.module_stop
    | none => false
  (bus, call_if called (Event.module_stop bus.upstream))

/-! ## The registry and the entry points that touch it -/

/-- The global state: the list `qsfp_buses`, each element being a live bus
object with its address, and the trace of the callbacks invoked so far. -/
structure World where
  qsfp_buses : List (Nat × qsfp_bus)
  trace : List Event
deriving DecidableEq, Repr

/-- The object a bus pointer refers to, `none` when it is `NULL` or no live
bus has that address. -/
def bus_deref : List (Nat × qsfp_bus) → Nat → Option qsfp_bus
  | [], _ => none
  | (a, b) :: rest, p =>
    if p = 0 then none else if a = p then some b else bus_deref rest p

/-- Writing the object a bus pointer refers to. -/
def bus_store : List (Nat × qsfp_bus) → Nat → qsfp_bus → List (Nat × qsfp_bus)
  | [], _, _ => []
  | (a, b) :: rest, p, v =>
    if a = p then (a, v) :: rest else (a, b) :: bus_store rest p v

/-- The `list_del` of the node of the bus at address `p`. -/
def list_del : List (Nat × qsfp_bus) → Nat → List (Nat × qsfp_bus)
  | [], _ => []
  | (a, b) :: rest, p =>
    if a = p then rest else (a, b) :: list_del rest p

/-- The bus at `p` after an operation on it, with the callbacks the
operation invoked appended to the trace. -/
def World.update (w : World) (p : Nat) (r : qsfp_bus × List Event) : World :=
  { qsfp_buses := bus_store w.qsfp_buses p r.1, trace := w.trace ++ r.2 }

/-- Modelled from the spec: `kzalloc` of a `struct qsfp_bus` (the allocator
is absent from the sources): a zero-initialised object. -/
def kzalloc : qsfp_bus :=
  { kref := 0, fwnode := 0, socket_ops := none, qsfp_dev := 0, qsfp := 0,
    qsfp_quirk := 0, upstream_ops := none, upstream := 0, phydev := 0,
    registered := false, started := false }

/-- Modelled from the spec: `kref_init` of `<linux/kref.h>` (absent from the
sources) sets the reference count to one. -/
def kref_init (bus : qsfp_bus) : qsfp_bus :=
  { bus with kref := 1 }

/-- Modelled from the spec: `kref_get` of `<linux/kref.h>` (absent from the
sources) increments the reference count. -/
def kref_get (bus : qsfp_bus) : qsfp_bus :=
  { bus with kref := bus.kref + 1 }

/-- The `list_for_each_entry` loop of `qsfp_bus_get`: the first bus whose
`fwnode` is the one looked for gets a reference and is the bus found. -/
def bus_lookup : List (Nat × qsfp_bus) → Nat → Option (Nat × List (Nat × qsfp_bus))
  | [], _ => none
  | (a, b) :: rest, fwnode =>
    if b.fwnode = fwnode then some (a, (a, kref_get b) :: rest)
    else
      match bus_lookup rest fwnode with
      | some (found, rest1) => some (found, (a, b) :: rest1)
      | none => none

/-- The function `qsfp_bus_get`; `new` is the address `kzalloc` returned,
`0` when the allocation failed.  An object that is allocated and not
inserted is freed before returning. -/
def qsfp_bus_get (w : World) (new : Nat) (fwnode : Nat) : Nat × World :=
  match bus_lookup w.qsfp_buses fwnode with
  | some (found, l) => (found, { w with qsfp_buses := l })
  | none =>
    if new != 0 then
      let b : qsfp_bus := { (kref_init kzalloc) with fwnode := fwnode }
      (new, { w with qsfp_buses := (new, b) :: w.qsfp_buses })
    else (0, w)

/-- The functions `qsfp_bus_put` and `qsfp_bus_release`.
Modelled from the spec: `kref_put_mutex` of `<linux/kref.h>` (absent from the
sources) decrements the reference count and, at zero, runs the release
function, which unlinks the bus from the registry and frees it. -/
def qsfp_bus_put (w : World) (bus : Nat) : Option World :=
  if bus = 0 then some w
  else
    match bus_deref w.qsfp_buses bus with
    | none => none
    | some b =>
      if b.kref - 1 = 0 then
        some { w with qsfp_buses := list_del w.qsfp_buses bus }
      else
        let b1 : qsfp_bus := { b with kref := b.kref - 1 }
        some { w with qsfp_buses := bus_store w.qsfp_buses bus b1 }

/-- The function `qsfp_bus_add_upstream`; `cb_ret` is what `connect_phy`
returns if it is invoked. -/
def qsfp_bus_add_upstream (w : World) (bus upstream : Nat)
    (ops : Option qsfp_upstream_ops) (cb_ret : Int) : Option (Int × World) :=
  if bus = 0 then some (0, w)
  else
    match bus_deref w.qsfp_buses bus with
    | none => none
    | some b =>
      let b1 := { (kref_get b) with upstream_ops := ops, upstream := upstream }
      if b1.qsfp != 0 then
        match qsfp_register_bus bus b1 cb_ret with
        | none => none
        | some (ret, b2, ev) =>
          if ret != 0 then
            (qsfp_bus_put (w.update bus (qsfp_upstream_clear b2, ev)) bus).map
              (fun w1 => (ret, w1))
          else some (ret, w.update bus (b2, ev))
      else some (0, w.update bus (b1, []))

/-- The function `qsfp_bus_del_upstream`. -/
def qsfp_bus_del_upstream (w : World) (bus : Nat) : Option World :=
  if bus = 0 then some w
  else
    match bus_deref w.qsfp_buses bus with
    | none => none
    | some b =>
      match (if b.qsfp != 0 then qsfp_unregister_bus bus b else some (b, [])) with
      | none => none
      | some (b1, ev) =>
        qsfp_bus_put (w.update bus (qsfp_upstream_clear b1, ev)) bus

/-- The part of a `struct device` the bus core reads: its address and its
`fwnode`. -/
structure device where
  addr : Nat
  fwnode : Nat
deriving DecidableEq, Repr

/-- The function `qsfp_register_socket`; `new` is the address `kzalloc`
returns inside `qsfp_bus_get`, `cb_ret` is what `connect_phy` returns if it
is invoked.  The result is the returned bus pointer. -/
def qsfp_register_socket (w : World) (new : Nat) (dev : device) (qsfp : Nat)
    (ops : Option qsfp_socket_ops) (cb_ret : Int) : Option (Nat × World) :=
  let r := qsfp_bus_get w new dev.fwnode
  let bus := r.1
  let w1 := r.2
  if bus != 0 then
    match bus_deref w1.qsfp_buses bus with
    | none => none
    | some b =>
      let b1 := { b with qsfp_dev := dev.addr, qsfp := qsfp, socket_ops := ops }
      match b1.upstream_ops with
      | some _ =>
        match qsfp_register_bus bus b1 cb_ret with
        | none => none
        | some (ret, b2, ev) =>
          if ret != 0 then
            (qsfp_bus_put (w1.update bus (qsfp_socket_clear b2, ev)) bus).map
              (fun w2 => (0, w2))
          else some (bus, w1.update bus (b2, ev))
      | none => some (bus, w1.update bus (b1, []))
  else some (0, w1)

/-- The function `qsfp_unregister_socket`. -/
def qsfp_unregister_socket (w : World) (bus : Nat) : Option World :=
  match bus_deref w.qsfp_buses bus with
  | none => none
  | some b =>
    match (match b.upstream_ops with
           | some _ => qsfp_unregister_bus bus b
           | none => some (b, [])) with
    | none => none
    | some (b1, ev) =>
      qsfp_bus_put (w.update bus (qsfp_socket_clear b1, ev)) bus

/-- The error number `ENOENT` of `<linux/errno.h>`. -/
def ENOENT : Int := 2

/-- The error number `ENOMEM` of `<linux/errno.h>`. -/
def ENOMEM : Int := 12

/-- The function `qsfp_bus_find_fwnode`.  What the firmware-node helpers
return is given: `ret` and `ref_fwnode` for
`fwnode_property_get_reference_args`, `available` for
`fwnode_device_is_available`; `new` is the address `kzalloc` returns.  The
result is `Sum.inl e` for `ERR_PTR(e)` and `Sum.inr p` for a bus pointer. -/
def qsfp_bus_find_fwnode (w : World) (new : Nat) (ret : Int) (ref_fwnode : Nat)
    (available : Bool) : (Int ⊕ Nat) × World :=
  if ret = -ENOENT then (Sum.inr 0, w)
  else if ret < 0 then (Sum.inl ret, w)
  else if !available then (Sum.inr 0, w)
  else
    let r := qsfp_bus_get w new ref_fwnode
    if r.1 = 0 then (Sum.inl (-ENOMEM), r.2) else (Sum.inr r.1, r.2)

/-! ## Sequences of entry-point calls -/

/-- A call of one public entry point, with its arguments and with what the
environment answers during the call (`new`, `cb_ret`, the firmware-node
lookups). -/
inductive Action where
  | register_socket (new : Nat) (dev : device) (qsfp : Nat)
      (ops : Option qsfp_socket_ops) (cb_ret : Int)
  | unregister_socket (bus : Nat)
  | add_upstream (bus upstream : Nat) (ops : Option qsfp_upstream_ops) (cb_ret : Int)
  | del_upstream (bus : Nat)
  | upstream_start (bus : Nat)
  | upstream_stop (bus : Nat)
  | add_phy (bus phydev : Nat) (cb_ret : Int)
  | remove_phy (bus : Nat)
  | link_up (bus : Nat)
  | link_down (bus : Nat)
  | module_insert (bus id quirk : Nat) (cb_ret : Int)
  | module_remove (bus : Nat)
  | module_start (bus : Nat) (cb_ret : Int)
  | module_stop (bus : Nat)
  | find_fwnode (new : Nat) (ret : Int) (ref_fwnode : Nat) (available : Bool)
  | put (bus : Nat)
deriving DecidableEq, Repr

/-- An entry point that works on the fields of the bus at `p` only. -/
def World.on_bus (w : World) (p : Nat)
    (f : qsfp_bus → Option (qsfp_bus × List Event)) : Option World :=
  match bus_deref w.qsfp_buses p with
  | none => none
  | some b =>
    match f b with
    | none => none
    | some r => some (w.update p r)

/-- The world after one entry-point call, `none` when the call is undefined
behaviour (it dereferences `NULL` or a freed bus). -/
def step (w : World) : Action → Option World
  | Action.register_socket new dev qsfp ops cb_ret =>
    (qsfp_register_socket w new dev qsfp ops cb_ret).map (fun r => r.2)
  | Action.unregister_socket bus => qsfp_unregister_socket w bus
  | Action.add_upstream bus upstream ops cb_ret =>
    (qsfp_bus_add_upstream w bus upstream ops cb_ret).map (fun r => r.2)
  | Action.del_upstream bus => qsfp_bus_del_upstream w bus
  | Action.upstream_start bus => w.on_bus bus qsfp_upstream_start
  | Action.upstream_stop bus => w.on_bus bus qsfp_upstream_stop
  | Action.add_phy bus phydev cb_ret =>
    w.on_bus bus (fun b => some (qsfp_add_phy b phydev cb_ret).2)
  | Action.remove_phy bus => w.on_bus bus (fun b => some (qsfp_remove_phy b))
  | Action.link_up bus => w.on_bus bus (fun b => some (qsfp_link_up b))
  | Action.link_down bus => w.on_bus bus (fun b => some (qsfp_link_down b))
  | Action.module_insert bus id quirk cb_ret =>
    w.on_bus bus (fun b => some (qsfp_module_insert b id quirk cb_ret).2)
  | Action.module_remove bus => w.on_bus bus (fun b => some (qsfp_module_remove b))
  | Action.module_start bus cb_ret =>
    w.on_bus bus (fun b => some (qsfp_module_start b cb_ret).2)
  | Action.module_stop bus => w.on_bus bus (fun b => some (qsfp_module_stop b))
  | Action.find_fwnode new ret ref_fwnode available =>
    some (qsfp_bus_find_fwnode w new ret ref_fwnode available).2
  | Action.put bus => qsfp_bus_put w bus

/-- The world after a sequence of entry-point calls. -/
def run (w : World) : List Action → Option World
  | [] => some w
  | a :: rest =>
    match step w a with
    | none => none
    | some w1 => run w1 rest

/-- The handles and operation tables a call is given are non-null: the
device, the module handle and the module-side table of
`qsfp_register_socket`, the upstream handle and the upstream-side table of
`qsfp_bus_add_upstream`, the PHY of `qsfp_add_phy`. -/
def Action.nonnull : Action → Bool
  | Action.register_socket _ dev qsfp ops _ => dev.addr != 0 && qsfp != 0 && ops.isSome
  | Action.add_upstream _ upstream ops _ => upstream != 0 && ops.isSome
  | Action.add_phy _ phydev _ => phydev != 0
  | _ => true

/-- Whether the attach protocol fails: `connect_phy` is provided, a PHY is
stored, and the callback returns an error. -/
def attach_fails (ops : Option qsfp_upstream_ops) (phydev : Nat) (cb_ret : Int) : Bool :=
  match ops with
  | some o => o.connect_phy && phydev != 0 && cb_ret != 0
  | none => false

/-- A binding call is not one that is made on an already registered bus and
whose attach fails; every other call is unrestricted.  In particular every
binding call on an unregistered bus qualifies. -/
def Action.no_failed_rebind (w : World) : Action → Bool
  | Action.register_socket new dev _ _ cb_ret =>
    let r := qsfp_bus_get w new dev.fwnode
    match bus_deref r.2.qsfp_buses r.1 with
    | some b => !(b.registered && attach_fails b.upstream_ops b.phydev cb_ret)
    | none => true
  | Action.add_upstream bus _ ops cb_ret =>
    match bus_deref w.qsfp_buses bus with
    | some b => !(b.registered && attach_fails ops b.phydev cb_ret)
    | none => true
  | _ => true

/-- The world after a sequence of entry-point calls with non-null arguments
in which no binding call on an already registered bus fails; `none` when the
sequence is not of that kind or a call is undefined behaviour. -/
def run_no_failed_rebind (w : World) : List Action → Option World
  | [] => some w
  | a :: rest =>
    if a.nonnull && a.no_failed_rebind w then
      match step w a with
      | none => none
      | some w1 => run_no_failed_rebind w1 rest
    else none

/-- The invariant of the data model on one bus: a registered bus has its
module-side binding and its upstream-side binding. -/
def bus_bound_if_registered (b : qsfp_bus) : Prop :=
  b.registered = true → b.qsfp ≠ 0 ∧ b.socket_ops ≠ none ∧ b.upstream_ops ≠ none

/-- The invariant of the data model on every live bus. -/
def registered_implies_bound (w : World) : Prop :=
  ∀ e ∈ w.qsfp_buses, bus_bound_if_registered e.2

/-- The empty registry, before any bus was created. -/
def World.init : World :=
  { qsfp_buses := [], trace := [] }

/-- The teardown callback that undoes an attach-time callback: detach for
attach, stop for start, disconnect_phy for connect_phy; the link_down
notification has none. -/
def undo : Event → Option Event
  | Event.connect_phy upstream _ => some (Event.disconnect_phy upstream)
  | Event.sock_attach qsfp => some (Event.sock_detach qsfp)
  | Event.sock_start qsfp => some (Event.sock_stop qsfp)
  | Event.attach upstream bus => some (Event.detach upstream bus)
  | _ => none

/-- Whether a callback is one of the downstream-PHY steps. -/
def Event.is_phy_step : Event → Bool
  | Event.connect_phy _ _ => true
  | Event.disconnect_phy _ => true
  | _ => false

/-- The first bus of the registry whose identity is `fwnode`, with its
address. -/
def bus_find : List (Nat × qsfp_bus) → Nat → Option (Nat × qsfp_bus)
  | [], _ => none
  | (a, b) :: rest, fwnode =>
    if b.fwnode = fwnode then some (a, b) else bus_find rest fwnode

/-- Whether a callback is the module-side start operation. -/
def Event.is_sock_start : Event → Bool
  | Event.sock_start _ => true
  | _ => false

/-- Whether a callback is the module-side stop operation. -/
def Event.is_sock_stop : Event → Bool
  | Event.sock_stop _ => true
  | _ => false

/-! ## The capability decoder -/

/-- Modelled from the spec: the bits of an ethtool link-mode mask, the
`ETHTOOL_LINK_MODE_..._BIT` of `<linux/ethtool.h>` (absent from the
sources).  There is one constructor for each bit the file names; `other`
stands for every bit it does not name. -/
inductive link_mode where
  | ETHTOOL_LINK_MODE_10baseT_Full_BIT
  | ETHTOOL_LINK_MODE_1000baseT_Half_BIT
  | ETHTOOL_LINK_MODE_1000baseT_Full_BIT
  | ETHTOOL_LINK_MODE_Autoneg_BIT
  | ETHTOOL_LINK_MODE_TP_BIT
  | ETHTOOL_LINK_MODE_AUI_BIT
  | ETHTOOL_LINK_MODE_FIBRE_BIT
  | ETHTOOL_LINK_MODE_10000baseT_Full_BIT
  | ETHTOOL_LINK_MODE_Pause_BIT
  | ETHTOOL_LINK_MODE_Asym_Pause_BIT
  | ETHTOOL_LINK_MODE_2500baseX_Full_BIT
  | ETHTOOL_LINK_MODE_40000baseLR4_Full_BIT
  | ETHTOOL_LINK_MODE_25000baseCR_Full_BIT
  | ETHTOOL_LINK_MODE_25000baseKR_Full_BIT
  | ETHTOOL_LINK_MODE_25000baseSR_Full_BIT
  | ETHTOOL_LINK_MODE_100000baseKR4_Full_BIT
  | ETHTOOL_LINK_MODE_100000baseSR4_Full_BIT
  | ETHTOOL_LINK_MODE_100000baseCR4_Full_BIT
  | ETHTOOL_LINK_MODE_100000baseLR4_ER4_Full_BIT
  | ETHTOOL_LINK_MODE_1000baseX_Full_BIT
  | ETHTOOL_LINK_MODE_10000baseCR_Full_BIT
  | ETHTOOL_LINK_MODE_10000baseSR_Full_BIT
  | ETHTOOL_LINK_MODE_10000baseLR_Full_BIT
  | ETHTOOL_LINK_MODE_10000baseLRM_Full_BIT
  | ETHTOOL_LINK_MODE_10000baseER_Full_BIT
  | ETHTOOL_LINK_MODE_2500baseT_Full_BIT
  | ETHTOOL_LINK_MODE_5000baseT_Full_BIT
  | ETHTOOL_LINK_MODE_100baseFX_Full_BIT
  | other (bit : Nat)
deriving DecidableEq, Repr

/-- Modelled from the spec: the `phy_interface_t` of `<linux/phy.h>` (absent
from the sources).  There is one constructor for each mode the file names;
`other` stands for every mode it does not name. -/
inductive phy_interface_t where
  | PHY_INTERFACE_MODE_NA
  | PHY_INTERFACE_MODE_SGMII
  | PHY_INTERFACE_MODE_100BASEX
  | PHY_INTERFACE_MODE_1000BASEX
  | PHY_INTERFACE_MODE_2500BASEX
  | PHY_INTERFACE_MODE_5GBASER
  | PHY_INTERFACE_MODE_10GBASER
  | PHY_INTERFACE_MODE_25GBASER
  | other (mode : Nat)
deriving DecidableEq, Repr

/-- Modelled from the spec: the port types of `<linux/ethtool.h>` (absent
from the sources) that `qsfp_parse_port` can return. -/
inductive port_type where
  | PORT_TP
  | PORT_AUI
  | PORT_FIBRE
  | PORT_DA
  | PORT_OTHER
deriving DecidableEq, Repr

/-- A link-mode bitmap (`unsigned long *support`): which bits are set. -/
abbrev link_mode_mask : Type := link_mode → Bool

/-- A bitmap of PHY interface modes (`unsigned long *interfaces`): which bits
are set. -/
abbrev interface_mask : Type := phy_interface_t → Bool

/-- The empty link-mode bitmap, `= { 0, }`. -/
def linkmode_zero : link_mode_mask := fun _ => false

/-- The macro `phylink_set`: the bitmap with the bit of `mode` set. -/
def phylink_set (mask : link_mode_mask) (mode : link_mode) : link_mode_mask :=
  fun b => if b = mode then true else mask b

/-- The macro `phylink_test`: whether the bit of `mode` is set. -/
def phylink_test (mask : link_mode_mask) (mode : link_mode) : Bool :=
  mask mode

/-- The function `linkmode_or`: the union of two bitmaps. -/
def linkmode_or (a b : link_mode_mask) : link_mode_mask :=
  fun m => a m || b m

/-- The function `__set_bit` on a bitmap of interface modes. -/
def __set_bit (nr : phy_interface_t) (addr : interface_mask) : interface_mask :=
  fun i => if i = nr then true else addr i

/-- The constants of `<linux/qsfp.h>` (absent from the sources) that the
decoder uses; their values are parameters.  The connector types and the
extended-compliance codes are `case` labels, the others are bit masks. -/
structure sff_codes where
  SFF8024_QSFP_DD_CONNECTOR_UNSPEC : Nat
  SFF8024_QSFP_DD_CONNECTOR_SC : Nat
  SFF8024_QSFP_DD_CONNECTOR_FIBERJACK : Nat
  SFF8024_QSFP_DD_CONNECTOR_LC : Nat
  SFF8024_QSFP_DD_CONNECTOR_MT_RJ : Nat
  SFF8024_QSFP_DD_CONNECTOR_MU : Nat
  SFF8024_QSFP_DD_CONNECTOR_SG : Nat
  SFF8024_QSFP_DD_CONNECTOR_OPTICAL_PIGTAIL : Nat
  SFF8024_QSFP_DD_CONNECTOR_MPO_1X12 : Nat
  SFF8024_QSFP_DD_CONNECTOR_MPO_2X16 : Nat
  SFF8024_QSFP_DD_CONNECTOR_HSSDC_II : Nat
  SFF8024_QSFP_DD_CONNECTOR_COPPER_PIGTAIL : Nat
  SFF8024_QSFP_DD_CONNECTOR_RJ45 : Nat
  SFF8024_QSFP_DD_CONNECTOR_NOSEPARATE : Nat
  SFF8024_QSFP_DD_CONNECTOR_MXC_2X16 : Nat
  SFF8636_QSFP_ECC_10GBASE_SR : Nat
  SFF8636_QSFP_ECC_10GBASE_LR : Nat
  SFF8636_QSFP_ECC_10GBASE_LRM : Nat
  SFF8024_QSFP_SCC_1000BASE_SX : Nat
  SFF8024_QSFP_SCC_1000BASE_LX : Nat
  SFF8024_QSFP_SCC_1000BASE_CX : Nat
  SFF8024_QSFP_SCC_1000BASE_T : Nat
  SFF8024_QSFP_SCC_FC_SPEED_100 : Nat
  SFF8024_QSFP_SCC_FC_SPEED_200 : Nat
  SFF8024_QSFP_SCC_FC_SPEED_400 : Nat
  SFF8024_QSFP_ECC_UNSPEC : Nat
  SFF8024_QSFP_ECC_100GBASE_SR4_25GBASE_SR : Nat
  SFF8024_QSFP_ECC_100GBASE_LR4_25GBASE_LR : Nat
  SFF8024_QSFP_ECC_100GBASE_ER4_25GBASE_ER : Nat
  SFF8024_QSFP_ECC_100GBASE_CR4 : Nat
  SFF8024_QSFP_ECC_25GBASE_CR_S : Nat
  SFF8024_QSFP_ECC_25GBASE_CR_N : Nat
  SFF8024_QSFP_ECC_10GBASE_T_SFI : Nat
  SFF8024_QSFP_ECC_10GBASE_T_SR : Nat
  SFF8024_QSFP_ECC_5GBASE_T : Nat
  SFF8024_QSFP_ECC_2_5GBASE_T : Nat
  SFF8024_QSFP_ECC_100G_25GAUI_C2M_AOC_LOW_BER : Nat
  SFF8024_QSFP_ECC_100GBASE_SR10 : Nat
  SFF8024_QSFP_ECC_100G_25GAUI_C2M_AOC : Nat
  SFF8024_QSFP_ECC_100G_CWDM4 : Nat
  SFF8024_QSFP_ECC_100G_PSM4 : Nat
  SFF8024_QSFP_ECC_10M : Nat
  SFF8024_QSFP_ECC_40GBASE_ER : Nat
  SFF8024_QSFP_ECC_10GBASE_SR : Nat
  SFF8024_QSFP_ECC_100G_CLR4 : Nat
  SFF8024_QSFP_ECC_100G_ACC_25G_ACC : Nat
deriving DecidableEq, Repr

/-- The fields of the `base` part of a `struct qsfp_eeprom_id` that the file
reads; the bytes are natural numbers and the compliance array is given by
index. -/
structure qsfp_eeprom_base where
  etile_qsfp_identifier : Nat
  etile_qsfp_connector_type : Nat
  etile_qsfp_ext_spec_compliance : Nat
  etile_qsfp_spec_compliance_1 : Nat → Nat

/-- The `struct qsfp_eeprom_id`. -/
structure qsfp_eeprom_id where
  base : qsfp_eeprom_base

/-- A diagnostic written by `dev_warn`: the device it is written for and the
value it reports. -/
structure diagnostic where
  dev : Nat
  value : Nat
deriving DecidableEq, Repr

/-- What `qsfp_parse_port` leaves behind: the returned port, the support
bitmap when one was supplied, and the diagnostic when one was written. -/
structure parse_port_result where
  port : port_type
  support : Option link_mode_mask
  warn : Option diagnostic

/-- The function `qsfp_parse_port`; `support` is `none` for a `NULL`
pointer. -/
def qsfp_parse_port (c : sff_codes) (bus : qsfp_bus) (id : qsfp_eeprom_id)
    (support : Option link_mode_mask) : parse_port_result :=
  let t := id.base.etile_qsfp_connector_type
  let r : port_type × Option diagnostic :=
    if t = c.SFF8024_QSFP_DD_CONNECTOR_SC
        ∨ t = c.SFF8024_QSFP_DD_CONNECTOR_FIBERJACK
        ∨ t = c.SFF8024_QSFP_DD_CONNECTOR_LC
        ∨ t = c.SFF8024_QSFP_DD_CONNECTOR_MT_RJ
        ∨ t = c.SFF8024_QSFP_DD_CONNECTOR_MU
        ∨ t = c.SFF8024_QSFP_DD_CONNECTOR_OPTICAL_PIGTAIL
        ∨ t = c.SFF8024_QSFP_DD_CONNECTOR_MPO_1X12
        ∨ t = c.SFF8024_QSFP_DD_CONNECTOR_MPO_2X16 then
      (port_type.PORT_FIBRE, none)
    else if t = c.SFF8024_QSFP_DD_CONNECTOR_RJ45 then
      (port_type.PORT_TP, none)
    else if t = c.SFF8024_QSFP_DD_CONNECTOR_COPPER_PIGTAIL then
      (port_type.PORT_DA, none)
    else if t = c.SFF8024_QSFP_DD_CONNECTOR_UNSPEC then
      (port_type.PORT_TP, none)
    else if t = c.SFF8024_QSFP_DD_CONNECTOR_SG
        ∨ t = c.SFF8024_QSFP_DD_CONNECTOR_HSSDC_II
        ∨ t = c.SFF8024_QSFP_DD_CONNECTOR_NOSEPARATE
        ∨ t = c.SFF8024_QSFP_DD_CONNECTOR_MXC_2X16 then
      if id.base.etile_qsfp_ext_spec_compliance
          &&& c.SFF8024_QSFP_ECC_100G_25GAUI_C2M_AOC_LOW_BER ≠ 0 then
        (port_type.PORT_AUI, none)
      else
        (port_type.PORT_OTHER, none)
    else
      (port_type.PORT_OTHER, some { dev := bus.qsfp_dev, value := t })
  let support1 : Option link_mode_mask :=
    match support with
    | some s =>
      match r.1 with
      | port_type.PORT_FIBRE => some (phylink_set s link_mode.ETHTOOL_LINK_MODE_FIBRE_BIT)
      | port_type.PORT_TP => some (phylink_set s link_mode.ETHTOOL_LINK_MODE_TP_BIT)
      | port_type.PORT_AUI => some (phylink_set s link_mode.ETHTOOL_LINK_MODE_AUI_BIT)
      | _ => some s
    | none => none
  { port := r.1, support := support1, warn := r.2 }

/-- The function `qsfp_select_interface`. -/
def qsfp_select_interface (_bus : qsfp_bus) (link_modes : link_mode_mask) :
    phy_interface_t :=
  if phylink_test link_modes link_mode.ETHTOOL_LINK_MODE_25000baseCR_Full_BIT
      || phylink_test link_modes link_mode.ETHTOOL_LINK_MODE_25000baseKR_Full_BIT
      || phylink_test link_modes link_mode.ETHTOOL_LINK_MODE_25000baseSR_Full_BIT then
    phy_interface_t.PHY_INTERFACE_MODE_25GBASER
  else if phylink_test link_modes link_mode.ETHTOOL_LINK_MODE_10000baseCR_Full_BIT
      || phylink_test link_modes link_mode.ETHTOOL_LINK_MODE_10000baseSR_Full_BIT
      || phylink_test link_modes link_mode.ETHTOOL_LINK_MODE_10000baseLR_Full_BIT
      || phylink_test link_modes link_mode.ETHTOOL_LINK_MODE_10000baseLRM_Full_BIT
      || phylink_test link_modes link_mode.ETHTOOL_LINK_MODE_10000baseER_Full_BIT
      || phylink_test link_modes link_mode.ETHTOOL_LINK_MODE_10000baseT_Full_BIT then
    phy_interface_t.PHY_INTERFACE_MODE_10GBASER
  else if phylink_test link_modes link_mode.ETHTOOL_LINK_MODE_5000baseT_Full_BIT then
    phy_interface_t.PHY_INTERFACE_MODE_5GBASER
  else if phylink_test link_modes link_mode.ETHTOOL_LINK_MODE_2500baseX_Full_BIT then
    phy_interface_t.PHY_INTERFACE_MODE_2500BASEX
  else if phylink_test link_modes link_mode.ETHTOOL_LINK_MODE_1000baseT_Half_BIT
      || phylink_test link_modes link_mode.ETHTOOL_LINK_MODE_1000baseT_Full_BIT then
    phy_interface_t.PHY_INTERFACE_MODE_SGMII
  else if phylink_test link_modes link_mode.ETHTOOL_LINK_MODE_1000baseX_Full_BIT then
    phy_interface_t.PHY_INTERFACE_MODE_1000BASEX
  else if phylink_test link_modes link_mode.ETHTOOL_LINK_MODE_100baseFX_Full_BIT then
    phy_interface_t.PHY_INTERFACE_MODE_100BASEX
  else
    phy_interface_t.PHY_INTERFACE_MODE_NA

/-- The variables `qsfp_parse_support` works on: its local bitmap `modes`,
the caller's `interfaces` bitmap, and the diagnostic when one was written. -/
structure parse_state where
  modes : link_mode_mask
  interfaces : interface_mask
  warn : Option diagnostic

/-- The statement `phylink_set(modes, mode)` of `qsfp_parse_support`. -/
def parse_state.set_mode (s : parse_state) (mode : link_mode) : parse_state :=
  { s with modes := phylink_set s.modes mode }

/-- The statement `__set_bit(nr, interfaces)` of `qsfp_parse_support`. -/
def parse_state.set_interface (s : parse_state) (nr : phy_interface_t) : parse_state :=
  { s with interfaces := __set_bit nr s.interfaces }

/-- The three tests of `qsfp_parse_support` on compliance byte 0
(10GBASE-SR, 10GBASE-LR, 10GBASE-LRM). -/
def parse_compliance_byte0 (c : sff_codes) (id : qsfp_eeprom_id) (s : parse_state) :
    parse_state :=
  let b := id.base.etile_qsfp_spec_compliance_1 0
  let s1 :=
    if b &&& c.SFF8636_QSFP_ECC_10GBASE_SR ≠ 0 then
      (s.set_mode link_mode.ETHTOOL_LINK_MODE_10000baseSR_Full_BIT).set_interface
        phy_interface_t.PHY_INTERFACE_MODE_10GBASER
    else s
  let s2 :=
    if b &&& c.SFF8636_QSFP_ECC_10GBASE_LR ≠ 0 then
      (s1.set_mode link_mode.ETHTOOL_LINK_MODE_10000baseSR_Full_BIT).set_interface
        phy_interface_t.PHY_INTERFACE_MODE_10GBASER
    else s1
  if b &&& c.SFF8636_QSFP_ECC_10GBASE_LRM ≠ 0 then
    (s2.set_mode link_mode.ETHTOOL_LINK_MODE_10000baseLRM_Full_BIT).set_interface
      phy_interface_t.PHY_INTERFACE_MODE_10GBASER
  else s2

/-- The two tests of `qsfp_parse_support` on compliance byte 3
(1000BASE-SX/LX/CX, 1000BASE-T). -/
def parse_compliance_byte3 (c : sff_codes) (id : qsfp_eeprom_id) (s : parse_state) :
    parse_state :=
  let b := id.base.etile_qsfp_spec_compliance_1 3
  let s1 :=
    if b &&& c.SFF8024_QSFP_SCC_1000BASE_SX ≠ 0
        ∨ b &&& c.SFF8024_QSFP_SCC_1000BASE_LX ≠ 0
        ∨ b &&& c.SFF8024_QSFP_SCC_1000BASE_CX ≠ 0 then
      (s.set_mode link_mode.ETHTOOL_LINK_MODE_1000baseX_Full_BIT).set_interface
        phy_interface_t.PHY_INTERFACE_MODE_1000BASEX
    else s
  if b &&& c.SFF8024_QSFP_SCC_1000BASE_T ≠ 0 then
    (((s1.set_mode link_mode.ETHTOOL_LINK_MODE_1000baseT_Half_BIT).set_mode
        link_mode.ETHTOOL_LINK_MODE_1000baseT_Full_BIT).set_interface
        phy_interface_t.PHY_INTERFACE_MODE_1000BASEX).set_interface
      phy_interface_t.PHY_INTERFACE_MODE_SGMII
  else s1

/-- The `switch` of `qsfp_parse_support` on the extended-compliance byte, the
labels being tried in the order of the source. -/
def parse_ext_compliance (c : sff_codes) (bus : qsfp_bus) (id : qsfp_eeprom_id)
    (s : parse_state) : parse_state :=
  let e := id.base.etile_qsfp_ext_spec_compliance
  if e = c.SFF8024_QSFP_ECC_UNSPEC then
    (s.set_mode link_mode.ETHTOOL_LINK_MODE_25000baseKR_Full_BIT).set_interface
      phy_interface_t.PHY_INTERFACE_MODE_25GBASER
  else if e = c.SFF8024_QSFP_ECC_100GBASE_SR4_25GBASE_SR then
    ((s.set_mode link_mode.ETHTOOL_LINK_MODE_100000baseSR4_Full_BIT).set_mode
        link_mode.ETHTOOL_LINK_MODE_25000baseSR_Full_BIT).set_interface
      phy_interface_t.PHY_INTERFACE_MODE_25GBASER
  else if e = c.SFF8024_QSFP_ECC_100GBASE_LR4_25GBASE_LR
      ∨ e = c.SFF8024_QSFP_ECC_100GBASE_ER4_25GBASE_ER then
    s.set_mode link_mode.ETHTOOL_LINK_MODE_100000baseLR4_ER4_Full_BIT
  else if e = c.SFF8024_QSFP_ECC_100GBASE_CR4 then
    ((s.set_mode link_mode.ETHTOOL_LINK_MODE_100000baseCR4_Full_BIT).set_mode
        link_mode.ETHTOOL_LINK_MODE_25000baseCR_Full_BIT).set_interface
      phy_interface_t.PHY_INTERFACE_MODE_25GBASER
  else if e = c.SFF8024_QSFP_ECC_25GBASE_CR_S
      ∨ e = c.SFF8024_QSFP_ECC_25GBASE_CR_N then
    (s.set_mode link_mode.ETHTOOL_LINK_MODE_25000baseCR_Full_BIT).set_interface
      phy_interface_t.PHY_INTERFACE_MODE_25GBASER
  else if e = c.SFF8024_QSFP_ECC_10GBASE_T_SFI
      ∨ e = c.SFF8024_QSFP_ECC_10GBASE_T_SR then
    (s.set_mode link_mode.ETHTOOL_LINK_MODE_10000baseT_Full_BIT).set_interface
      phy_interface_t.PHY_INTERFACE_MODE_10GBASER
  else if e = c.SFF8024_QSFP_ECC_5GBASE_T then
    (s.set_mode link_mode.ETHTOOL_LINK_MODE_5000baseT_Full_BIT).set_interface
      phy_interface_t.PHY_INTERFACE_MODE_5GBASER
  else if e = c.SFF8024_QSFP_ECC_2_5GBASE_T then
    (s.set_mode link_mode.ETHTOOL_LINK_MODE_2500baseT_Full_BIT).set_interface
      phy_interface_t.PHY_INTERFACE_MODE_2500BASEX
  else if e = c.SFF8024_QSFP_ECC_100G_25GAUI_C2M_AOC_LOW_BER then
    ((s.set_mode link_mode.ETHTOOL_LINK_MODE_100000baseKR4_Full_BIT).set_mode
        link_mode.ETHTOOL_LINK_MODE_25000baseKR_Full_BIT).set_interface
      phy_interface_t.PHY_INTERFACE_MODE_25GBASER
  else if e = c.SFF8024_QSFP_ECC_100GBASE_SR10 then
    s.set_mode link_mode.ETHTOOL_LINK_MODE_100000baseSR4_Full_BIT
  else if e = c.SFF8024_QSFP_ECC_100G_25GAUI_C2M_AOC then
    ((s.set_mode link_mode.ETHTOOL_LINK_MODE_100000baseSR4_Full_BIT).set_mode
        link_mode.ETHTOOL_LINK_MODE_25000baseSR_Full_BIT).set_interface
      phy_interface_t.PHY_INTERFACE_MODE_25GBASER
  else if e = c.SFF8024_QSFP_ECC_100G_CWDM4 then
    s.set_mode link_mode.ETHTOOL_LINK_MODE_100000baseCR4_Full_BIT
  else if e = c.SFF8024_QSFP_ECC_100G_PSM4 then
    s.set_mode link_mode.ETHTOOL_LINK_MODE_100000baseCR4_Full_BIT
  else if e = c.SFF8024_QSFP_ECC_10M then
    s.set_mode link_mode.ETHTOOL_LINK_MODE_10baseT_Full_BIT
  else if e = c.SFF8024_QSFP_ECC_40GBASE_ER then
    s.set_mode link_mode.ETHTOOL_LINK_MODE_40000baseLR4_Full_BIT
  else if e = c.SFF8024_QSFP_ECC_10GBASE_SR then
    (s.set_mode link_mode.ETHTOOL_LINK_MODE_10000baseSR_Full_BIT).set_interface
      phy_interface_t.PHY_INTERFACE_MODE_10GBASER
  else if e = c.SFF8024_QSFP_ECC_100G_CLR4 then
    s.set_mode link_mode.ETHTOOL_LINK_MODE_100000baseLR4_ER4_Full_BIT
  else if e = c.SFF8024_QSFP_ECC_100G_ACC_25G_ACC then
    ((s.set_mode link_mode.ETHTOOL_LINK_MODE_100000baseCR4_Full_BIT).set_mode
        link_mode.ETHTOOL_LINK_MODE_25000baseCR_Full_BIT).set_interface
      phy_interface_t.PHY_INTERFACE_MODE_25GBASER
  else
    { s with warn := some { dev := bus.qsfp_dev, value := e } }

/-- The test of `qsfp_parse_support` on compliance byte 7 (the Fibre-Channel
speeds). -/
def parse_compliance_byte7 (c : sff_codes) (id : qsfp_eeprom_id) (s : parse_state) :
    parse_state :=
  let b := id.base.etile_qsfp_spec_compliance_1 7
  if b &&& c.SFF8024_QSFP_SCC_FC_SPEED_100 ≠ 0
      ∨ b &&& c.SFF8024_QSFP_SCC_FC_SPEED_200 ≠ 0
      ∨ b &&& c.SFF8024_QSFP_SCC_FC_SPEED_400 ≠ 0 then
    (s.set_mode link_mode.ETHTOOL_LINK_MODE_2500baseX_Full_BIT).set_interface
      phy_interface_t.PHY_INTERFACE_MODE_2500BASEX
  else s

/-- What `qsfp_parse_support` leaves behind: the two bitmaps of the caller
and the diagnostic when one was written. -/
structure parse_support_result where
  support : link_mode_mask
  interfaces : interface_mask
  warn : Option diagnostic

/-- The function `qsfp_parse_support`: the tests on compliance bytes 0 and 3,
the `switch` on the extended-compliance byte and the test on compliance
byte 7, in the order of the source, then the union into `support` and the
three bits set last. -/
def qsfp_parse_support (c : sff_codes) (bus : qsfp_bus) (id : qsfp_eeprom_id)
    (support : link_mode_mask) (interfaces : interface_mask) : parse_support_result :=
  let s0 : parse_state := { modes := linkmode_zero, interfaces := interfaces, warn := none }
  let s1 := parse_compliance_byte0 c id s0
  let s2 := parse_compliance_byte3 c id s1
  let s3 := parse_ext_compliance c bus id s2
  let s4 := parse_compliance_byte7 c id s3
  let support1 := linkmode_or support s4.modes
  let support2 := phylink_set support1 link_mode.ETHTOOL_LINK_MODE_Autoneg_BIT
  let support3 := phylink_set support2 link_mode.ETHTOOL_LINK_MODE_Pause_BIT
  let support4 := phylink_set support3 link_mode.ETHTOOL_LINK_MODE_Asym_Pause_BIT
  { support := support4, interfaces := s4.interfaces, warn := s4.warn }

/-- The `case` labels of the connector `switch` of `qsfp_parse_port`. -/
def sff_codes.connector_labels (c : sff_codes) : List Nat :=
  [c.SFF8024_QSFP_DD_CONNECTOR_SC, c.SFF8024_QSFP_DD_CONNECTOR_FIBERJACK,
   c.SFF8024_QSFP_DD_CONNECTOR_LC, c.SFF8024_QSFP_DD_CONNECTOR_MT_RJ,
   c.SFF8024_QSFP_DD_CONNECTOR_MU, c.SFF8024_QSFP_DD_CONNECTOR_OPTICAL_PIGTAIL,
   c.SFF8024_QSFP_DD_CONNECTOR_MPO_1X12, c.SFF8024_QSFP_DD_CONNECTOR_MPO_2X16,
   c.SFF8024_QSFP_DD_CONNECTOR_RJ45, c.SFF8024_QSFP_DD_CONNECTOR_COPPER_PIGTAIL,
   c.SFF8024_QSFP_DD_CONNECTOR_UNSPEC, c.SFF8024_QSFP_DD_CONNECTOR_SG,
   c.SFF8024_QSFP_DD_CONNECTOR_HSSDC_II, c.SFF8024_QSFP_DD_CONNECTOR_NOSEPARATE,
   c.SFF8024_QSFP_DD_CONNECTOR_MXC_2X16]

/-- The `case` labels of the extended-compliance `switch` of
`qsfp_parse_support`. -/
def sff_codes.ext_compliance_labels (c : sff_codes) : List Nat :=
  [c.SFF8024_QSFP_ECC_UNSPEC, c.SFF8024_QSFP_ECC_100GBASE_SR4_25GBASE_SR,
   c.SFF8024_QSFP_ECC_100GBASE_LR4_25GBASE_LR, c.SFF8024_QSFP_ECC_100GBASE_ER4_25GBASE_ER,
   c.SFF8024_QSFP_ECC_100GBASE_CR4, c.SFF8024_QSFP_ECC_25GBASE_CR_S,
   c.SFF8024_QSFP_ECC_25GBASE_CR_N, c.SFF8024_QSFP_ECC_10GBASE_T_SFI,
   c.SFF8024_QSFP_ECC_10GBASE_T_SR, c.SFF8024_QSFP_ECC_5GBASE_T,
   c.SFF8024_QSFP_ECC_2_5GBASE_T, c.SFF8024_QSFP_ECC_100G_25GAUI_C2M_AOC_LOW_BER,
   c.SFF8024_QSFP_ECC_100GBASE_SR10, c.SFF8024_QSFP_ECC_100G_25GAUI_C2M_AOC,
   c.SFF8024_QSFP_ECC_100G_CWDM4, c.SFF8024_QSFP_ECC_100G_PSM4,
   c.SFF8024_QSFP_ECC_10M, c.SFF8024_QSFP_ECC_40GBASE_ER,
   c.SFF8024_QSFP_ECC_10GBASE_SR, c.SFF8024_QSFP_ECC_100G_CLR4,
   c.SFF8024_QSFP_ECC_100G_ACC_25G_ACC]

/-- The connectors that the port table classifies as fibre. -/
def sff_codes.fibre_connectors (c : sff_codes) : List Nat :=
  [c.SFF8024_QSFP_DD_CONNECTOR_SC, c.SFF8024_QSFP_DD_CONNECTOR_FIBERJACK,
   c.SFF8024_QSFP_DD_CONNECTOR_LC, c.SFF8024_QSFP_DD_CONNECTOR_MT_RJ,
   c.SFF8024_QSFP_DD_CONNECTOR_MU, c.SFF8024_QSFP_DD_CONNECTOR_OPTICAL_PIGTAIL,
   c.SFF8024_QSFP_DD_CONNECTOR_MPO_1X12, c.SFF8024_QSFP_DD_CONNECTOR_MPO_2X16]

/-- The connectors that are ambiguous between electrical and optical. -/
def sff_codes.ambiguous_connectors (c : sff_codes) : List Nat :=
  [c.SFF8024_QSFP_DD_CONNECTOR_SG, c.SFF8024_QSFP_DD_CONNECTOR_HSSDC_II,
   c.SFF8024_QSFP_DD_CONNECTOR_NOSEPARATE, c.SFF8024_QSFP_DD_CONNECTOR_MXC_2X16]

/-- The link modes that compliance byte 0 stands for, in the words of the
specification of the decoder: 10000baseSR_Full for the 10GBASE-SR and the
10GBASE-LR bit, 10000baseLRM_Full for the 10GBASE-LRM bit. -/
def byte0_modes (c : sff_codes) (id : qsfp_eeprom_id) : link_mode_mask := fun m =>
  let b := id.base.etile_qsfp_spec_compliance_1 0
  (decide (m = link_mode.ETHTOOL_LINK_MODE_10000baseSR_Full_BIT)
      && (decide (b &&& c.SFF8636_QSFP_ECC_10GBASE_SR ≠ 0)
          || decide (b &&& c.SFF8636_QSFP_ECC_10GBASE_LR ≠ 0)))
  || (decide (m = link_mode.ETHTOOL_LINK_MODE_10000baseLRM_Full_BIT)
      && decide (b &&& c.SFF8636_QSFP_ECC_10GBASE_LRM ≠ 0))

/-- The link modes that compliance byte 3 stands for: 1000baseX_Full for the
1000BASE-SX, -LX and -CX bits, 1000baseT_Half and 1000baseT_Full for the
1000BASE-T bit. -/
def byte3_modes (c : sff_codes) (id : qsfp_eeprom_id) : link_mode_mask := fun m =>
  let b := id.base.etile_qsfp_spec_compliance_1 3
  (decide (m = link_mode.ETHTOOL_LINK_MODE_1000baseX_Full_BIT)
      && (decide (b &&& c.SFF8024_QSFP_SCC_1000BASE_SX ≠ 0)
          || decide (b &&& c.SFF8024_QSFP_SCC_1000BASE_LX ≠ 0)
          || decide (b &&& c.SFF8024_QSFP_SCC_1000BASE_CX ≠ 0)))
  || ((decide (m = link_mode.ETHTOOL_LINK_MODE_1000baseT_Half_BIT)
        || decide (m = link_mode.ETHTOOL_LINK_MODE_1000baseT_Full_BIT))
      && decide (b &&& c.SFF8024_QSFP_SCC_1000BASE_T ≠ 0))

/-- The link mode that compliance byte 7 stands for: 2500baseX_Full for the
Fibre-Channel speeds 100, 200 and 400. -/
def byte7_modes (c : sff_codes) (id : qsfp_eeprom_id) : link_mode_mask := fun m =>
  let b := id.base.etile_qsfp_spec_compliance_1 7
  decide (m = link_mode.ETHTOOL_LINK_MODE_2500baseX_Full_BIT)
    && (decide (b &&& c.SFF8024_QSFP_SCC_FC_SPEED_100 ≠ 0)
        || decide (b &&& c.SFF8024_QSFP_SCC_FC_SPEED_200 ≠ 0)
        || decide (b &&& c.SFF8024_QSFP_SCC_FC_SPEED_400 ≠ 0))

/-- The interface mode that compliance byte 0 stands for: 10GBASER for each
of its three bits. -/
def byte0_interfaces (c : sff_codes) (id : qsfp_eeprom_id) : interface_mask := fun i =>
  let b := id.base.etile_qsfp_spec_compliance_1 0
  decide (i = phy_interface_t.PHY_INTERFACE_MODE_10GBASER)
    && (decide (b &&& c.SFF8636_QSFP_ECC_10GBASE_SR ≠ 0)
        || decide (b &&& c.SFF8636_QSFP_ECC_10GBASE_LR ≠ 0)
        || decide (b &&& c.SFF8636_QSFP_ECC_10GBASE_LRM ≠ 0))

/-- The interface modes that compliance byte 3 stands for: 1000BASEX for each
of its four bits, SGMII for the 1000BASE-T bit. -/
def byte3_interfaces (c : sff_codes) (id : qsfp_eeprom_id) : interface_mask := fun i =>
  let b := id.base.etile_qsfp_spec_compliance_1 3
  (decide (i = phy_interface_t.PHY_INTERFACE_MODE_1000BASEX)
      && (decide (b &&& c.SFF8024_QSFP_SCC_1000BASE_SX ≠ 0)
          || decide (b &&& c.SFF8024_QSFP_SCC_1000BASE_LX ≠ 0)
          || decide (b &&& c.SFF8024_QSFP_SCC_1000BASE_CX ≠ 0)
          || decide (b &&& c.SFF8024_QSFP_SCC_1000BASE_T ≠ 0)))
  || (decide (i = phy_interface_t.PHY_INTERFACE_MODE_SGMII)
      && decide (b &&& c.SFF8024_QSFP_SCC_1000BASE_T ≠ 0))

/-- The interface mode that compliance byte 7 stands for: 2500BASEX for the
Fibre-Channel speeds 100, 200 and 400. -/
def byte7_interfaces (c : sff_codes) (id : qsfp_eeprom_id) : interface_mask := fun i =>
  let b := id.base.etile_qsfp_spec_compliance_1 7
  decide (i = phy_interface_t.PHY_INTERFACE_MODE_2500BASEX)
    && (decide (b &&& c.SFF8024_QSFP_SCC_FC_SPEED_100 ≠ 0)
        || decide (b &&& c.SFF8024_QSFP_SCC_FC_SPEED_200 ≠ 0)
        || decide (b &&& c.SFF8024_QSFP_SCC_FC_SPEED_400 ≠ 0))

/-- The three bits that `qsfp_parse_support` always sets. -/
def always_set_modes : link_mode_mask := fun m =>
  decide (m = link_mode.ETHTOOL_LINK_MODE_Autoneg_BIT)
    || decide (m = link_mode.ETHTOOL_LINK_MODE_Pause_BIT)
    || decide (m = link_mode.ETHTOOL_LINK_MODE_Asym_Pause_BIT)

/-- The priority table of the interface selection, in the words of its
specification: the classes of link modes from the fastest to the slowest,
each with the interface mode it selects. -/
def interface_priority : List (List link_mode × phy_interface_t) :=
  [([link_mode.ETHTOOL_LINK_MODE_25000baseCR_Full_BIT,
     link_mode.ETHTOOL_LINK_MODE_25000baseKR_Full_BIT,
     link_mode.ETHTOOL_LINK_MODE_25000baseSR_Full_BIT],
    phy_interface_t.PHY_INTERFACE_MODE_25GBASER),
   ([link_mode.ETHTOOL_LINK_MODE_10000baseCR_Full_BIT,
     link_mode.ETHTOOL_LINK_MODE_10000baseSR_Full_BIT,
     link_mode.ETHTOOL_LINK_MODE_10000baseLR_Full_BIT,
     link_mode.ETHTOOL_LINK_MODE_10000baseLRM_Full_BIT,
     link_mode.ETHTOOL_LINK_MODE_10000baseER_Full_BIT,
     link_mode.ETHTOOL_LINK_MODE_10000baseT_Full_BIT],
    phy_interface_t.PHY_INTERFACE_MODE_10GBASER),
   ([link_mode.ETHTOOL_LINK_MODE_5000baseT_Full_BIT],
    phy_interface_t.PHY_INTERFACE_MODE_5GBASER),
   ([link_mode.ETHTOOL_LINK_MODE_2500baseX_Full_BIT],
    phy_interface_t.PHY_INTERFACE_MODE_2500BASEX),
   ([link_mode.ETHTOOL_LINK_MODE_1000baseT_Half_BIT,
     link_mode.ETHTOOL_LINK_MODE_1000baseT_Full_BIT],
    phy_interface_t.PHY_INTERFACE_MODE_SGMII),
   ([link_mode.ETHTOOL_LINK_MODE_1000baseX_Full_BIT],
    phy_interface_t.PHY_INTERFACE_MODE_1000BASEX),
   ([link_mode.ETHTOOL_LINK_MODE_100baseFX_Full_BIT],
    phy_interface_t.PHY_INTERFACE_MODE_100BASEX)]

/-- The interface of the first class of the priority table that has a link
mode in the set, `PHY_INTERFACE_MODE_NA` when no class has one. -/
def select_by_priority (link_modes : link_mode_mask) : phy_interface_t :=
  match interface_priority.find? (fun e => e.1.any (fun b => link_modes b)) with
  | some e => e.2
  | none => phy_interface_t.PHY_INTERFACE_MODE_NA

/-- The state `t` has every link mode and every interface mode that the
state `s` has. -/
def parse_state.le (s t : parse_state) : Prop :=
  (∀ m, s.modes m = true → t.modes m = true) ∧
  (∀ i, s.interfaces i = true → t.interfaces i = true)

/-- The bitmap `t` is the bitmap `s` with exactly the bit `b` added. -/
def adds_exactly (s t : link_mode_mask) (b : link_mode) : Prop :=
  t b = true ∧ ∀ m, m ≠ b → t m = s m

/-- Two states hold the same link modes and the same interface modes. -/
def parse_state.same_sets (s t : parse_state) : Prop :=
  s.modes = t.modes ∧ s.interfaces = t.interfaces

/-- Every class of the priority table that has one of its link modes in the
state also has its interface mode in the state. -/
def parse_state.advertises (s : parse_state) : Prop :=
  ∀ e ∈ interface_priority, (∃ b ∈ e.1, s.modes b = true) → s.interfaces e.2 = true

/-! ## Concrete values used to exercise the definitions -/

/-- A module-side operation table. -/
def ex_sops : qsfp_socket_ops := { ident := 1 }

/-- An upstream-side operation table providing every optional operation. -/
def ex_uops : qsfp_upstream_ops :=
  { link_down := true, link_up := true, connect_phy := true,
    disconnect_phy := true, module_insert := true, module_remove := true,
    module_start := true, module_stop := true }

/-- A bus with both sides bound, a PHY stored, started and not registered. -/
def ex_bus : qsfp_bus :=
  { kref := 2, fwnode := 10, socket_ops := some ex_sops, qsfp_dev := 20,
    qsfp := 30, qsfp_quirk := 0, upstream_ops := some ex_uops, upstream := 40,
    phydev := 50, registered := false, started := true }

/-- A bus with the module side bound and a PHY stored, the upstream side
unbound. -/
def ex_bus_module_only : qsfp_bus :=
  { kref := 1, fwnode := 10, socket_ops := some ex_sops, qsfp_dev := 20,
    qsfp := 30, qsfp_quirk := 0, upstream_ops := none, upstream := 0,
    phydev := 50, registered := false, started := false }

/-- A registry holding `ex_bus_module_only` at address 5. -/
def ex_world_module_only : World :=
  { qsfp_buses := [(5, ex_bus_module_only)], trace := [] }

/-- A bus with the upstream side bound and a PHY stored, the module side
unbound. -/
def ex_bus_upstream_only : qsfp_bus :=
  { kref := 1, fwnode := 10, socket_ops := none, qsfp_dev := 0,
    qsfp := 0, qsfp_quirk := 0, upstream_ops := some ex_uops, upstream := 40,
    phydev := 50, registered := false, started := false }

/-- A registry holding `ex_bus_upstream_only` at address 5. -/
def ex_world_upstream_only : World :=
  { qsfp_buses := [(5, ex_bus_upstream_only)], trace := [] }

/-- A device whose firmware node is the identity 10. -/
def ex_dev : device :=
  { addr := 20, fwnode := 10 }

/-- A module is registered, a PHY is added, an upstream is added and the
attach succeeds. -/
def ex_bind_both : List Action :=
  [Action.register_socket 5 ex_dev 30 (some ex_sops) 0,
   Action.add_phy 5 50 0,
   Action.add_upstream 5 40 (some ex_uops) 0]

/-- After `ex_bind_both`, a second upstream is added to the registered bus
and its `connect_phy` returns the error -19. -/
def ex_double_add : List Action :=
  ex_bind_both ++ [Action.add_upstream 5 41 (some ex_uops) (-19)]

/-- The bus after `ex_bind_both`: registered, both sides bound. -/
def ex_bus_registered : qsfp_bus :=
  { kref := 2, fwnode := 10, socket_ops := some ex_sops, qsfp_dev := 20,
    qsfp := 30, qsfp_quirk := 0, upstream_ops := some ex_uops, upstream := 40,
    phydev := 50, registered := true, started := false }

/-- The world after `ex_bind_both`. -/
def ex_world_registered : World :=
  { qsfp_buses := [(5, ex_bus_registered)],
    trace := [Event.link_down 40, Event.connect_phy 40 50, Event.sock_attach 30,
      Event.attach 40 5] }

/-- The bus after `ex_double_add`: registered, the upstream side unbound. -/
def ex_bus_broken : qsfp_bus :=
  { ex_bus_registered with upstream_ops := none, upstream := 0 }

/-- A bus that was created by a lookup and has neither side bound yet. -/
def ex_bus_fresh : qsfp_bus :=
  { kzalloc with kref := 1, fwnode := 10 }

/-- A registry holding `ex_bus_fresh` at address 5. -/
def ex_world_fresh : World :=
  { qsfp_buses := [(5, ex_bus_fresh)], trace := [] }

/-- A registry holding, at address 5, a bus with neither side bound and two
references. -/
def ex_world_fresh_two_refs : World :=
  { qsfp_buses := [(5, { ex_bus_fresh with kref := 2 })], trace := [] }

/-- Values for the constants of `<linux/qsfp.h>`: the codes and bit
positions that the SFF-8024 and SFF-8636 tables give to the names. -/
def ex_codes : sff_codes :=
  { SFF8024_QSFP_DD_CONNECTOR_UNSPEC := 0x00
    SFF8024_QSFP_DD_CONNECTOR_SC := 0x01
    SFF8024_QSFP_DD_CONNECTOR_FIBERJACK := 0x06
    SFF8024_QSFP_DD_CONNECTOR_LC := 0x07
    SFF8024_QSFP_DD_CONNECTOR_MT_RJ := 0x08
    SFF8024_QSFP_DD_CONNECTOR_MU := 0x09
    SFF8024_QSFP_DD_CONNECTOR_SG := 0x0a
    SFF8024_QSFP_DD_CONNECTOR_OPTICAL_PIGTAIL := 0x0b
    SFF8024_QSFP_DD_CONNECTOR_MPO_1X12 := 0x0c
    SFF8024_QSFP_DD_CONNECTOR_MPO_2X16 := 0x0d
    SFF8024_QSFP_DD_CONNECTOR_HSSDC_II := 0x20
    SFF8024_QSFP_DD_CONNECTOR_COPPER_PIGTAIL := 0x21
    SFF8024_QSFP_DD_CONNECTOR_RJ45 := 0x22
    SFF8024_QSFP_DD_CONNECTOR_NOSEPARATE := 0x23
    SFF8024_QSFP_DD_CONNECTOR_MXC_2X16 := 0x24
    SFF8636_QSFP_ECC_10GBASE_SR := 0x10
    SFF8636_QSFP_ECC_10GBASE_LR := 0x20
    SFF8636_QSFP_ECC_10GBASE_LRM := 0x40
    SFF8024_QSFP_SCC_1000BASE_SX := 0x01
    SFF8024_QSFP_SCC_1000BASE_LX := 0x02
    SFF8024_QSFP_SCC_1000BASE_CX := 0x04
    SFF8024_QSFP_SCC_1000BASE_T := 0x08
    SFF8024_QSFP_SCC_FC_SPEED_100 := 0x01
    SFF8024_QSFP_SCC_FC_SPEED_200 := 0x04
    SFF8024_QSFP_SCC_FC_SPEED_400 := 0x10
    SFF8024_QSFP_ECC_UNSPEC := 0x00
    SFF8024_QSFP_ECC_100GBASE_SR4_25GBASE_SR := 0x02
    SFF8024_QSFP_ECC_100GBASE_LR4_25GBASE_LR := 0x03
    SFF8024_QSFP_ECC_100GBASE_ER4_25GBASE_ER := 0x04
    SFF8024_QSFP_ECC_100GBASE_CR4 := 0x0b
    SFF8024_QSFP_ECC_25GBASE_CR_S := 0x0c
    SFF8024_QSFP_ECC_25GBASE_CR_N := 0x0d
    SFF8024_QSFP_ECC_10GBASE_T_SFI := 0x16
    SFF8024_QSFP_ECC_10GBASE_T_SR := 0x1c
    SFF8024_QSFP_ECC_5GBASE_T := 0x1d
    SFF8024_QSFP_ECC_2_5GBASE_T := 0x1e
    SFF8024_QSFP_ECC_100G_25GAUI_C2M_AOC_LOW_BER := 0x18
    SFF8024_QSFP_ECC_100GBASE_SR10 := 0x05
    SFF8024_QSFP_ECC_100G_25GAUI_C2M_AOC := 0x01
    SFF8024_QSFP_ECC_100G_CWDM4 := 0x06
    SFF8024_QSFP_ECC_100G_PSM4 := 0x07
    SFF8024_QSFP_ECC_10M := 0x0e
    SFF8024_QSFP_ECC_40GBASE_ER := 0x10
    SFF8024_QSFP_ECC_10GBASE_SR := 0x11
    SFF8024_QSFP_ECC_100G_CLR4 := 0x17
    SFF8024_QSFP_ECC_100G_ACC_25G_ACC := 0x08 }

/-- An identification with the given connector type, extended-compliance
byte and compliance bytes 0, 3 and 7, every other byte being zero. -/
def ex_id (connector ext b0 b3 b7 : Nat) : qsfp_eeprom_id :=
  { base :=
      { etile_qsfp_identifier := 0x11
        etile_qsfp_connector_type := connector
        etile_qsfp_ext_spec_compliance := ext
        etile_qsfp_spec_compliance_1 := fun i =>
          if i = 0 then b0 else if i = 3 then b3 else if i = 7 then b7 else 0 } }

/-- The empty bitmap of interface modes. -/
def ex_no_interfaces : interface_mask := fun _ => false

/-! ## Theorems -/

/-- What `qsfp_register_bus` computes on a bus with both bindings present. -/
theorem register_bus_eq (self : Nat) (bus : qsfp_bus)
    (sops : qsfp_socket_ops) (uops : qsfp_upstream_ops) (cb_ret : Int)
    (hs : bus.socket_ops = some sops) (hu : bus.upstream_ops = some uops) :
    qsfp_register_bus self bus cb_ret =
      if (uops.connect_phy && bus.phydev != 0 && cb_ret != 0) = true then
        some (cb_ret, bus,
          call_if uops.link_down (Event.link_down bus.upstream)
            ++ call_if (uops.connect_phy && bus.phydev != 0)
                (Event.connect_phy bus.upstream bus.phydev))
      else
        some (0, { bus with registered := true },
          call_if uops.link_down (Event.link_down bus.upstream)
            ++ call_if (uops.connect_phy && bus.phydev != 0)
                (Event.connect_phy bus.upstream bus.phydev)
            ++ [Event.sock_attach bus.qsfp]
            ++ call_if bus.started (Event.sock_start bus.qsfp)
            ++ [Event.attach bus.upstream self]) := by
  simp only [qsfp_register_bus, hu, hs]

/-- C1: for a bus with both bindings present `qsfp_register_bus` returns, it
returns 0 exactly when `connect_phy` is not invoked or returns 0, and then
the callbacks invoked are exactly link_down (if provided), connect_phy (if
provided and a PHY is stored), module attach, module start (if started),
upstream attach, in that order, and the bus is registered afterwards, no
other field having changed. -/
theorem register_bus_callback_order (self : Nat) (bus : qsfp_bus)
    (sops : qsfp_socket_ops) (uops : qsfp_upstream_ops) (cb_ret : Int)
    (hs : bus.socket_ops = some sops) (hu : bus.upstream_ops = some uops) :
    ∃ ret bus1 tr, qsfp_register_bus self bus cb_ret = some (ret, bus1, tr) ∧
      (ret = 0 ↔ (uops.connect_phy = true ∧ bus.phydev ≠ 0 → cb_ret = 0)) ∧
      (ret = 0 →
        tr = call_if uops.link_down (Event.link_down bus.upstream)
            ++ call_if (uops.connect_phy && bus.phydev != 0)
                (Event.connect_phy bus.upstream bus.phydev)
            ++ [Event.sock_attach bus.qsfp]
            ++ call_if bus.started (Event.sock_start bus.qsfp)
            ++ [Event.attach bus.upstream self] ∧
        bus1.registered = true ∧
        bus1 = { bus with registered := true }) := by
  rw [register_bus_eq self bus sops uops cb_ret hs hu]
  by_cases hc : (uops.connect_phy && bus.phydev != 0 && cb_ret != 0) = true
  · rw [if_pos hc]
    simp only [Bool.and_eq_true, bne_iff_ne, ne_eq] at hc
    refine ⟨_, _, _, rfl, ?_, ?_⟩
    · constructor
      · intro h
        exact absurd h hc.2
      · intro h
        exact h hc.1
    · intro h
      exact absurd h hc.2
  · rw [if_neg hc]
    simp only [Bool.and_eq_true, bne_iff_ne, ne_eq, not_and, not_not] at hc
    refine ⟨_, _, _, rfl, ?_, ?_⟩
    · constructor
      · intro _ h
        exact hc h
      · intro _
        rfl
    · intro _
      exact ⟨rfl, rfl, rfl⟩

/-- C1, at a bus with a PHY stored and started, whose upstream provides every
optional operation and whose `connect_phy` returns 0. -/
theorem register_bus_callback_order_witness :
    ex_bus.socket_ops = some ex_sops ∧ ex_bus.upstream_ops = some ex_uops ∧
    (qsfp_register_bus 7 ex_bus 0).map (fun r => r.2.2) =
      some [Event.link_down 40, Event.connect_phy 40 50, Event.sock_attach 30,
        Event.sock_start 30, Event.attach 40 7] ∧
    ∃ ret bus1 tr, qsfp_register_bus 7 ex_bus 0 = some (ret, bus1, tr) ∧
      (ret = 0 ↔ (ex_uops.connect_phy = true ∧ ex_bus.phydev ≠ 0 → (0 : Int) = 0)) ∧
      (ret = 0 →
        tr = call_if ex_uops.link_down (Event.link_down ex_bus.upstream)
            ++ call_if (ex_uops.connect_phy && ex_bus.phydev != 0)
                (Event.connect_phy ex_bus.upstream ex_bus.phydev)
            ++ [Event.sock_attach ex_bus.qsfp]
            ++ call_if ex_bus.started (Event.sock_start ex_bus.qsfp)
            ++ [Event.attach ex_bus.upstream 7] ∧
        bus1.registered = true ∧
        bus1 = { ex_bus with registered := true }) :=
  ⟨rfl, rfl, by decide, register_bus_callback_order 7 ex_bus ex_sops ex_uops 0 rfl rfl⟩

/-- What `qsfp_unregister_bus` computes on a registered bus with both
bindings present. -/
theorem unregister_bus_eq (self : Nat) (bus : qsfp_bus)
    (sops : qsfp_socket_ops) (uops : qsfp_upstream_ops)
    (hs : bus.socket_ops = some sops) (hu : bus.upstream_ops = some uops)
    (hr : bus.registered = true) :
    qsfp_unregister_bus self bus =
      some ({ bus with registered := false },
        [Event.detach bus.upstream self]
          ++ call_if bus.started (Event.sock_stop bus.qsfp)
          ++ [Event.sock_detach bus.qsfp]
          ++ call_if (bus.phydev != 0 && uops.disconnect_phy)
              (Event.disconnect_phy bus.upstream)) := by
  simp only [qsfp_unregister_bus, hu, hs, hr, if_true]

/-- C2: on a registered bus (both bindings present, as registration
requires) `qsfp_unregister_bus` invokes exactly upstream detach, module stop
(if started), module detach, disconnect_phy (if a PHY is stored and the
upstream provides it), in that order, and the bus is unregistered
afterwards.  With `tr_a` the callbacks of the attach that registered this
bus: leaving the downstream-PHY steps aside, the detach sequence is the
reverse of the attach sequence, each step replaced by the one undoing it;
and so it is with the PHY steps included when the upstream provides
disconnect_phy exactly when it provides connect_phy. -/
theorem unregister_bus_callback_order (self : Nat) (bus : qsfp_bus)
    (sops : qsfp_socket_ops) (uops : qsfp_upstream_ops)
    (hs : bus.socket_ops = some sops) (hu : bus.upstream_ops = some uops)
    (hr : bus.registered = true) :
    ∃ tr_a tr_d,
      qsfp_register_bus self { bus with registered := false } 0 = some (0, bus, tr_a) ∧
      qsfp_unregister_bus self bus = some ({ bus with registered := false }, tr_d) ∧
      tr_d = [Event.detach bus.upstream self]
          ++ call_if bus.started (Event.sock_stop bus.qsfp)
          ++ [Event.sock_detach bus.qsfp]
          ++ call_if (bus.phydev != 0 && uops.disconnect_phy)
              (Event.disconnect_phy bus.upstream) ∧
      tr_d.filter (fun e => !e.is_phy_step)
        = ((tr_a.filter (fun e => !e.is_phy_step)).filterMap undo).reverse ∧
      ((bus.phydev ≠ 0 → uops.connect_phy = uops.disconnect_phy) →
        tr_d = (tr_a.filterMap undo).reverse) := by
  have ha := register_bus_eq self { bus with registered := false } sops uops 0 hs hu
  have hb : ({ ({ bus with registered := false } : qsfp_bus) with registered := true } : qsfp_bus) = bus := by
    cases bus
    simp only [qsfp_bus.mk.injEq, true_and, and_true] at hr ⊢
    exact hr.symm
  simp only [bne_self_eq_false, Bool.and_false, Bool.false_eq_true, if_false, hb] at ha
  refine ⟨_, _, ha, unregister_bus_eq self bus sops uops hs hu hr, rfl, ?_, ?_⟩
  · cases uops.link_down <;> cases uops.connect_phy <;> cases uops.disconnect_phy <;>
      cases bus.started <;> cases (bus.phydev != 0) <;>
      simp [call_if, undo, Event.is_phy_step]
  · intro h
    by_cases hp : bus.phydev = 0
    · cases uops.link_down <;> cases uops.connect_phy <;> cases uops.disconnect_phy <;>
        cases bus.started <;>
        simp [call_if, undo, hp]
    · have h1 := h hp
      rw [h1]
      cases uops.link_down <;> cases uops.disconnect_phy <;>
        cases bus.started <;>
        simp [call_if, undo, hp]

/-- C2, at a registered, started bus with a PHY stored whose upstream
provides every optional operation. -/
theorem unregister_bus_callback_order_witness :
    ({ ex_bus with registered := true } : qsfp_bus).socket_ops = some ex_sops ∧
    ({ ex_bus with registered := true } : qsfp_bus).upstream_ops = some ex_uops ∧
    ({ ex_bus with registered := true } : qsfp_bus).registered = true ∧
    (qsfp_unregister_bus 7 { ex_bus with registered := true }).map (fun r => r.2) =
      some [Event.detach 40 7, Event.sock_stop 30, Event.sock_detach 30,
        Event.disconnect_phy 40] ∧
    ∃ tr_a tr_d,
      qsfp_register_bus 7 ex_bus 0 = some (0, { ex_bus with registered := true }, tr_a) ∧
      qsfp_unregister_bus 7 { ex_bus with registered := true } = some (ex_bus, tr_d) ∧
      tr_d = [Event.detach 40 7, Event.sock_stop 30, Event.sock_detach 30,
        Event.disconnect_phy 40] ∧
      tr_d.filter (fun e => !e.is_phy_step)
        = ((tr_a.filter (fun e => !e.is_phy_step)).filterMap undo).reverse ∧
      (((50 : Nat) ≠ 0 → true = true) → tr_d = (tr_a.filterMap undo).reverse) :=
  ⟨rfl, rfl, rfl, by decide,
    unregister_bus_callback_order 7 { ex_bus with registered := true } ex_sops ex_uops
      rfl rfl rfl⟩

/-! ### Reading and writing bus objects -/

/-- A pointer that can be dereferenced is not `NULL`. -/
theorem bus_deref_ne_zero {l : List (Nat × qsfp_bus)} {p : Nat} {b : qsfp_bus}
    (h : bus_deref l p = some b) : p ≠ 0 := by
  intro hp
  subst hp
  cases l with
  | nil => simp [bus_deref] at h
  | cons e rest =>
    obtain ⟨a, c⟩ := e
    simp [bus_deref] at h

/-- The object a pointer refers to is an element of the registry. -/
theorem bus_deref_mem {l : List (Nat × qsfp_bus)} {p : Nat} {b : qsfp_bus}
    (h : bus_deref l p = some b) : (p, b) ∈ l := by
  induction l with
  | nil => simp [bus_deref] at h
  | cons e rest ih =>
    obtain ⟨a, c⟩ := e
    simp only [bus_deref] at h
    by_cases hp : p = 0
    · simp [hp] at h
    · simp only [hp, if_false] at h
      by_cases ha : a = p
      · simp only [ha, if_true, Option.some.injEq] at h
        subst h
        subst ha
        exact List.mem_cons_self _ _
      · simp only [ha, if_false] at h
        exact List.mem_cons_of_mem _ (ih h)

/-- Reading back what was written. -/
theorem bus_deref_store {l : List (Nat × qsfp_bus)} {p : Nat} {b : qsfp_bus}
    (h : bus_deref l p = some b) (v : qsfp_bus) :
    bus_deref (bus_store l p v) p = some v := by
  have hp := bus_deref_ne_zero h
  induction l with
  | nil => simp [bus_deref] at h
  | cons e rest ih =>
    obtain ⟨a, c⟩ := e
    simp only [bus_deref, hp, if_false] at h
    by_cases ha : a = p
    · simp [bus_store, bus_deref, ha, hp]
    · simp only [ha, if_false] at h
      simp [bus_store, bus_deref, ha, hp, ih h]

/-- A second write to the same object overwrites the first. -/
theorem bus_store_store (l : List (Nat × qsfp_bus)) (p : Nat) (v v1 : qsfp_bus) :
    bus_store (bus_store l p v) p v1 = bus_store l p v1 := by
  induction l with
  | nil => rfl
  | cons e rest ih =>
    obtain ⟨a, c⟩ := e
    by_cases ha : a = p
    · simp [bus_store, ha]
    · simp [bus_store, ha, ih]

/-- Writing back the value read changes nothing. -/
theorem bus_store_same {l : List (Nat × qsfp_bus)} {p : Nat} {b : qsfp_bus}
    (h : bus_deref l p = some b) : bus_store l p b = l := by
  have hp := bus_deref_ne_zero h
  induction l with
  | nil => rfl
  | cons e rest ih =>
    obtain ⟨a, c⟩ := e
    simp only [bus_deref, hp, if_false] at h
    by_cases ha : a = p
    · simp only [ha, if_true, Option.some.injEq] at h
      simp [bus_store, ha, h]
    · simp only [ha, if_false] at h
      simp [bus_store, ha, ih h]

/-- Unlinking an object that was just written unlinks the object. -/
theorem list_del_store (l : List (Nat × qsfp_bus)) (p : Nat) (v : qsfp_bus) :
    list_del (bus_store l p v) p = list_del l p := by
  induction l with
  | nil => rfl
  | cons e rest ih =>
    obtain ⟨a, c⟩ := e
    by_cases ha : a = p
    · simp [bus_store, list_del, ha]
    · simp [bus_store, list_del, ha, ih]

/-- What `qsfp_register_bus` computes when `connect_phy` is invoked and
fails. -/
theorem register_bus_fail (self : Nat) (bus : qsfp_bus) (uops : qsfp_upstream_ops)
    (cb_ret : Int) (hu : bus.upstream_ops = some uops)
    (hcp : uops.connect_phy = true) (hphy : bus.phydev ≠ 0) (he : cb_ret ≠ 0) :
    qsfp_register_bus self bus cb_ret =
      some (cb_ret, bus,
        call_if uops.link_down (Event.link_down bus.upstream)
          ++ [Event.connect_phy bus.upstream bus.phydev]) := by
  simp [qsfp_register_bus, hu, hcp, hphy, he, call_if]

/-- What `qsfp_bus_put` computes on a live bus. -/
theorem bus_put_eq {w : World} {p : Nat} {b : qsfp_bus}
    (h : bus_deref w.qsfp_buses p = some b) :
    qsfp_bus_put w p =
      if b.kref - 1 = 0 then some { w with qsfp_buses := list_del w.qsfp_buses p }
      else some { w with
        qsfp_buses := bus_store w.qsfp_buses p ({ b with kref := b.kref - 1 }) } := by
  simp [qsfp_bus_put, bus_deref_ne_zero h, h]

/-- C3: when the module side is bound, the upstream side is unbound, the bus
is unregistered with a PHY stored, and `connect_phy` returns an error `e`,
`qsfp_bus_add_upstream` returns `e`, invokes only link_down (if provided) and
connect_phy, and leaves the bus unregistered, with an empty upstream binding
and the reference count, `started`, `phydev` and every other field as before
the call. -/
theorem add_upstream_rollback (w : World) (p upstream : Nat)
    (uops : qsfp_upstream_ops) (e : Int) (b : qsfp_bus)
    (hd : bus_deref w.qsfp_buses p = some b) (hk : 0 < b.kref)
    (hq : b.qsfp ≠ 0) (hup : b.upstream_ops = none)
    (hreg : b.registered = false) (hphy : b.phydev ≠ 0)
    (hcp : uops.connect_phy = true) (he : e ≠ 0) :
    ∃ w1 b1, qsfp_bus_add_upstream w p upstream (some uops) e = some (e, w1) ∧
      w1.trace = w.trace ++ call_if uops.link_down (Event.link_down upstream)
        ++ [Event.connect_phy upstream b.phydev] ∧
      bus_deref w1.qsfp_buses p = some b1 ∧
      w1.qsfp_buses = bus_store w.qsfp_buses p b1 ∧
      b1.registered = false ∧ b1.upstream_ops = none ∧ b1.upstream = 0 ∧
      b1.started = b.started ∧ b1.phydev = b.phydev ∧ b1.kref = b.kref ∧
      b1 = { b with upstream := 0 } ∧
      (b.upstream = 0 → w1.qsfp_buses = w.qsfp_buses) := by
  have hp := bus_deref_ne_zero hd
  have hb1 : qsfp_upstream_clear
      ({ (kref_get b) with upstream_ops := some uops, upstream := upstream } : qsfp_bus)
      = { b with upstream := 0, kref := b.kref + 1 } := by
    cases b
    simp only [qsfp_upstream_clear, kref_get, qsfp_bus.mk.injEq, true_and, and_true] at hup ⊢
    exact hup.symm
  have hfail := register_bus_fail p
    ({ (kref_get b) with upstream_ops := some uops, upstream := upstream } : qsfp_bus)
    uops e rfl hcp hphy he
  have hq1 : (kref_get b).qsfp ≠ 0 := hq
  have hput := bus_put_eq
    (w := World.update w p (({ b with upstream := 0, kref := b.kref + 1 } : qsfp_bus),
      call_if uops.link_down (Event.link_down upstream)
        ++ [Event.connect_phy upstream b.phydev]))
    (bus_deref_store hd _)
  have hk1 : ¬ (b.kref = 0) := by omega
  simp only [World.update, bus_store_store, Nat.add_sub_cancel, hk1, if_false] at hput
  refine ⟨World.mk (bus_store w.qsfp_buses p ({ b with upstream := 0 }))
      (w.trace ++ (call_if uops.link_down (Event.link_down upstream)
        ++ [Event.connect_phy upstream b.phydev])),
    { b with upstream := 0 }, ?_, ?_, bus_deref_store hd _, rfl, hreg, hup, rfl,
    rfl, rfl, rfl, rfl, ?_⟩
  · simp only [qsfp_bus_add_upstream, hp, if_false, hd, bne_iff_ne, ne_eq, hq1,
      not_false_eq_true, if_true, hfail, he, hb1]
    simp only [World.update, kref_get] at hput ⊢
    rw [hput]
    rfl
  · simp [List.append_assoc]
  · intro h0
    have : ({ b with upstream := 0 } : qsfp_bus) = b := by
      cases b
      simp only [qsfp_bus.mk.injEq, true_and, and_true] at h0 ⊢
      simp [h0]
    simp only [this]
    exact bus_store_same hd

/-- C3, at a registry whose one bus has the module side bound and a PHY
stored, with an upstream whose `connect_phy` returns -19. -/
theorem add_upstream_rollback_witness :
    bus_deref ex_world_module_only.qsfp_buses 5 = some ex_bus_module_only ∧
    qsfp_bus_add_upstream ex_world_module_only 5 40 (some ex_uops) (-19) =
      some (-19, { qsfp_buses := [(5, ex_bus_module_only)],
                   trace := [Event.link_down 40, Event.connect_phy 40 50] }) ∧
    ∃ w1 b1, qsfp_bus_add_upstream ex_world_module_only 5 40 (some ex_uops) (-19)
        = some (-19, w1) ∧
      w1.trace = ex_world_module_only.trace
        ++ call_if ex_uops.link_down (Event.link_down 40)
        ++ [Event.connect_phy 40 ex_bus_module_only.phydev] ∧
      bus_deref w1.qsfp_buses 5 = some b1 ∧
      w1.qsfp_buses = bus_store ex_world_module_only.qsfp_buses 5 b1 ∧
      b1.registered = false ∧ b1.upstream_ops = none ∧ b1.upstream = 0 ∧
      b1.started = ex_bus_module_only.started ∧
      b1.phydev = ex_bus_module_only.phydev ∧ b1.kref = ex_bus_module_only.kref ∧
      b1 = { ex_bus_module_only with upstream := 0 } ∧
      (ex_bus_module_only.upstream = 0 →
        w1.qsfp_buses = ex_world_module_only.qsfp_buses) :=
  ⟨by decide, by decide,
    add_upstream_rollback ex_world_module_only 5 40 ex_uops (-19) ex_bus_module_only
      (by decide) (by decide) (by decide) (by decide) (by decide) (by decide)
      (by decide) (by decide)⟩

/-- The bus found by identity carries that identity. -/
theorem bus_find_fwnode {l : List (Nat × qsfp_bus)} {k p : Nat} {b : qsfp_bus}
    (h : bus_find l k = some (p, b)) : b.fwnode = k := by
  induction l with
  | nil => simp [bus_find] at h
  | cons e rest ih =>
    obtain ⟨a, c⟩ := e
    simp only [bus_find] at h
    by_cases hc : c.fwnode = k
    · simp only [hc, if_true, Option.some.injEq, Prod.mk.injEq] at h
      rw [← h.2]
      exact hc
    · simp only [hc, if_false] at h
      exact ih h

/-- The bus found by identity is an element of the registry. -/
theorem bus_find_mem {l : List (Nat × qsfp_bus)} {k p : Nat} {b : qsfp_bus}
    (h : bus_find l k = some (p, b)) : (p, b) ∈ l := by
  induction l with
  | nil => simp [bus_find] at h
  | cons e rest ih =>
    obtain ⟨a, c⟩ := e
    simp only [bus_find] at h
    by_cases hc : c.fwnode = k
    · simp only [hc, if_true, Option.some.injEq, Prod.mk.injEq] at h
      rw [← h.1, ← h.2]
      exact List.mem_cons_self _ _
    · simp only [hc, if_false] at h
      exact List.mem_cons_of_mem _ (ih h)

/-- The loop of `qsfp_bus_get` finds nothing exactly when no bus has the
identity. -/
theorem bus_lookup_none {l : List (Nat × qsfp_bus)} {k : Nat}
    (h : bus_find l k = none) : bus_lookup l k = none := by
  induction l with
  | nil => rfl
  | cons e rest ih =>
    obtain ⟨a, c⟩ := e
    simp only [bus_find] at h
    by_cases hc : c.fwnode = k
    · simp [hc] at h
    · simp only [hc, if_false] at h
      simp [bus_lookup, hc, ih h]

/-- The loop of `qsfp_bus_get` on a registry where the bus of identity `k`
is the object at address `p`: that address is returned and that object gets
a reference. -/
theorem bus_lookup_some {l : List (Nat × qsfp_bus)} {k p : Nat} {b : qsfp_bus}
    (hf : bus_find l k = some (p, b)) (hd : bus_deref l p = some b) :
    bus_lookup l k = some (p, bus_store l p (kref_get b)) := by
  have hp := bus_deref_ne_zero hd
  have hk := bus_find_fwnode hf
  induction l with
  | nil => simp [bus_find] at hf
  | cons e rest ih =>
    obtain ⟨a, c⟩ := e
    simp only [bus_find] at hf
    simp only [bus_deref, hp, if_false] at hd
    by_cases hc : c.fwnode = k
    · simp only [hc, if_true, Option.some.injEq, Prod.mk.injEq] at hf
      obtain ⟨h1, h2⟩ := hf
      subst h1
      subst h2
      simp [bus_lookup, hc, bus_store]
    · simp only [hc, if_false] at hf
      by_cases ha : a = p
      · simp only [ha, if_true, Option.some.injEq] at hd
        subst hd
        exact absurd hk hc
      · simp only [ha, if_false] at hd
        simp [bus_lookup, hc, bus_store, ha, ih hf hd]

/-- What `qsfp_bus_get` computes when the bus of identity `k` is the object
at address `p`. -/
theorem bus_get_found {w : World} {k p : Nat} {b : qsfp_bus} (new : Nat)
    (hf : bus_find w.qsfp_buses k = some (p, b))
    (hd : bus_deref w.qsfp_buses p = some b) :
    qsfp_bus_get w new k =
      (p, { w with qsfp_buses := bus_store w.qsfp_buses p (kref_get b) }) := by
  simp [qsfp_bus_get, bus_lookup_some hf hd]

/-- C4 (amended): when the bus of the device's identity is in the registry
with the upstream side bound, unregistered, a PHY stored, and `connect_phy`
returns an error `e`, `qsfp_register_socket` returns `NULL` (the error code
is not returned), invokes only link_down (if provided) and connect_phy,
leaves the bus unregistered with an empty module-side binding, and the
reference count and every other field as before the call. -/
theorem register_socket_rollback (w : World) (new : Nat) (dev : device) (qsfp : Nat)
    (ops : Option qsfp_socket_ops) (uops : qsfp_upstream_ops) (e : Int)
    (p : Nat) (b : qsfp_bus)
    (hf : bus_find w.qsfp_buses dev.fwnode = some (p, b))
    (hd : bus_deref w.qsfp_buses p = some b) (hk : 0 < b.kref)
    (hup : b.upstream_ops = some uops) (hreg : b.registered = false)
    (hphy : b.phydev ≠ 0) (hcp : uops.connect_phy = true) (he : e ≠ 0) :
    ∃ w1 b1, qsfp_register_socket w new dev qsfp ops e = some (0, w1) ∧
      w1.trace = w.trace ++ call_if uops.link_down (Event.link_down b.upstream)
        ++ [Event.connect_phy b.upstream b.phydev] ∧
      bus_deref w1.qsfp_buses p = some b1 ∧
      w1.qsfp_buses = bus_store w.qsfp_buses p b1 ∧
      b1.qsfp_dev = 0 ∧ b1.qsfp = 0 ∧ b1.socket_ops = none ∧
      b1.registered = false ∧ b1.kref = b.kref ∧
      b1 = { b with qsfp_dev := 0, qsfp := 0, socket_ops := none } ∧
      (b.qsfp_dev = 0 ∧ b.qsfp = 0 ∧ b.socket_ops = none →
        w1.qsfp_buses = w.qsfp_buses) := by
  have hp := bus_deref_ne_zero hd
  have hfail := register_bus_fail p
    ({ (kref_get b) with qsfp_dev := dev.addr, qsfp := qsfp, socket_ops := ops } : qsfp_bus)
    uops e hup hcp hphy he
  have hd1 : bus_deref (bus_store w.qsfp_buses p (kref_get b)) p = some (kref_get b) :=
    bus_deref_store hd _
  have hput := bus_put_eq
    (w := World.mk
      (bus_store w.qsfp_buses p
        ({ b with qsfp_dev := 0, qsfp := 0, socket_ops := none, kref := b.kref + 1 }))
      (w.trace ++ (call_if uops.link_down (Event.link_down b.upstream)
        ++ [Event.connect_phy b.upstream b.phydev])))
    (bus_deref_store hd _)
  have hk1 : ¬ (b.kref = 0) := by omega
  simp only [bus_store_store, Nat.add_sub_cancel, hk1, if_false] at hput
  refine ⟨World.mk
      (bus_store w.qsfp_buses p ({ b with qsfp_dev := 0, qsfp := 0, socket_ops := none }))
      (w.trace ++ (call_if uops.link_down (Event.link_down b.upstream)
        ++ [Event.connect_phy b.upstream b.phydev])),
    { b with qsfp_dev := 0, qsfp := 0, socket_ops := none }, ?_, ?_,
    bus_deref_store hd _, rfl, rfl, rfl, rfl, hreg, rfl, rfl, ?_⟩
  · have hup1 : (kref_get b).upstream_ops = some uops := hup
    dsimp only at hfail
    simp only [qsfp_register_socket, bus_get_found new hf hd, bne_iff_ne, ne_eq, hp,
      not_false_eq_true, if_true, hd1, hfail]
    simp only [hup1, he, not_false_eq_true, if_true, World.update, bus_store_store,
      qsfp_socket_clear, kref_get]
    simp only [hup] at hput ⊢
    exact congrArg (Option.map (fun w2 => ((0 : Nat), w2))) hput
  · simp [List.append_assoc]
  · intro h0
    have : ({ b with qsfp_dev := 0, qsfp := 0, socket_ops := none } : qsfp_bus) = b := by
      cases b
      simp only [qsfp_bus.mk.injEq, true_and, and_true] at h0 ⊢
      simp [h0]
    simp only [this]
    exact bus_store_same hd

/-- C4 (amended), at a registry whose one bus has the upstream side bound
and a PHY stored, with `connect_phy` returning -19. -/
theorem register_socket_rollback_witness :
    bus_find ex_world_upstream_only.qsfp_buses ex_dev.fwnode
      = some (5, ex_bus_upstream_only) ∧
    bus_deref ex_world_upstream_only.qsfp_buses 5 = some ex_bus_upstream_only ∧
    ∃ w1 b1, qsfp_register_socket ex_world_upstream_only 6 ex_dev 30 (some ex_sops) (-19)
        = some (0, w1) ∧
      w1.trace = ex_world_upstream_only.trace
        ++ call_if ex_uops.link_down (Event.link_down ex_bus_upstream_only.upstream)
        ++ [Event.connect_phy ex_bus_upstream_only.upstream ex_bus_upstream_only.phydev] ∧
      bus_deref w1.qsfp_buses 5 = some b1 ∧
      w1.qsfp_buses = bus_store ex_world_upstream_only.qsfp_buses 5 b1 ∧
      b1.qsfp_dev = 0 ∧ b1.qsfp = 0 ∧ b1.socket_ops = none ∧
      b1.registered = false ∧ b1.kref = ex_bus_upstream_only.kref ∧
      b1 = { ex_bus_upstream_only with qsfp_dev := 0, qsfp := 0, socket_ops := none } ∧
      (ex_bus_upstream_only.qsfp_dev = 0 ∧ ex_bus_upstream_only.qsfp = 0 ∧
          ex_bus_upstream_only.socket_ops = none →
        w1.qsfp_buses = ex_world_upstream_only.qsfp_buses) :=
  ⟨by decide, by decide,
    register_socket_rollback ex_world_upstream_only 6 ex_dev 30 (some ex_sops) ex_uops
      (-19) 5 ex_bus_upstream_only (by decide) (by decide) (by decide) (by decide)
      (by decide) (by decide) (by decide) (by decide)⟩

/-- C4 as stated fails: with `connect_phy` returning the error -19 on the
registry whose one bus has the upstream side bound and a PHY stored,
`qsfp_register_socket` returns the `NULL` pointer, which is not the error;
it returns the same for the error -5, so the caller cannot tell which error
occurred. -/
theorem register_socket_error_not_returned :
    qsfp_register_socket ex_world_upstream_only 6 ex_dev 30 (some ex_sops) (-19) =
      some (0, { qsfp_buses := [(5, ex_bus_upstream_only)],
                 trace := [Event.link_down 40, Event.connect_phy 40 50] }) ∧
    ((0 : Nat) : Int) ≠ -19 ∧
    qsfp_register_socket ex_world_upstream_only 6 ex_dev 30 (some ex_sops) (-5) =
      qsfp_register_socket ex_world_upstream_only 6 ex_dev 30 (some ex_sops) (-19) := by
  decide

/-! ### The registration invariant -/

/-- The invariant holds of the object a pointer refers to. -/
theorem inv_deref {w : World} {p : Nat} {b : qsfp_bus}
    (hinv : registered_implies_bound w)
    (hd : bus_deref w.qsfp_buses p = some b) : bus_bound_if_registered b :=
  hinv (p, b) (bus_deref_mem hd)

/-- Every element of a registry after a write is the value written or an
element from before. -/
theorem mem_bus_store {l : List (Nat × qsfp_bus)} {p : Nat} {v : qsfp_bus}
    {e : Nat × qsfp_bus} (h : e ∈ bus_store l p v) : e.2 = v ∨ e ∈ l := by
  induction l with
  | nil => simp [bus_store] at h
  | cons x rest ih =>
    obtain ⟨a, c⟩ := x
    by_cases ha : a = p
    · simp only [bus_store, ha, if_true, List.mem_cons] at h
      rcases h with h | h
      · left
        rw [h]
      · right
        exact List.mem_cons_of_mem _ h
    · simp only [bus_store, ha, if_false, List.mem_cons] at h
      rcases h with h | h
      · right
        rw [h]
        exact List.mem_cons_self _ _
      · rcases ih h with h1 | h1
        · left
          exact h1
        · right
          exact List.mem_cons_of_mem _ h1

/-- Every element of a registry after an unlink was an element before. -/
theorem mem_list_del {l : List (Nat × qsfp_bus)} {p : Nat}
    {e : Nat × qsfp_bus} (h : e ∈ list_del l p) : e ∈ l := by
  induction l with
  | nil => simp [list_del] at h
  | cons x rest ih =>
    obtain ⟨a, c⟩ := x
    by_cases ha : a = p
    · simp only [list_del, ha, if_true] at h
      exact List.mem_cons_of_mem _ h
    · simp only [list_del, ha, if_false, List.mem_cons] at h
      rcases h with h | h
      · rw [h]
        exact List.mem_cons_self _ _
      · exact List.mem_cons_of_mem _ (ih h)

/-- Every element of a registry after the lookup loop is an element from
before, up to its reference count. -/
theorem mem_bus_lookup {l l1 : List (Nat × qsfp_bus)} {k found : Nat}
    (hl : bus_lookup l k = some (found, l1)) {e : Nat × qsfp_bus} (h : e ∈ l1) :
    ∃ e0 ∈ l, e.2 = e0.2 ∨ e.2 = kref_get e0.2 := by
  induction l generalizing l1 found with
  | nil => simp [bus_lookup] at hl
  | cons x rest ih =>
    obtain ⟨a, c⟩ := x
    by_cases hc : c.fwnode = k
    · simp only [bus_lookup, hc, if_true, Option.some.injEq, Prod.mk.injEq] at hl
      rw [← hl.2] at h
      rcases List.mem_cons.mp h with h | h
      · exact ⟨(a, c), List.mem_cons_self _ _, Or.inr (by rw [h])⟩
      · exact ⟨e, List.mem_cons_of_mem _ h, Or.inl rfl⟩
    · simp only [bus_lookup, hc, if_false] at hl
      cases hr : bus_lookup rest k with
      | none => simp [hr] at hl
      | some r =>
        obtain ⟨f, r1⟩ := r
        simp only [hr, Option.some.injEq, Prod.mk.injEq] at hl
        rw [← hl.2] at h
        rcases List.mem_cons.mp h with h | h
        · exact ⟨(a, c), List.mem_cons_self _ _, Or.inl (by rw [h])⟩
        · obtain ⟨e0, he0, hor⟩ := ih hr h
          exact ⟨e0, List.mem_cons_of_mem _ he0, hor⟩

/-- The invariant survives a write of a value that satisfies it. -/
theorem inv_update {w : World} (hinv : registered_implies_bound w) (p : Nat)
    (r : qsfp_bus × List Event) (hv : bus_bound_if_registered r.1) :
    registered_implies_bound (w.update p r) := by
  intro e he
  rcases mem_bus_store he with h | h
  · rw [h]
    exact hv
  · exact hinv e h

/-- The invariant survives `qsfp_bus_put`. -/
theorem inv_put {w w1 : World} {p : Nat} (hinv : registered_implies_bound w)
    (h : qsfp_bus_put w p = some w1) : registered_implies_bound w1 := by
  unfold qsfp_bus_put at h
  by_cases hp : p = 0
  · simp only [hp, if_true, Option.some.injEq] at h
    rw [← h]
    exact hinv
  · simp only [hp, if_false] at h
    cases hd : bus_deref w.qsfp_buses p with
    | none => simp [hd] at h
    | some b =>
      simp only [hd] at h
      by_cases hk : b.kref - 1 = 0
      · simp only [hk, if_true, Option.some.injEq] at h
        rw [← h]
        intro e he
        exact hinv e (mem_list_del he)
      · simp only [hk, if_false, Option.some.injEq] at h
        rw [← h]
        intro e he
        rcases mem_bus_store he with h1 | h1
        · rw [h1]
          exact fun hreg => inv_deref hinv hd hreg
        · exact hinv e h1

/-- The invariant survives `qsfp_bus_get`. -/
theorem inv_bus_get {w : World} (hinv : registered_implies_bound w) (new k : Nat) :
    registered_implies_bound (qsfp_bus_get w new k).2 := by
  unfold qsfp_bus_get
  cases hl : bus_lookup w.qsfp_buses k with
  | some r =>
    obtain ⟨found, l1⟩ := r
    intro e he
    obtain ⟨e0, he0, hor⟩ := mem_bus_lookup hl he
    rcases hor with h | h
    · rw [h]
      exact hinv e0 he0
    · rw [h]
      exact hinv e0 he0
  | none =>
    by_cases hn : new = 0
    · simp only [hn, bne_self_eq_false, Bool.false_eq_true, if_false]
      exact hinv
    · have hn1 : (new != 0) = true := by simp [hn]
      simp only [hn1, if_true]
      intro e he
      rcases List.mem_cons.mp he with h | h
      · rw [h]
        intro hreg
        simp [kref_init, kzalloc] at hreg
      · exact hinv e h

/-- The two outcomes of `qsfp_register_bus`: the bus untouched and an error,
the attach having failed at connect_phy, or the bus registered, its
module-side table present, and 0. -/
theorem register_bus_cases {self : Nat} {b b2 : qsfp_bus} {cb_ret ret : Int}
    {ev : List Event} (h : qsfp_register_bus self b cb_ret = some (ret, b2, ev)) :
    (b2 = b ∧ ret ≠ 0 ∧ attach_fails b.upstream_ops b.phydev cb_ret = true) ∨
    (b2 = { b with registered := true } ∧ b.socket_ops ≠ none ∧ ret = 0) := by
  unfold qsfp_register_bus at h
  simp only at h
  split at h
  · rename_i hc
    simp only [Option.some.injEq, Prod.mk.injEq] at h
    left
    refine ⟨h.2.1.symm, ?_, ?_⟩
    · simp only [Bool.and_eq_true, bne_iff_ne, ne_eq] at hc
      rw [← h.1]
      exact hc.2
    · cases hu : b.upstream_ops with
      | none => simp [hu] at hc
      | some uops =>
        simp only [hu] at hc
        simp only [attach_fails]
        exact hc
  · cases hs : b.socket_ops with
    | none => simp [hs] at h
    | some sops =>
      right
      simp only [hs] at h
      cases hu : b.upstream_ops with
      | none =>
        simp only [hu, Option.some.injEq, Prod.mk.injEq] at h
        exact ⟨h.2.1.symm, by simp, h.1.symm⟩
      | some uops =>
        simp only [hu, Option.some.injEq, Prod.mk.injEq] at h
        exact ⟨h.2.1.symm, by simp, h.1.symm⟩

/-- The bus after `qsfp_unregister_bus` is the bus unregistered. -/
theorem unregister_bus_cases {self : Nat} {b b1 : qsfp_bus} {ev : List Event}
    (h : qsfp_unregister_bus self b = some (b1, ev)) :
    b1 = { b with registered := false } := by
  unfold qsfp_unregister_bus at h
  by_cases hr : b.registered = true
  · simp only [hr, if_true] at h
    cases hu : b.upstream_ops with
    | none => simp [hu] at h
    | some uops =>
      cases hs : b.socket_ops with
      | none => simp [hu, hs] at h
      | some sops =>
        simp only [hu, hs, Option.some.injEq, Prod.mk.injEq] at h
        exact h.1.symm
  · simp only [hr, if_false, Option.some.injEq, Prod.mk.injEq, Bool.false_eq_true] at h
    exact h.1.symm

/-- The invariant survives an entry point that works on the fields of one
bus and keeps the invariant of that bus. -/
theorem inv_on_bus {w w1 : World} {p : Nat}
    {f : qsfp_bus → Option (qsfp_bus × List Event)}
    (hinv : registered_implies_bound w)
    (hf : ∀ b r, bus_bound_if_registered b → f b = some r → bus_bound_if_registered r.1)
    (h : w.on_bus p f = some w1) : registered_implies_bound w1 := by
  unfold World.on_bus at h
  cases hd : bus_deref w.qsfp_buses p with
  | none => simp [hd] at h
  | some b =>
    simp only [hd] at h
    cases hr : f b with
    | none => simp [hr] at h
    | some r =>
      simp only [hr, Option.some.injEq] at h
      rw [← h]
      exact inv_update hinv p r (hf b r (inv_deref hinv hd) hr)

/-- The invariant survives `qsfp_bus_add_upstream` with a non-null table,
unless the call is made on a registered bus and its attach fails. -/
theorem inv_add_upstream {w w1 : World} {bus upstream : Nat}
    {uops : qsfp_upstream_ops} {cb_ret ret : Int}
    (hinv : registered_implies_bound w)
    (hg : ∀ b, bus_deref w.qsfp_buses bus = some b →
      (b.registered && attach_fails (some uops) b.phydev cb_ret) = false)
    (h : qsfp_bus_add_upstream w bus upstream (some uops) cb_ret = some (ret, w1)) :
    registered_implies_bound w1 := by
  unfold qsfp_bus_add_upstream at h
  by_cases hp : bus = 0
  · simp only [hp, if_true, Option.some.injEq, Prod.mk.injEq] at h
    rw [← h.2]
    exact hinv
  · simp only [hp, if_false] at h
    cases hd : bus_deref w.qsfp_buses bus with
    | none => simp [hd] at h
    | some b =>
      have hgb := hg b hd
      have hb := inv_deref hinv hd
      simp only [hd] at h
      by_cases hq : b.qsfp = 0
      · have hq1 : ((kref_get b).qsfp != 0) = false := by simp [kref_get, hq]
        simp only [hq1, Bool.false_eq_true, if_false, Option.some.injEq, Prod.mk.injEq] at h
        rw [← h.2]
        apply inv_update hinv
        intro hr
        exact absurd hq (hb hr).1
      · have hq1 : ((kref_get b).qsfp != 0) = true := by simp [kref_get, hq]
        simp only [hq1, if_true] at h
        cases hrb : qsfp_register_bus bus
            ({ (kref_get b) with upstream_ops := some uops, upstream := upstream } : qsfp_bus)
            cb_ret with
        | none =>
          dsimp only at hrb
          simp [hrb] at h
        | some r =>
          obtain ⟨ret1, b2, ev⟩ := r
          have hcases := register_bus_cases hrb
          dsimp only at hrb
          simp only [hrb] at h
          rcases hcases with ⟨hb2, hne, hfail⟩ | ⟨hb2, hs, h0⟩
          · have hne1 : (ret1 != 0) = true := by simp [hne]
            simp only [hne1, if_true, Option.map_eq_some'] at h
            obtain ⟨w2, hput, hw⟩ := h
            simp only [Prod.mk.injEq] at hw
            rw [← hw.2]
            refine inv_put (inv_update hinv bus _ ?_) hput
            intro hr
            rw [hb2] at hr
            have hr1 : b.registered = true := hr
            have hf1 : attach_fails (some uops) b.phydev cb_ret = true := hfail
            rw [hr1, hf1] at hgb
            simp at hgb
          · have hne1 : (ret1 != 0) = false := by simp [h0]
            simp only [hne1, Bool.false_eq_true, if_false, Option.some.injEq,
              Prod.mk.injEq] at h
            rw [← h.2]
            apply inv_update hinv
            intro _
            rw [hb2]
            exact ⟨hq, hs, by simp⟩

/-- The invariant survives `qsfp_register_socket` with a non-null module
handle, unless the call is made on a registered bus and its attach fails. -/
theorem inv_register_socket {w w1 : World} {new qsfp ret : Nat} {dev : device}
    {ops : Option qsfp_socket_ops} {cb_ret : Int}
    (hinv : registered_implies_bound w) (hq : qsfp ≠ 0)
    (hg : ∀ b, bus_deref (qsfp_bus_get w new dev.fwnode).2.qsfp_buses
      (qsfp_bus_get w new dev.fwnode).1 = some b →
      (b.registered && attach_fails b.upstream_ops b.phydev cb_ret) = false)
    (h : qsfp_register_socket w new dev qsfp ops cb_ret = some (ret, w1)) :
    registered_implies_bound w1 := by
  unfold qsfp_register_socket at h
  have hinv1 := inv_bus_get hinv new dev.fwnode
  generalize qsfp_bus_get w new dev.fwnode = r at h hinv1 hg
  obtain ⟨bus, wg⟩ := r
  simp only at h hinv1 hg
  by_cases hp : bus = 0
  · simp only [hp, bne_self_eq_false, Bool.false_eq_true, if_false, Option.some.injEq,
      Prod.mk.injEq] at h
    rw [← h.2]
    exact hinv1
  · have hp1 : (bus != 0) = true := by simp [hp]
    simp only [hp1, if_true] at h
    cases hd : bus_deref wg.qsfp_buses bus with
    | none => simp [hd] at h
    | some b =>
      have hgb := hg b hd
      have hb := inv_deref hinv1 hd
      simp only [hd] at h
      cases hu : b.upstream_ops with
      | none =>
        simp only [hu, Option.some.injEq, Prod.mk.injEq] at h
        rw [← h.2]
        apply inv_update hinv1
        intro hr
        exact absurd hu (hb hr).2.2
      | some uops =>
        simp only [hu] at h
        cases hrb : qsfp_register_bus bus
            ({ b with qsfp_dev := dev.addr, qsfp := qsfp, socket_ops := ops,
                      upstream_ops := some uops } : qsfp_bus)
            cb_ret with
        | none => simp [hrb] at h
        | some r =>
          obtain ⟨ret1, b2, ev⟩ := r
          have hcases := register_bus_cases hrb
          simp only [hrb] at h
          rcases hcases with ⟨hb2, hne, hfail⟩ | ⟨hb2, hs, h0⟩
          · have hne1 : (ret1 != 0) = true := by simp [hne]
            simp only [hne1, if_true, Option.map_eq_some'] at h
            obtain ⟨w2, hput, hw⟩ := h
            simp only [Prod.mk.injEq] at hw
            rw [← hw.2]
            refine inv_put (inv_update hinv1 bus _ ?_) hput
            intro hr
            rw [hb2] at hr
            have hr1 : b.registered = true := hr
            have hf1 : attach_fails (some uops) b.phydev cb_ret = true := hfail
            rw [hr1, hu, hf1] at hgb
            simp at hgb
          · have hne1 : (ret1 != 0) = false := by simp [h0]
            simp only [hne1, Bool.false_eq_true, if_false, Option.some.injEq,
              Prod.mk.injEq] at h
            rw [← h.2]
            apply inv_update hinv1
            intro _
            rw [hb2]
            exact ⟨hq, hs, by simp⟩

/-- The invariant survives `qsfp_bus_del_upstream`. -/
theorem inv_del_upstream {w w1 : World} {bus : Nat}
    (hinv : registered_implies_bound w)
    (h : qsfp_bus_del_upstream w bus = some w1) : registered_implies_bound w1 := by
  unfold qsfp_bus_del_upstream at h
  by_cases hp : bus = 0
  · simp only [hp, if_true, Option.some.injEq] at h
    rw [← h]
    exact hinv
  · simp only [hp, if_false] at h
    cases hd : bus_deref w.qsfp_buses bus with
    | none => simp [hd] at h
    | some b =>
      simp only [hd] at h
      have hb := inv_deref hinv hd
      by_cases hq : b.qsfp = 0
      · simp only [hq, bne_self_eq_false, Bool.false_eq_true, if_false] at h
        refine inv_put (inv_update hinv bus _ ?_) h
        intro hr
        exact absurd hq (hb hr).1
      · have hq1 : (b.qsfp != 0) = true := by simp [hq]
        simp only [hq1, if_true] at h
        cases hub : qsfp_unregister_bus bus b with
        | none => simp [hub] at h
        | some r =>
          obtain ⟨b1, ev⟩ := r
          simp only [hub] at h
          refine inv_put (inv_update hinv bus _ ?_) h
          intro hr
          rw [unregister_bus_cases hub] at hr
          simp [qsfp_upstream_clear] at hr

/-- The invariant survives `qsfp_unregister_socket`. -/
theorem inv_unregister_socket {w w1 : World} {bus : Nat}
    (hinv : registered_implies_bound w)
    (h : qsfp_unregister_socket w bus = some w1) : registered_implies_bound w1 := by
  unfold qsfp_unregister_socket at h
  cases hd : bus_deref w.qsfp_buses bus with
  | none => simp [hd] at h
  | some b =>
    simp only [hd] at h
    have hb := inv_deref hinv hd
    cases hu : b.upstream_ops with
    | none =>
      simp only [hu] at h
      refine inv_put (inv_update hinv bus _ ?_) h
      intro hr
      exact absurd hu (hb hr).2.2
    | some uops =>
      simp only [hu] at h
      cases hub : qsfp_unregister_bus bus b with
      | none => simp [hub] at h
      | some r =>
        obtain ⟨b1, ev⟩ := r
        simp only [hub] at h
        refine inv_put (inv_update hinv bus _ ?_) h
        intro hr
        rw [unregister_bus_cases hub] at hr
        simp [qsfp_socket_clear] at hr

/-- The invariant of a bus depends on its bindings and `registered` only. -/
theorem bound_of_same_bindings {b b1 : qsfp_bus}
    (h1 : b1.registered = b.registered) (h2 : b1.qsfp = b.qsfp)
    (h3 : b1.socket_ops = b.socket_ops) (h4 : b1.upstream_ops = b.upstream_ops)
    (hb : bus_bound_if_registered b) : bus_bound_if_registered b1 := by
  intro hr
  rw [h1] at hr
  rw [h2, h3, h4]
  exact hb hr

/-- The invariant survives `qsfp_upstream_start`. -/
theorem inv_upstream_start (b : qsfp_bus) (r : qsfp_bus × List Event)
    (hb : bus_bound_if_registered b) (h : qsfp_upstream_start b = some r) :
    bus_bound_if_registered r.1 := by
  unfold qsfp_upstream_start at h
  split at h
  · split at h
    · simp only [Option.some.injEq] at h
      rw [← h]
      exact bound_of_same_bindings rfl rfl rfl rfl hb
    · simp at h
  · simp only [Option.some.injEq] at h
    rw [← h]
    exact bound_of_same_bindings rfl rfl rfl rfl hb

/-- The invariant survives `qsfp_upstream_stop`. -/
theorem inv_upstream_stop (b : qsfp_bus) (r : qsfp_bus × List Event)
    (hb : bus_bound_if_registered b) (h : qsfp_upstream_stop b = some r) :
    bus_bound_if_registered r.1 := by
  unfold qsfp_upstream_stop at h
  split at h
  · split at h
    · simp only [Option.some.injEq] at h
      rw [← h]
      exact bound_of_same_bindings rfl rfl rfl rfl hb
    · simp at h
  · simp only [Option.some.injEq] at h
    rw [← h]
    exact bound_of_same_bindings rfl rfl rfl rfl hb

/-- The invariant survives `qsfp_add_phy`. -/
theorem inv_add_phy (phydev : Nat) (cb_ret : Int) (b : qsfp_bus)
    (r : qsfp_bus × List Event) (hb : bus_bound_if_registered b)
    (h : some (qsfp_add_phy b phydev cb_ret).2 = some r) :
    bus_bound_if_registered r.1 := by
  simp only [Option.some.injEq] at h
  rw [← h]
  unfold qsfp_add_phy
  simp only
  split
  · split
    · exact bound_of_same_bindings rfl rfl rfl rfl hb
    · exact hb
  · exact bound_of_same_bindings rfl rfl rfl rfl hb

/-- One entry-point call with non-null arguments keeps the invariant, unless
it is a binding call on a registered bus whose attach fails. -/
theorem step_preserves {w w1 : World} {a : Action}
    (hinv : registered_implies_bound w) (hn : a.nonnull = true)
    (hg : a.no_failed_rebind w = true) (hs : step w a = some w1) :
    registered_implies_bound w1 := by
  cases a with
  | register_socket new dev qsfp ops cb_ret =>
    simp only [step, Option.map_eq_some'] at hs
    obtain ⟨r, hr, hw⟩ := hs
    obtain ⟨ret, w2⟩ := r
    simp only at hw
    subst hw
    simp only [Action.nonnull, Bool.and_eq_true, bne_iff_ne, ne_eq] at hn
    refine inv_register_socket hinv hn.1.2 ?_ hr
    intro b hd
    simp only [Action.no_failed_rebind, hd, Bool.not_eq_true'] at hg
    exact hg
  | unregister_socket bus => exact inv_unregister_socket hinv hs
  | add_upstream bus upstream ops cb_ret =>
    simp only [step, Option.map_eq_some'] at hs
    obtain ⟨r, hr, hw⟩ := hs
    obtain ⟨ret, w2⟩ := r
    simp only at hw
    subst hw
    simp only [Action.nonnull, Bool.and_eq_true, bne_iff_ne, ne_eq] at hn
    cases ops with
    | none => simp at hn
    | some uops =>
      refine inv_add_upstream hinv ?_ hr
      intro b hd
      simp only [Action.no_failed_rebind, hd, Bool.not_eq_true'] at hg
      exact hg
  | del_upstream bus => exact inv_del_upstream hinv hs
  | upstream_start bus => exact inv_on_bus hinv inv_upstream_start hs
  | upstream_stop bus => exact inv_on_bus hinv inv_upstream_stop hs
  | add_phy bus phydev cb_ret => exact inv_on_bus hinv (inv_add_phy phydev cb_ret) hs
  | remove_phy bus =>
    simp only [step] at hs
    refine inv_on_bus hinv ?_ hs
    intro b r hb h
    simp only [Option.some.injEq] at h
    rw [← h]
    exact bound_of_same_bindings rfl rfl rfl rfl hb
  | link_up bus =>
    simp only [step] at hs
    refine inv_on_bus hinv ?_ hs
    intro b r hb h
    simp only [Option.some.injEq] at h
    rw [← h]
    exact hb
  | link_down bus =>
    simp only [step] at hs
    refine inv_on_bus hinv ?_ hs
    intro b r hb h
    simp only [Option.some.injEq] at h
    rw [← h]
    exact hb
  | module_insert bus id quirk cb_ret =>
    simp only [step] at hs
    refine inv_on_bus hinv ?_ hs
    intro b r hb h
    simp only [Option.some.injEq] at h
    rw [← h]
    exact bound_of_same_bindings rfl rfl rfl rfl hb
  | module_remove bus =>
    simp only [step] at hs
    refine inv_on_bus hinv ?_ hs
    intro b r hb h
    simp only [Option.some.injEq] at h
    rw [← h]
    exact bound_of_same_bindings rfl rfl rfl rfl hb
  | module_start bus cb_ret =>
    simp only [step] at hs
    refine inv_on_bus hinv ?_ hs
    intro b r hb h
    simp only [Option.some.injEq] at h
    rw [← h]
    exact hb
  | module_stop bus =>
    simp only [step] at hs
    refine inv_on_bus hinv ?_ hs
    intro b r hb h
    simp only [Option.some.injEq] at h
    rw [← h]
    exact hb
  | find_fwnode new ret ref_fwnode available =>
    simp only [step, Option.some.injEq] at hs
    rw [← hs]
    unfold qsfp_bus_find_fwnode
    split
    · exact hinv
    · split
      · exact hinv
      · split
        · exact hinv
        · simp only
          split
          · exact inv_bus_get hinv new ref_fwnode
          · exact inv_bus_get hinv new ref_fwnode
  | put bus => exact inv_put hinv hs

/-- Every sequence of entry-point calls with non-null arguments in which no
binding call on a registered bus fails keeps the invariant. -/
theorem run_preserves (acts : List Action) :
    ∀ (w w1 : World), registered_implies_bound w →
      run_no_failed_rebind w acts = some w1 → registered_implies_bound w1 := by
  induction acts with
  | nil =>
    intro w w1 hinv h
    simp only [run_no_failed_rebind, Option.some.injEq] at h
    rw [← h]
    exact hinv
  | cons a rest ih =>
    intro w w1 hinv h
    simp only [run_no_failed_rebind] at h
    by_cases hc : (a.nonnull && a.no_failed_rebind w) = true
    · simp only [hc, if_true] at h
      simp only [Bool.and_eq_true] at hc
      cases hs : step w a with
      | none => simp [hs] at h
      | some w2 =>
        simp only [hs] at h
        exact ih w2 w1 (step_preserves hinv hc.1 hc.2 hs) h
    · simp [hc] at h

/-- C5 (amended): in every state reached from the empty registry by a
sequence of entry-point calls with non-null handles and operation tables in
which no `qsfp_register_socket` or `qsfp_bus_add_upstream` call made on an
already registered bus fails its attach (so in particular when these are
only called on unregistered buses), every registered bus has its
module-side binding (`qsfp` and `socket_ops`) and its upstream-side binding
(`upstream_ops`). -/
theorem registered_implies_bound_reachable (acts : List Action) (w : World)
    (h : run_no_failed_rebind World.init acts = some w) :
    ∀ p b, bus_deref w.qsfp_buses p = some b → b.registered = true →
      b.qsfp ≠ 0 ∧ b.socket_ops ≠ none ∧ b.upstream_ops ≠ none := by
  intro p b hd hr
  have hinit : registered_implies_bound World.init := by
    intro e he
    simp [World.init] at he
  exact inv_deref (run_preserves acts World.init w hinit h) hd hr

/-- C5 (amended), at the sequence that registers a module, adds a PHY and
adds an upstream: the one bus is registered and has both bindings. -/
theorem registered_implies_bound_reachable_witness :
    run_no_failed_rebind World.init ex_bind_both = some ex_world_registered ∧
    bus_deref ex_world_registered.qsfp_buses 5 = some ex_bus_registered ∧
    ex_bus_registered.registered = true ∧
    ∀ p b, bus_deref ex_world_registered.qsfp_buses p = some b → b.registered = true →
      b.qsfp ≠ 0 ∧ b.socket_ops ≠ none ∧ b.upstream_ops ≠ none :=
  ⟨by decide, by decide, by decide,
    registered_implies_bound_reachable ex_bind_both ex_world_registered (by decide)⟩

/-- C5 as stated fails: after a module is registered, a PHY added and an
upstream added (all with non-null handles and tables), a second
`qsfp_bus_add_upstream` whose `connect_phy` returns -19 leaves the bus
registered with an empty upstream-side binding. -/
theorem registered_without_upstream_binding :
    ex_double_add.all Action.nonnull = true ∧
    run World.init ex_double_add =
      some { qsfp_buses := [(5, ex_bus_broken)],
             trace := ex_world_registered.trace
               ++ [Event.link_down 41, Event.connect_phy 41 50] } ∧
    ex_bus_broken.registered = true ∧ ex_bus_broken.upstream_ops = none := by
  decide

/-! ### What the binding entry points compute -/

/-- After a write that keeps the identity, the bus found by identity is the
value written. -/
theorem bus_find_store {l : List (Nat × qsfp_bus)} {k p : Nat} {b : qsfp_bus}
    (hf : bus_find l k = some (p, b)) (hd : bus_deref l p = some b)
    (v : qsfp_bus) (hv : v.fwnode = k) :
    bus_find (bus_store l p v) k = some (p, v) := by
  have hp := bus_deref_ne_zero hd
  have hk := bus_find_fwnode hf
  induction l with
  | nil => simp [bus_find] at hf
  | cons e rest ih =>
    obtain ⟨a, c⟩ := e
    simp only [bus_find] at hf
    simp only [bus_deref, hp, if_false] at hd
    by_cases hc : c.fwnode = k
    · simp only [hc, if_true, Option.some.injEq, Prod.mk.injEq] at hf
      simp [bus_store, hf.1, bus_find, hv]
    · simp only [hc, if_false] at hf
      by_cases ha : a = p
      · simp only [ha, if_true, Option.some.injEq] at hd
        subst hd
        exact absurd hk hc
      · simp only [ha, if_false] at hd
        simp [bus_store, ha, bus_find, hc, ih hf hd]

/-- What `qsfp_bus_add_upstream` computes while the module side is unbound:
the upstream binding is stored with a reference, nothing is invoked. -/
theorem add_upstream_eq_unbound {w : World} {p : Nat} {b : qsfp_bus}
    (upstream : Nat) (ops : Option qsfp_upstream_ops) (cb_ret : Int)
    (hd : bus_deref w.qsfp_buses p = some b) (hq : b.qsfp = 0) :
    qsfp_bus_add_upstream w p upstream ops cb_ret =
      some (0, World.mk
        (bus_store w.qsfp_buses p
          ({ b with kref := b.kref + 1, upstream_ops := ops, upstream := upstream }))
        w.trace) := by
  have hp := bus_deref_ne_zero hd
  simp [qsfp_bus_add_upstream, hp, hd, kref_get, hq, World.update]

/-- What `qsfp_bus_add_upstream` computes when the module side is bound and
the attach does not fail. -/
theorem add_upstream_eq_attach {w : World} {p : Nat} {b : qsfp_bus}
    (upstream : Nat) (uops : qsfp_upstream_ops) (cb_ret : Int)
    (sops : qsfp_socket_ops)
    (hd : bus_deref w.qsfp_buses p = some b) (hq : b.qsfp ≠ 0)
    (hs : b.socket_ops = some sops)
    (hnf : attach_fails (some uops) b.phydev cb_ret = false) :
    qsfp_bus_add_upstream w p upstream (some uops) cb_ret =
      some (0, World.mk
        (bus_store w.qsfp_buses p
          ({ b with kref := b.kref + 1, upstream_ops := some uops, upstream := upstream,
                    registered := true }))
        (w.trace ++ (call_if uops.link_down (Event.link_down upstream)
          ++ call_if (uops.connect_phy && b.phydev != 0)
              (Event.connect_phy upstream b.phydev)
          ++ [Event.sock_attach b.qsfp]
          ++ call_if b.started (Event.sock_start b.qsfp)
          ++ [Event.attach upstream p]))) := by
  have hp := bus_deref_ne_zero hd
  have hreg := register_bus_eq p
    ({ (kref_get b) with upstream_ops := some uops, upstream := upstream } : qsfp_bus)
    sops uops cb_ret hs rfl
  dsimp only at hreg
  simp only [attach_fails] at hnf
  have hnf1 : (uops.connect_phy && (kref_get b).phydev != 0 && cb_ret != 0) = false := hnf
  simp only [hnf1, Bool.false_eq_true, if_false] at hreg
  have hq1 : ((kref_get b).qsfp != 0) = true := by simp [kref_get, hq]
  simp only [qsfp_bus_add_upstream, hp, if_false, hd, hq1, if_true, hreg]
  simp [World.update, kref_get]

/-- What `qsfp_register_socket` computes when the bus of the device's
identity exists with the upstream side unbound: the module binding is stored
with a reference, nothing is invoked. -/
theorem register_socket_eq_unbound {w : World} {p : Nat} {b : qsfp_bus}
    (new : Nat) (dev : device) (qsfp : Nat) (ops : Option qsfp_socket_ops)
    (cb_ret : Int)
    (hf : bus_find w.qsfp_buses dev.fwnode = some (p, b))
    (hd : bus_deref w.qsfp_buses p = some b) (hu : b.upstream_ops = none) :
    qsfp_register_socket w new dev qsfp ops cb_ret =
      some (p, World.mk
        (bus_store w.qsfp_buses p
          ({ b with kref := b.kref + 1, qsfp_dev := dev.addr, qsfp := qsfp,
                    socket_ops := ops }))
        w.trace) := by
  have hp := bus_deref_ne_zero hd
  have hd1 : bus_deref (bus_store w.qsfp_buses p (kref_get b)) p = some (kref_get b) :=
    bus_deref_store hd _
  have hu1 : (kref_get b).upstream_ops = none := hu
  simp only [qsfp_register_socket, bus_get_found new hf hd, bne_iff_ne, ne_eq, hp,
    not_false_eq_true, if_true, hd1, hu1]
  simp [World.update, bus_store_store, kref_get, hu]

/-- What `qsfp_register_socket` computes when the bus of the device's
identity exists with the upstream side bound and the attach does not
fail. -/
theorem register_socket_eq_attach {w : World} {p : Nat} {b : qsfp_bus}
    (new : Nat) (dev : device) (qsfp : Nat) (sops : qsfp_socket_ops)
    (cb_ret : Int) (uops : qsfp_upstream_ops)
    (hf : bus_find w.qsfp_buses dev.fwnode = some (p, b))
    (hd : bus_deref w.qsfp_buses p = some b) (hu : b.upstream_ops = some uops)
    (hnf : attach_fails (some uops) b.phydev cb_ret = false) :
    qsfp_register_socket w new dev qsfp (some sops) cb_ret =
      some (p, World.mk
        (bus_store w.qsfp_buses p
          ({ b with kref := b.kref + 1, qsfp_dev := dev.addr, qsfp := qsfp,
                    socket_ops := some sops, registered := true }))
        (w.trace ++ (call_if uops.link_down (Event.link_down b.upstream)
          ++ call_if (uops.connect_phy && b.phydev != 0)
              (Event.connect_phy b.upstream b.phydev)
          ++ [Event.sock_attach qsfp]
          ++ call_if b.started (Event.sock_start qsfp)
          ++ [Event.attach b.upstream p]))) := by
  have hp := bus_deref_ne_zero hd
  have hd1 : bus_deref (bus_store w.qsfp_buses p (kref_get b)) p = some (kref_get b) :=
    bus_deref_store hd _
  have hreg := register_bus_eq p
    ({ (kref_get b) with qsfp_dev := dev.addr, qsfp := qsfp, socket_ops := some sops }
      : qsfp_bus)
    sops uops cb_ret rfl hu
  dsimp only at hreg
  simp only [attach_fails] at hnf
  have hnf1 : (uops.connect_phy && (kref_get b).phydev != 0 && cb_ret != 0) = false := hnf
  simp only [hnf1, Bool.false_eq_true, if_false] at hreg
  have hu1 : (kref_get b).upstream_ops = some uops := hu
  simp only [qsfp_register_socket, bus_get_found new hf hd, bne_iff_ne, ne_eq, hp,
    not_false_eq_true, if_true, hd1, hreg]
  simp only [hu1]
  simp [World.update, bus_store_store, kref_get, hu]

/-- What `qsfp_register_socket` computes when no bus has the device's
identity and the allocation succeeds: a new bus is inserted at the head of
the registry, with one reference and the module binding. -/
theorem register_socket_eq_new {w : World} (new : Nat) (dev : device) (qsfp : Nat)
    (ops : Option qsfp_socket_ops) (cb_ret : Int)
    (hf : bus_find w.qsfp_buses dev.fwnode = none) (hnew : new ≠ 0) :
    qsfp_register_socket w new dev qsfp ops cb_ret =
      some (new, World.mk
        ((new, ({ kzalloc with kref := 1, fwnode := dev.fwnode, qsfp_dev := dev.addr,
                               qsfp := qsfp, socket_ops := ops } : qsfp_bus))
          :: w.qsfp_buses)
        w.trace) := by
  simp [qsfp_register_socket, qsfp_bus_get, bus_lookup_none hf, hnew, bus_deref,
    World.update, bus_store, kref_init, kzalloc]

/-- What `qsfp_upstream_start` computes, as an entry point, on a bus that is
not registered: `started` is set, nothing is invoked. -/
theorem upstream_start_eq {w : World} {p : Nat} {b : qsfp_bus}
    (hd : bus_deref w.qsfp_buses p = some b) (hreg : b.registered = false) :
    step w (Action.upstream_start p) =
      some (World.mk (bus_store w.qsfp_buses p ({ b with started := true })) w.trace) := by
  simp [step, World.on_bus, hd, qsfp_upstream_start, hreg, World.update]

/-- C6: on a bus that is not registered `qsfp_upstream_start` sets `started`
and invokes nothing.  If, with both sides unbound, the module side and the
upstream side are then bound, in either order, the attach not failing, the
callbacks of the whole sequence are link_down (if provided), connect_phy (if
provided and a PHY is stored), module attach, module start, upstream attach:
module start is invoked exactly once, between module attach and upstream
attach, module stop never, and the bus ends registered and started. -/
theorem deferred_start_once (b : qsfp_bus) (hreg : b.registered = false) :
    qsfp_upstream_start b = some ({ b with started := true }, []) ∧
    ∀ (w : World) (p new : Nat) (dev : device) (qsfp upstream : Nat)
      (sops : qsfp_socket_ops) (uops : qsfp_upstream_ops) (r1 r2 : Int),
      bus_find w.qsfp_buses dev.fwnode = some (p, b) →
      bus_deref w.qsfp_buses p = some b →
      b.qsfp = 0 → b.upstream_ops = none → qsfp ≠ 0 →
      attach_fails (some uops) b.phydev r2 = false →
    ∃ ev w_a w_b b_a b_b,
      ev = call_if uops.link_down (Event.link_down upstream)
          ++ call_if (uops.connect_phy && b.phydev != 0)
              (Event.connect_phy upstream b.phydev)
          ++ [Event.sock_attach qsfp, Event.sock_start qsfp, Event.attach upstream p] ∧
      ev.countP Event.is_sock_start = 1 ∧ ev.countP Event.is_sock_stop = 0 ∧
      run w [Action.upstream_start p,
             Action.register_socket new dev qsfp (some sops) r1,
             Action.add_upstream p upstream (some uops) r2] = some w_a ∧
      w_a.trace = w.trace ++ ev ∧
      bus_deref w_a.qsfp_buses p = some b_a ∧
      b_a.registered = true ∧ b_a.started = true ∧
      run w [Action.upstream_start p,
             Action.add_upstream p upstream (some uops) r1,
             Action.register_socket new dev qsfp (some sops) r2] = some w_b ∧
      w_b.trace = w.trace ++ ev ∧
      bus_deref w_b.qsfp_buses p = some b_b ∧
      b_b.registered = true ∧ b_b.started = true := by
  refine ⟨by simp [qsfp_upstream_start, hreg], ?_⟩
  intro w p new dev qsfp upstream sops uops r1 r2 hf hd hq0 hu0 hq hnf
  have hk := bus_find_fwnode hf
  -- the start
  have h1 := upstream_start_eq hd hreg
  have hd1 := bus_deref_store hd ({ b with started := true } : qsfp_bus)
  have hf1 := bus_find_store hf hd ({ b with started := true } : qsfp_bus) hk
  -- module first, upstream second
  have ha2 := register_socket_eq_unbound (w := World.mk
      (bus_store w.qsfp_buses p ({ b with started := true })) w.trace)
    new dev qsfp (some sops) r1 hf1 hd1 hu0
  have hda2 := bus_deref_store hd1
    ({ b with started := true, kref := b.kref + 1, qsfp_dev := dev.addr, qsfp := qsfp,
              socket_ops := some sops } : qsfp_bus)
  have ha3 := add_upstream_eq_attach (w := World.mk
      (bus_store (bus_store w.qsfp_buses p ({ b with started := true })) p
        ({ b with started := true, kref := b.kref + 1, qsfp_dev := dev.addr,
                  qsfp := qsfp, socket_ops := some sops }))
      w.trace)
    upstream uops r2 sops hda2 hq rfl hnf
  -- upstream first, module second
  have hb2 := add_upstream_eq_unbound (w := World.mk
      (bus_store w.qsfp_buses p ({ b with started := true })) w.trace)
    upstream (some uops) r1 hd1 hq0
  have hdb2 := bus_deref_store hd1
    ({ b with started := true, kref := b.kref + 1, upstream_ops := some uops,
              upstream := upstream } : qsfp_bus)
  have hfb2 := bus_find_store hf1 hd1
    ({ b with started := true, kref := b.kref + 1, upstream_ops := some uops,
              upstream := upstream } : qsfp_bus) hk
  have hb3 := register_socket_eq_attach (w := World.mk
      (bus_store (bus_store w.qsfp_buses p ({ b with started := true })) p
        ({ b with started := true, kref := b.kref + 1, upstream_ops := some uops,
                  upstream := upstream }))
      w.trace)
    new dev qsfp sops r2 uops hfb2 hdb2 rfl hnf
  dsimp only at ha2 ha3 hb2 hb3
  simp only [bus_store_store] at ha2 ha3 hb2 hb3
  refine ⟨_,
    World.mk
      (bus_store w.qsfp_buses p
        ({ b with kref := b.kref + 1 + 1, qsfp_dev := dev.addr, qsfp := qsfp,
                  socket_ops := some sops, upstream_ops := some uops,
                  upstream := upstream, registered := true, started := true }))
      (w.trace ++ (call_if uops.link_down (Event.link_down upstream)
          ++ call_if (uops.connect_phy && b.phydev != 0)
              (Event.connect_phy upstream b.phydev)
          ++ [Event.sock_attach qsfp, Event.sock_start qsfp, Event.attach upstream p])),
    World.mk
      (bus_store w.qsfp_buses p
        ({ b with kref := b.kref + 1 + 1, qsfp_dev := dev.addr, qsfp := qsfp,
                  socket_ops := some sops, upstream_ops := some uops,
                  upstream := upstream, registered := true, started := true }))
      (w.trace ++ (call_if uops.link_down (Event.link_down upstream)
          ++ call_if (uops.connect_phy && b.phydev != 0)
              (Event.connect_phy upstream b.phydev)
          ++ [Event.sock_attach qsfp, Event.sock_start qsfp, Event.attach upstream p])),
    { b with kref := b.kref + 1 + 1, qsfp_dev := dev.addr, qsfp := qsfp,
             socket_ops := some sops, upstream_ops := some uops,
             upstream := upstream, registered := true, started := true },
    { b with kref := b.kref + 1 + 1, qsfp_dev := dev.addr, qsfp := qsfp,
             socket_ops := some sops, upstream_ops := some uops,
             upstream := upstream, registered := true, started := true },
    rfl, ?_, ?_, ?_, rfl, bus_deref_store hd _, rfl, rfl, ?_, rfl, bus_deref_store hd _,
    rfl, rfl⟩
  · cases uops.link_down <;> cases (uops.connect_phy && b.phydev != 0) <;>
      simp [call_if, List.countP_cons, Event.is_sock_start]
  · cases uops.link_down <;> cases (uops.connect_phy && b.phydev != 0) <;>
      simp [call_if, List.countP_cons, Event.is_sock_stop]
  · have s2 := congrArg (Option.map (fun r : Nat × World => r.2)) ha2
    have s3 := congrArg (Option.map (fun r : Int × World => r.2)) ha3
    simp only [Option.map_some'] at s2 s3
    simp only [run, h1]
    simp only [step, s2, s3]
    simp [call_if]
  · have s2 := congrArg (Option.map (fun r : Int × World => r.2)) hb2
    have s3 := congrArg (Option.map (fun r : Nat × World => r.2)) hb3
    simp only [Option.map_some'] at s2 s3
    simp only [run, h1]
    simp only [step, s2, s3]
    simp [call_if]

/-- C6, at a registry whose one bus has neither side bound, with an upstream
providing every optional operation: in both orders the callbacks are
link_down, module attach, module start, upstream attach. -/
theorem deferred_start_once_witness :
    bus_find ex_world_fresh.qsfp_buses ex_dev.fwnode = some (5, ex_bus_fresh) ∧
    bus_deref ex_world_fresh.qsfp_buses 5 = some ex_bus_fresh ∧
    (run ex_world_fresh [Action.upstream_start 5,
         Action.register_socket 6 ex_dev 30 (some ex_sops) 0,
         Action.add_upstream 5 40 (some ex_uops) 0]).map (fun w => w.trace) =
      some [Event.link_down 40, Event.sock_attach 30, Event.sock_start 30,
        Event.attach 40 5] ∧
    ex_bus_fresh.registered = false ∧
    qsfp_upstream_start ex_bus_fresh = some ({ ex_bus_fresh with started := true }, []) ∧
    (∃ ev w_a w_b b_a b_b,
      ev = call_if ex_uops.link_down (Event.link_down 40)
          ++ call_if (ex_uops.connect_phy && ex_bus_fresh.phydev != 0)
              (Event.connect_phy 40 ex_bus_fresh.phydev)
          ++ [Event.sock_attach 30, Event.sock_start 30, Event.attach 40 5] ∧
      ev.countP Event.is_sock_start = 1 ∧ ev.countP Event.is_sock_stop = 0 ∧
      run ex_world_fresh [Action.upstream_start 5,
             Action.register_socket 6 ex_dev 30 (some ex_sops) 0,
             Action.add_upstream 5 40 (some ex_uops) 0] = some w_a ∧
      w_a.trace = ex_world_fresh.trace ++ ev ∧
      bus_deref w_a.qsfp_buses 5 = some b_a ∧
      b_a.registered = true ∧ b_a.started = true ∧
      run ex_world_fresh [Action.upstream_start 5,
             Action.add_upstream 5 40 (some ex_uops) 0,
             Action.register_socket 6 ex_dev 30 (some ex_sops) 0] = some w_b ∧
      w_b.trace = ex_world_fresh.trace ++ ev ∧
      bus_deref w_b.qsfp_buses 5 = some b_b ∧
      b_b.registered = true ∧ b_b.started = true) :=
  ⟨by decide, by decide, by decide, by decide,
    (deferred_start_once ex_bus_fresh (by decide)).1,
    (deferred_start_once ex_bus_fresh (by decide)).2 ex_world_fresh 5 6 ex_dev 30 40
      ex_sops ex_uops 0 0 (by decide) (by decide) (by decide) (by decide) (by decide)
      (by decide)⟩

/-- C7 (amended): on a bus whose module side is already unbound and that is
not registered, `qsfp_unregister_socket` invokes no callback and changes no
field of the bus but the reference count, which it lowers by one; when the
count reaches zero the bus is removed from the registry. -/
theorem unregister_socket_unbound (w : World) (p : Nat) (b : qsfp_bus)
    (hd : bus_deref w.qsfp_buses p = some b)
    (hdev : b.qsfp_dev = 0) (hq : b.qsfp = 0) (hs : b.socket_ops = none)
    (hreg : b.registered = false) :
    ∃ w1, qsfp_unregister_socket w p = some w1 ∧
      w1.trace = w.trace ∧
      (b.kref - 1 = 0 → w1.qsfp_buses = list_del w.qsfp_buses p) ∧
      (b.kref - 1 ≠ 0 →
        w1.qsfp_buses = bus_store w.qsfp_buses p ({ b with kref := b.kref - 1 }) ∧
        bus_deref w1.qsfp_buses p = some ({ b with kref := b.kref - 1 })) := by
  have hb : ({ b with registered := false } : qsfp_bus) = b := by
    cases b
    simp only [qsfp_bus.mk.injEq, true_and, and_true] at hreg ⊢
    exact hreg.symm
  have hc : qsfp_socket_clear b = b := by
    cases b
    simp only [qsfp_socket_clear, qsfp_bus.mk.injEq, true_and, and_true] at hdev hq hs ⊢
    exact ⟨hs.symm, hdev.symm, hq.symm⟩
  have hun : (match b.upstream_ops with
      | some _ => qsfp_unregister_bus p b
      | none => some (b, [])) = some (b, []) := by
    cases b.upstream_ops with
    | none => rfl
    | some uops => simp [qsfp_unregister_bus, hreg, hb]
  have hw : w.update p (b, []) = w := by
    cases w
    simp [World.update, bus_store_same hd]
  have hput := bus_put_eq hd
  simp only [qsfp_unregister_socket, hd, hun, hc, hw]
  by_cases hk : b.kref - 1 = 0
  · simp only [hk, if_true] at hput
    refine ⟨_, hput, rfl, fun _ => rfl, fun h => absurd hk h⟩
  · simp only [hk, if_false] at hput
    refine ⟨_, hput, rfl, fun h => absurd h hk, fun _ => ⟨rfl, bus_deref_store hd _⟩⟩

/-- C7 (amended), at a bus with neither side bound and two references: one
reference is released. -/
theorem unregister_socket_unbound_witness :
    bus_deref ex_world_fresh_two_refs.qsfp_buses 5 = some ({ ex_bus_fresh with kref := 2 }) ∧
    ∃ w1, qsfp_unregister_socket ex_world_fresh_two_refs 5 = some w1 ∧
      w1.trace = ex_world_fresh_two_refs.trace ∧
      ((2 : Nat) - 1 = 0 → w1.qsfp_buses = list_del ex_world_fresh_two_refs.qsfp_buses 5) ∧
      ((2 : Nat) - 1 ≠ 0 →
        w1.qsfp_buses = bus_store ex_world_fresh_two_refs.qsfp_buses 5
          ({ ex_bus_fresh with kref := 2 - 1 }) ∧
        bus_deref w1.qsfp_buses 5 = some ({ ex_bus_fresh with kref := 2 - 1 })) :=
  ⟨by decide,
    unregister_socket_unbound ex_world_fresh_two_refs 5 ({ ex_bus_fresh with kref := 2 })
      (by decide) (by decide) (by decide) (by decide) (by decide)⟩

/-- C7 as stated fails: on a bus with neither side bound
`qsfp_unregister_socket` lowers the reference count from 2 to 1, and on such
a bus with one reference it removes the bus from the registry. -/
theorem unregister_socket_unbound_releases :
    qsfp_unregister_socket ex_world_fresh_two_refs 5 =
      some { qsfp_buses := [(5, { ex_bus_fresh with kref := 1 })], trace := [] } ∧
    ex_world_fresh_two_refs.qsfp_buses ≠ [(5, { ex_bus_fresh with kref := 1 })] ∧
    qsfp_unregister_socket ex_world_fresh 5 = some { qsfp_buses := [], trace := [] } ∧
    ex_world_fresh.qsfp_buses ≠ [] := by
  decide

/-- C8: from a registry with no bus of identity `k`, `qsfp_register_socket`
on a device of identity `k` creates a bus with one reference;
`qsfp_bus_add_upstream` then succeeds and raises the count to 2;
`qsfp_unregister_socket` lowers it to 1, the bus staying in the registry;
`qsfp_bus_del_upstream` releases the last reference and the bus is removed,
the registry being as it was at the start, with no bus of identity `k`. -/
theorem refcount_scenario (w : World) (new : Nat) (dev : device) (qsfp upstream : Nat)
    (sops : qsfp_socket_ops) (uops : qsfp_upstream_ops) (r1 r2 : Int)
    (hf : bus_find w.qsfp_buses dev.fwnode = none) (hnew : new ≠ 0) (hq : qsfp ≠ 0) :
    ∃ w1 w2 w3 w4 b1 b2 b3,
      qsfp_register_socket w new dev qsfp (some sops) r1 = some (new, w1) ∧
      bus_find w1.qsfp_buses dev.fwnode = some (new, b1) ∧
      bus_deref w1.qsfp_buses new = some b1 ∧ b1.kref = 1 ∧
      qsfp_bus_add_upstream w1 new upstream (some uops) r2 = some (0, w2) ∧
      bus_deref w2.qsfp_buses new = some b2 ∧ b2.kref = 2 ∧ b2.registered = true ∧
      qsfp_unregister_socket w2 new = some w3 ∧
      bus_find w3.qsfp_buses dev.fwnode = some (new, b3) ∧
      bus_deref w3.qsfp_buses new = some b3 ∧ b3.kref = 1 ∧ b3.registered = false ∧
      qsfp_bus_del_upstream w3 new = some w4 ∧
      w4.qsfp_buses = w.qsfp_buses ∧
      bus_find w4.qsfp_buses dev.fwnode = none := by
  have h1 := register_socket_eq_new (w := w) new dev qsfp (some sops) r1 hf hnew
  have hd1 : bus_deref
      ((new, ({ kzalloc with kref := 1, fwnode := dev.fwnode, qsfp_dev := dev.addr,
                             qsfp := qsfp, socket_ops := some sops } : qsfp_bus))
        :: w.qsfp_buses) new
      = some ({ kzalloc with kref := 1, fwnode := dev.fwnode, qsfp_dev := dev.addr,
                             qsfp := qsfp, socket_ops := some sops } : qsfp_bus) := by
    simp [bus_deref, hnew]
  have h2 := add_upstream_eq_attach (w := World.mk
      ((new, ({ kzalloc with kref := 1, fwnode := dev.fwnode, qsfp_dev := dev.addr,
                             qsfp := qsfp, socket_ops := some sops } : qsfp_bus))
        :: w.qsfp_buses) w.trace)
    upstream uops r2 sops hd1 hq rfl (by simp [attach_fails, kzalloc])
  simp only [bus_store, if_true] at h2
  refine ⟨_, _,
    World.mk
      ((new, ({ kzalloc with kref := 1, fwnode := dev.fwnode, upstream_ops := some uops,
                             upstream := upstream } : qsfp_bus)) :: w.qsfp_buses)
      (w.trace ++ (call_if uops.link_down (Event.link_down upstream)
          ++ [Event.sock_attach qsfp, Event.attach upstream new]
          ++ [Event.detach upstream new, Event.sock_detach qsfp])),
    World.mk w.qsfp_buses
      (w.trace ++ (call_if uops.link_down (Event.link_down upstream)
          ++ [Event.sock_attach qsfp, Event.attach upstream new]
          ++ [Event.detach upstream new, Event.sock_detach qsfp])),
    ({ kzalloc with kref := 1, fwnode := dev.fwnode, qsfp_dev := dev.addr,
                    qsfp := qsfp, socket_ops := some sops } : qsfp_bus),
    ({ kzalloc with kref := 2, fwnode := dev.fwnode, qsfp_dev := dev.addr,
                    qsfp := qsfp, socket_ops := some sops, upstream_ops := some uops,
                    upstream := upstream, registered := true } : qsfp_bus),
    ({ kzalloc with kref := 1, fwnode := dev.fwnode, upstream_ops := some uops,
                    upstream := upstream } : qsfp_bus),
    h1, ?_, hd1, rfl, h2, ?_, rfl, rfl, ?_, ?_, ?_, rfl, rfl, ?_, rfl, hf⟩
  · simp [bus_find, kzalloc]
  · simp [bus_deref, hnew, kzalloc]
  · simp [qsfp_unregister_socket, bus_deref, hnew, qsfp_unregister_bus, kzalloc,
      qsfp_socket_clear, World.update, bus_store, qsfp_bus_put, call_if]
  · simp [bus_find, kzalloc]
  · simp [bus_deref, hnew]
  · simp [qsfp_bus_del_upstream, bus_deref, hnew, kzalloc, qsfp_upstream_clear,
      World.update, bus_store, qsfp_bus_put, list_del]

/-- C8, from the empty registry. -/
theorem refcount_scenario_witness :
    bus_find World.init.qsfp_buses ex_dev.fwnode = none ∧
    (run World.init [Action.register_socket 5 ex_dev 30 (some ex_sops) 0,
        Action.add_upstream 5 40 (some ex_uops) 0]).map
      (fun w => w.qsfp_buses.map (fun e => (e.1, e.2.kref))) = some [(5, 2)] ∧
    (run World.init [Action.register_socket 5 ex_dev 30 (some ex_sops) 0,
        Action.add_upstream 5 40 (some ex_uops) 0,
        Action.unregister_socket 5, Action.del_upstream 5]).map
      (fun w => w.qsfp_buses) = some [] ∧
    ∃ w1 w2 w3 w4 b1 b2 b3,
      qsfp_register_socket World.init 5 ex_dev 30 (some ex_sops) 0 = some (5, w1) ∧
      bus_find w1.qsfp_buses ex_dev.fwnode = some (5, b1) ∧
      bus_deref w1.qsfp_buses 5 = some b1 ∧ b1.kref = 1 ∧
      qsfp_bus_add_upstream w1 5 40 (some ex_uops) 0 = some (0, w2) ∧
      bus_deref w2.qsfp_buses 5 = some b2 ∧ b2.kref = 2 ∧ b2.registered = true ∧
      qsfp_unregister_socket w2 5 = some w3 ∧
      bus_find w3.qsfp_buses ex_dev.fwnode = some (5, b3) ∧
      bus_deref w3.qsfp_buses 5 = some b3 ∧ b3.kref = 1 ∧ b3.registered = false ∧
      qsfp_bus_del_upstream w3 5 = some w4 ∧
      w4.qsfp_buses = World.init.qsfp_buses ∧
      bus_find w4.qsfp_buses ex_dev.fwnode = none :=
  ⟨by decide, by decide, by decide,
    refcount_scenario World.init 5 ex_dev 30 40 ex_sops ex_uops 0 0
      (by decide) (by decide) (by decide)⟩

/-! ### The lookup-or-create of `qsfp_bus_get` -/

/-- The lookup loop keeps the identity of every bus, so it keeps the number
of buses of each identity. -/
theorem countP_bus_lookup {l l1 : List (Nat × qsfp_bus)} {k found : Nat} (k1 : Nat)
    (h : bus_lookup l k = some (found, l1)) :
    l1.countP (fun e => e.2.fwnode == k1) = l.countP (fun e => e.2.fwnode == k1) := by
  induction l generalizing l1 found with
  | nil => simp [bus_lookup] at h
  | cons x rest ih =>
    obtain ⟨a, c⟩ := x
    by_cases hc : c.fwnode = k
    · simp only [bus_lookup, hc, if_true, Option.some.injEq, Prod.mk.injEq] at h
      rw [← h.2]
      simp [List.countP_cons, kref_get]
    · simp only [bus_lookup, hc, if_false] at h
      cases hr : bus_lookup rest k with
      | none => simp [hr] at h
      | some r =>
        obtain ⟨f, r1⟩ := r
        simp only [hr, Option.some.injEq, Prod.mk.injEq] at h
        rw [← h.2]
        simp [List.countP_cons, ih hr]

/-- The lookup loop splits the registry at the first bus of the identity and
gives that bus a reference. -/
theorem bus_lookup_split {l : List (Nat × qsfp_bus)} {k p : Nat} {b : qsfp_bus}
    (h : bus_find l k = some (p, b)) :
    ∃ l1 l2, l = l1 ++ (p, b) :: l2 ∧ (∀ e ∈ l1, e.2.fwnode ≠ k) ∧
      bus_lookup l k = some (p, l1 ++ (p, ({ b with kref := b.kref + 1 })) :: l2) := by
  induction l with
  | nil => simp [bus_find] at h
  | cons x rest ih =>
    obtain ⟨a, c⟩ := x
    by_cases hc : c.fwnode = k
    · simp only [bus_find, hc, if_true, Option.some.injEq, Prod.mk.injEq] at h
      obtain ⟨h1, h2⟩ := h
      subst h1
      subst h2
      refine ⟨[], rest, rfl, ?_, ?_⟩
      · intro e he
        simp at he
      · simp [bus_lookup, hc, kref_get]
    · simp only [bus_find, hc, if_false] at h
      obtain ⟨l1, l2, hl, hne, hlk⟩ := ih h
      refine ⟨(a, c) :: l1, l2, ?_, ?_, ?_⟩
      · rw [hl]
        rfl
      · intro e he
        rcases List.mem_cons.mp he with he | he
        · rw [he]
          exact hc
        · exact hne e he
      · simp [bus_lookup, hc, hlk]

/-- A second run of the lookup loop finds the bus the first run found. -/
theorem bus_lookup_again {l l1 : List (Nat × qsfp_bus)} {k found : Nat}
    (h : bus_lookup l k = some (found, l1)) :
    ∃ l2, bus_lookup l1 k = some (found, l2) := by
  induction l generalizing l1 found with
  | nil => simp [bus_lookup] at h
  | cons x rest ih =>
    obtain ⟨a, c⟩ := x
    by_cases hc : c.fwnode = k
    · simp only [bus_lookup, hc, if_true, Option.some.injEq, Prod.mk.injEq] at h
      rw [← h.1, ← h.2]
      exact ⟨(a, kref_get (kref_get c)) :: rest, by simp [bus_lookup, kref_get, hc]⟩
    · simp only [bus_lookup, hc, if_false] at h
      cases hr : bus_lookup rest k with
      | none => simp [hr] at h
      | some r =>
        obtain ⟨f, r1⟩ := r
        simp only [hr, Option.some.injEq, Prod.mk.injEq] at h
        obtain ⟨l2, hl2⟩ := ih hr
        rw [← h.1, ← h.2]
        exact ⟨(a, c) :: l2, by simp [bus_lookup, hc, hl2]⟩

/-- A registry in which a bus of the identity is found holds at least one
bus of the identity. -/
theorem countP_pos_of_bus_find {l : List (Nat × qsfp_bus)} {k p : Nat} {b : qsfp_bus}
    (h : bus_find l k = some (p, b)) :
    0 < l.countP (fun e => e.2.fwnode == k) := by
  rw [List.countP_pos_iff]
  exact ⟨(p, b), bus_find_mem h, by simp [bus_find_fwnode h]⟩

/-- A registry in which no bus of the identity is found holds no bus of the
identity. -/
theorem countP_zero_of_bus_find {l : List (Nat × qsfp_bus)} {k : Nat}
    (h : bus_find l k = none) :
    l.countP (fun e => e.2.fwnode == k) = 0 := by
  induction l with
  | nil => rfl
  | cons x rest ih =>
    obtain ⟨a, c⟩ := x
    by_cases hc : c.fwnode = k
    · simp [bus_find, hc] at h
    · simp only [bus_find, hc, if_false] at h
      simp [List.countP_cons, hc, ih h]

/-- C9: on a registry holding at most one bus of identity `k`, with the
allocation succeeding, `qsfp_bus_get` returns the existing bus of identity
`k` with one more reference, every other bus and the order of the registry
untouched, or, when there is none, inserts and returns a new bus with
identity `k`, one reference and every other field zero.  In both cases no
callback is invoked, the registry afterwards holds exactly one bus of
identity `k`, and a second call with the same identity returns the same
bus. -/
theorem bus_get_find_or_create (w : World) (new k : Nat)
    (hone : w.qsfp_buses.countP (fun e => e.2.fwnode == k) ≤ 1) (hnew : new ≠ 0) :
    (∀ p b, bus_find w.qsfp_buses k = some (p, b) →
      ∃ l1 l2, w.qsfp_buses = l1 ++ (p, b) :: l2 ∧ (∀ e ∈ l1, e.2.fwnode ≠ k) ∧
        qsfp_bus_get w new k =
          (p, { w with
            qsfp_buses := l1 ++ (p, ({ b with kref := b.kref + 1 })) :: l2 })) ∧
    (bus_find w.qsfp_buses k = none →
      qsfp_bus_get w new k =
        (new, { w with
          qsfp_buses := (new, ({ kzalloc with kref := 1, fwnode := k })) :: w.qsfp_buses })) ∧
    (qsfp_bus_get w new k).2.trace = w.trace ∧
    (qsfp_bus_get w new k).2.qsfp_buses.countP (fun e => e.2.fwnode == k) = 1 ∧
    (∃ b, bus_find (qsfp_bus_get w new k).2.qsfp_buses k
        = some ((qsfp_bus_get w new k).1, b)) ∧
    ∀ new2, (qsfp_bus_get (qsfp_bus_get w new k).2 new2 k).1 = (qsfp_bus_get w new k).1 := by
  have hnew1 : (new != 0) = true := by simp [hnew]
  refine ⟨?_, ?_, ?_⟩
  · intro p b hf
    obtain ⟨l1, l2, hl, hne, hlk⟩ := bus_lookup_split hf
    exact ⟨l1, l2, hl, hne, by simp [qsfp_bus_get, hlk]⟩
  · intro hf
    simp [qsfp_bus_get, bus_lookup_none hf, hnew, kref_init]
  · cases hf : bus_find w.qsfp_buses k with
    | none =>
      have hg : qsfp_bus_get w new k =
          (new, { w with qsfp_buses :=
            (new, ({ kzalloc with kref := 1, fwnode := k })) :: w.qsfp_buses }) := by
        simp [qsfp_bus_get, bus_lookup_none hf, hnew, kref_init]
      rw [hg]
      refine ⟨rfl, ?_, ⟨({ kzalloc with kref := 1, fwnode := k }), by simp [bus_find]⟩, ?_⟩
      · simp [List.countP_cons, countP_zero_of_bus_find hf]
      · intro new2
        simp [qsfp_bus_get, bus_lookup]
    | some r =>
      obtain ⟨p, b⟩ := r
      obtain ⟨l1, l2, hl, hne, hlk⟩ := bus_lookup_split hf
      have hg : qsfp_bus_get w new k =
          (p, { w with qsfp_buses := l1 ++ (p, ({ b with kref := b.kref + 1 })) :: l2 }) := by
        simp [qsfp_bus_get, hlk]
      have hcount := countP_bus_lookup k hlk
      have hpos := countP_pos_of_bus_find hf
      obtain ⟨l3, hl3⟩ := bus_lookup_again hlk
      rw [hg]
      refine ⟨rfl, ?_, ?_, ?_⟩
      · simp only
        omega
      · simp only
        have hk := bus_find_fwnode hf
        refine ⟨{ b with kref := b.kref + 1 }, ?_⟩
        clear hl hlk hg hcount hl3 hf hone hpos
        induction l1 with
        | nil => simp [bus_find, hk]
        | cons x rest ih =>
          have hx : x.2.fwnode ≠ k := hne x (List.mem_cons_self _ _)
          obtain ⟨a, c⟩ := x
          simp only [List.cons_append, bus_find, hx, if_false]
          exact ih (fun e he => hne e (List.mem_cons_of_mem _ he))
      · intro new2
        simp [qsfp_bus_get, hl3]

/-- C9, at a registry holding one bus of identity 10 at address 5: the bus
is returned with a second reference; for the identity 11, a new bus is
inserted. -/
theorem bus_get_find_or_create_witness :
    ex_world_fresh.qsfp_buses.countP (fun e => e.2.fwnode == 10) ≤ 1 ∧
    qsfp_bus_get ex_world_fresh 6 10 =
      (5, { qsfp_buses := [(5, { ex_bus_fresh with kref := 2 })], trace := [] }) ∧
    qsfp_bus_get ex_world_fresh 6 11 =
      (6, { qsfp_buses := [(6, { kzalloc with kref := 1, fwnode := 11 }),
                            (5, ex_bus_fresh)], trace := [] }) ∧
    ((∀ p b, bus_find ex_world_fresh.qsfp_buses 10 = some (p, b) →
      ∃ l1 l2, ex_world_fresh.qsfp_buses = l1 ++ (p, b) :: l2 ∧
        (∀ e ∈ l1, e.2.fwnode ≠ 10) ∧
        qsfp_bus_get ex_world_fresh 6 10 =
          (p, { ex_world_fresh with
            qsfp_buses := l1 ++ (p, ({ b with kref := b.kref + 1 })) :: l2 })) ∧
    (bus_find ex_world_fresh.qsfp_buses 10 = none →
      qsfp_bus_get ex_world_fresh 6 10 =
        (6, { ex_world_fresh with
          qsfp_buses := (6, ({ kzalloc with kref := 1, fwnode := 10 }))
            :: ex_world_fresh.qsfp_buses })) ∧
    (qsfp_bus_get ex_world_fresh 6 10).2.trace = ex_world_fresh.trace ∧
    (qsfp_bus_get ex_world_fresh 6 10).2.qsfp_buses.countP (fun e => e.2.fwnode == 10) = 1 ∧
    (∃ b, bus_find (qsfp_bus_get ex_world_fresh 6 10).2.qsfp_buses 10
        = some ((qsfp_bus_get ex_world_fresh 6 10).1, b)) ∧
    ∀ new2, (qsfp_bus_get (qsfp_bus_get ex_world_fresh 6 10).2 new2 10).1
      = (qsfp_bus_get ex_world_fresh 6 10).1) :=
  ⟨by decide, by decide, by decide,
    bus_get_find_or_create ex_world_fresh 6 10 (by decide) (by decide)⟩

/-! ### The capability decoder -/

/-- C11: `qsfp_select_interface` returns the interface of the first class of
the priority table (25G, 10G, 5G, 2.5G, 1000BASE-T, 1000BASE-X, 100BASE-FX)
that has a link mode in the set, and `PHY_INTERFACE_MODE_NA` when none has;
in particular a set with a 25G-class and a 10G-class link mode yields
`PHY_INTERFACE_MODE_25GBASER`. -/
theorem select_interface_priority (bus : qsfp_bus) (link_modes : link_mode_mask) :
    qsfp_select_interface bus link_modes = select_by_priority link_modes ∧
    ((link_modes link_mode.ETHTOOL_LINK_MODE_25000baseCR_Full_BIT = true
        ∨ link_modes link_mode.ETHTOOL_LINK_MODE_25000baseKR_Full_BIT = true
        ∨ link_modes link_mode.ETHTOOL_LINK_MODE_25000baseSR_Full_BIT = true) →
      qsfp_select_interface bus link_modes
        = phy_interface_t.PHY_INTERFACE_MODE_25GBASER) ∧
    (qsfp_select_interface bus link_modes = phy_interface_t.PHY_INTERFACE_MODE_NA ↔
      ∀ e ∈ interface_priority, ∀ b ∈ e.1, link_modes b = false) := by
  refine ⟨?_, ?_, ?_⟩
  · simp only [qsfp_select_interface, select_by_priority, interface_priority,
      phylink_test, List.find?, List.any, Bool.or_false]
    split_ifs with h1 h2 h3 h4 h5 h6 h7
    · simp only [Bool.or_assoc] at h1
      simp only [h1]
    · simp only [Bool.or_assoc, Bool.not_eq_true] at h1 h2
      simp only [h1, h2]
    · simp only [Bool.or_assoc, Bool.not_eq_true] at h1 h2 h3
      simp only [h1, h2, h3]
    · simp only [Bool.or_assoc, Bool.not_eq_true] at h1 h2 h3 h4
      simp only [h1, h2, h3, h4]
    · simp only [Bool.or_assoc, Bool.not_eq_true] at h1 h2 h3 h4 h5
      simp only [h1, h2, h3, h4, h5]
    · simp only [Bool.or_assoc, Bool.not_eq_true] at h1 h2 h3 h4 h5 h6
      simp only [h1, h2, h3, h4, h5, h6]
    · simp only [Bool.or_assoc, Bool.not_eq_true] at h1 h2 h3 h4 h5 h6 h7
      simp only [h1, h2, h3, h4, h5, h6, h7]
    · simp only [Bool.or_assoc, Bool.not_eq_true] at h1 h2 h3 h4 h5 h6 h7
      simp only [h1, h2, h3, h4, h5, h6, h7]
  · intro h
    simp only [qsfp_select_interface, phylink_test]
    split_ifs <;> simp_all
  · simp only [qsfp_select_interface, phylink_test, interface_priority]
    split_ifs <;> simp_all <;> intros <;> simp_all

/-- Setting a bit keeps the bits that are set. -/
theorem phylink_set_mono (mask : link_mode_mask) (mode m : link_mode)
    (h : mask m = true) : phylink_set mask mode m = true := by
  simp [phylink_set, h]

/-- Setting a bit sets it. -/
theorem phylink_set_self (mask : link_mode_mask) (mode : link_mode) :
    phylink_set mask mode mode = true := by
  simp [phylink_set]

/-- A state has what it has. -/
theorem parse_state.le_refl (s : parse_state) : s.le s :=
  ⟨fun _ h => h, fun _ h => h⟩

/-- Having at least as much is transitive. -/
theorem parse_state.le_trans {s t u : parse_state} (h1 : s.le t) (h2 : t.le u) :
    s.le u :=
  ⟨fun m h => h2.1 m (h1.1 m h), fun i h => h2.2 i (h1.2 i h)⟩

/-- Both branches of a test having at least as much, the test has. -/
theorem parse_state.le_ite (s a b : parse_state) (p : Prop) [Decidable p]
    (ha : s.le a) (hb : s.le b) : s.le (if p then a else b) := by
  by_cases h : p
  · rw [if_pos h]
    exact ha
  · rw [if_neg h]
    exact hb

/-- The tests on compliance byte 0 clear nothing. -/
theorem byte0_le (c : sff_codes) (id : qsfp_eeprom_id) (s : parse_state) :
    s.le (parse_compliance_byte0 c id s) := by
  unfold parse_compliance_byte0
  dsimp only
  split_ifs
  all_goals
    constructor
    · intro x hx
      simp [parse_state.set_mode, parse_state.set_interface, phylink_set, hx]
    · intro x hx
      simp [parse_state.set_mode, parse_state.set_interface, __set_bit, hx]

/-- The tests on compliance byte 3 clear nothing. -/
theorem byte3_le (c : sff_codes) (id : qsfp_eeprom_id) (s : parse_state) :
    s.le (parse_compliance_byte3 c id s) := by
  unfold parse_compliance_byte3
  dsimp only
  split_ifs
  all_goals
    constructor
    · intro x hx
      simp [parse_state.set_mode, parse_state.set_interface, phylink_set, hx]
    · intro x hx
      simp [parse_state.set_mode, parse_state.set_interface, __set_bit, hx]

/-- The `switch` on the extended-compliance byte clears nothing. -/
theorem ext_le (c : sff_codes) (bus : qsfp_bus) (id : qsfp_eeprom_id)
    (s : parse_state) : s.le (parse_ext_compliance c bus id s) := by
  unfold parse_ext_compliance
  dsimp only
  repeat' apply parse_state.le_ite
  all_goals
    constructor
    · intro x hx
      simp [parse_state.set_mode, parse_state.set_interface, phylink_set, hx]
    · intro x hx
      simp [parse_state.set_mode, parse_state.set_interface, __set_bit, hx]

/-- The test on compliance byte 7 clears nothing. -/
theorem byte7_le (c : sff_codes) (id : qsfp_eeprom_id) (s : parse_state) :
    s.le (parse_compliance_byte7 c id s) := by
  unfold parse_compliance_byte7
  dsimp only
  split_ifs
  all_goals
    constructor
    · intro x hx
      simp [parse_state.set_mode, parse_state.set_interface, phylink_set, hx]
    · intro x hx
      simp [parse_state.set_mode, parse_state.set_interface, __set_bit, hx]

/-- A link mode that the decoder derives is in the resulting support set. -/
theorem parse_support_of_modes (c : sff_codes) (bus : qsfp_bus) (id : qsfp_eeprom_id)
    (support : link_mode_mask) (interfaces : interface_mask) (m : link_mode)
    (h : (parse_compliance_byte7 c id (parse_ext_compliance c bus id
      (parse_compliance_byte3 c id (parse_compliance_byte0 c id
        { modes := linkmode_zero, interfaces := interfaces, warn := none })))).modes m
      = true) :
    (qsfp_parse_support c bus id support interfaces).support m = true := by
  simp only [qsfp_parse_support]
  apply phylink_set_mono
  apply phylink_set_mono
  apply phylink_set_mono
  simp [linkmode_or, h]

/-- C12: when compliance byte 0 has the 10GBASE-SR bit and compliance byte 3
has the 1000BASE-T bit, the support set that `qsfp_parse_support` produces
contains both 10000baseSR_Full and 1000baseT_Full, whatever the other
fields, the bus and the incoming sets are. -/
theorem parse_support_union (c : sff_codes) (bus : qsfp_bus) (id : qsfp_eeprom_id)
    (support : link_mode_mask) (interfaces : interface_mask)
    (hsr : id.base.etile_qsfp_spec_compliance_1 0 &&& c.SFF8636_QSFP_ECC_10GBASE_SR ≠ 0)
    (ht : id.base.etile_qsfp_spec_compliance_1 3 &&& c.SFF8024_QSFP_SCC_1000BASE_T ≠ 0) :
    (qsfp_parse_support c bus id support interfaces).support
        link_mode.ETHTOOL_LINK_MODE_10000baseSR_Full_BIT = true ∧
    (qsfp_parse_support c bus id support interfaces).support
        link_mode.ETHTOOL_LINK_MODE_1000baseT_Full_BIT = true := by
  constructor
  · apply parse_support_of_modes
    apply (byte7_le c id _).1
    apply (ext_le c bus id _).1
    apply (byte3_le c id _).1
    unfold parse_compliance_byte0
    dsimp only
    rw [if_pos hsr]
    split_ifs <;>
      simp [parse_state.set_mode, parse_state.set_interface, phylink_set]
  · apply parse_support_of_modes
    apply (byte7_le c id _).1
    apply (ext_le c bus id _).1
    unfold parse_compliance_byte3
    dsimp only
    rw [if_pos ht]
    simp [parse_state.set_mode, parse_state.set_interface, phylink_set]

/-- C12, at an identification whose compliance byte 0 is the 10GBASE-SR bit
and whose compliance byte 3 is the 1000BASE-T bit, decoded into empty
sets. -/
theorem parse_support_union_witness :
    (ex_id 0x07 0xff 0x10 0x08 0).base.etile_qsfp_spec_compliance_1 0
      &&& ex_codes.SFF8636_QSFP_ECC_10GBASE_SR ≠ 0 ∧
    (ex_id 0x07 0xff 0x10 0x08 0).base.etile_qsfp_spec_compliance_1 3
      &&& ex_codes.SFF8024_QSFP_SCC_1000BASE_T ≠ 0 ∧
    (qsfp_parse_support ex_codes ex_bus (ex_id 0x07 0xff 0x10 0x08 0) linkmode_zero
        ex_no_interfaces).support link_mode.ETHTOOL_LINK_MODE_10000baseSR_Full_BIT = true ∧
    (qsfp_parse_support ex_codes ex_bus (ex_id 0x07 0xff 0x10 0x08 0) linkmode_zero
        ex_no_interfaces).support link_mode.ETHTOOL_LINK_MODE_1000baseT_Full_BIT = true :=
  ⟨by decide, by decide,
    parse_support_union ex_codes ex_bus (ex_id 0x07 0xff 0x10 0x08 0) linkmode_zero
      ex_no_interfaces (by decide) (by decide)⟩

/-- C13: `qsfp_parse_support` clears no bit: every link mode of the incoming
support set is in the resulting one, and every interface mode of the
incoming interface set is in the resulting one. -/
theorem parse_support_keeps_bits (c : sff_codes) (bus : qsfp_bus) (id : qsfp_eeprom_id)
    (support : link_mode_mask) (interfaces : interface_mask) :
    (∀ m, support m = true →
      (qsfp_parse_support c bus id support interfaces).support m = true) ∧
    (∀ i, interfaces i = true →
      (qsfp_parse_support c bus id support interfaces).interfaces i = true) := by
  constructor
  · intro m h
    simp only [qsfp_parse_support]
    apply phylink_set_mono
    apply phylink_set_mono
    apply phylink_set_mono
    simp [linkmode_or, h]
  · intro i h
    simp only [qsfp_parse_support]
    apply (byte7_le c id _).2
    apply (ext_le c bus id _).2
    apply (byte3_le c id _).2
    apply (byte0_le c id _).2
    exact h

/-- C14: the support set that `qsfp_parse_support` produces contains
Autoneg, Pause and Asym_Pause, whatever the identification, the bus and the
incoming sets are. -/
theorem parse_support_always_set (c : sff_codes) (bus : qsfp_bus) (id : qsfp_eeprom_id)
    (support : link_mode_mask) (interfaces : interface_mask) :
    (qsfp_parse_support c bus id support interfaces).support
        link_mode.ETHTOOL_LINK_MODE_Autoneg_BIT = true ∧
    (qsfp_parse_support c bus id support interfaces).support
        link_mode.ETHTOOL_LINK_MODE_Pause_BIT = true ∧
    (qsfp_parse_support c bus id support interfaces).support
        link_mode.ETHTOOL_LINK_MODE_Asym_Pause_BIT = true := by
  simp only [qsfp_parse_support]
  refine ⟨?_, ?_, ?_⟩
  · apply phylink_set_mono
    apply phylink_set_mono
    exact phylink_set_self _ _
  · apply phylink_set_mono
    exact phylink_set_self _ _
  · exact phylink_set_self _ _

/-- The link modes after the tests on compliance byte 0. -/
theorem byte0_modes_eq (c : sff_codes) (id : qsfp_eeprom_id) (s : parse_state)
    (m : link_mode) :
    (parse_compliance_byte0 c id s).modes m = (s.modes m || byte0_modes c id m) := by
  unfold parse_compliance_byte0 byte0_modes
  dsimp only
  split_ifs <;>
    simp [parse_state.set_mode, parse_state.set_interface, phylink_set, *] <;>
    by_cases h1 : m = link_mode.ETHTOOL_LINK_MODE_10000baseSR_Full_BIT <;>
    by_cases h2 : m = link_mode.ETHTOOL_LINK_MODE_10000baseLRM_Full_BIT <;>
    simp [h1, h2]

/-- The link modes after the tests on compliance byte 3. -/
theorem byte3_modes_eq (c : sff_codes) (id : qsfp_eeprom_id) (s : parse_state)
    (m : link_mode) :
    (parse_compliance_byte3 c id s).modes m = (s.modes m || byte3_modes c id m) := by
  unfold parse_compliance_byte3 byte3_modes
  dsimp only
  split_ifs <;>
    simp [parse_state.set_mode, parse_state.set_interface, phylink_set, *] <;>
    by_cases h1 : m = link_mode.ETHTOOL_LINK_MODE_1000baseX_Full_BIT <;>
    by_cases h2 : m = link_mode.ETHTOOL_LINK_MODE_1000baseT_Half_BIT <;>
    by_cases h3 : m = link_mode.ETHTOOL_LINK_MODE_1000baseT_Full_BIT <;>
    simp_all <;>
    tauto

/-- The link modes after the test on compliance byte 7. -/
theorem byte7_modes_eq (c : sff_codes) (id : qsfp_eeprom_id) (s : parse_state)
    (m : link_mode) :
    (parse_compliance_byte7 c id s).modes m = (s.modes m || byte7_modes c id m) := by
  unfold parse_compliance_byte7 byte7_modes
  dsimp only
  split_ifs <;>
    simp [parse_state.set_mode, parse_state.set_interface, phylink_set, *] <;>
    by_cases h1 : m = link_mode.ETHTOOL_LINK_MODE_2500baseX_Full_BIT <;>
    simp_all <;>
    tauto

/-- The interface modes after the tests on compliance byte 0. -/
theorem byte0_interfaces_eq (c : sff_codes) (id : qsfp_eeprom_id) (s : parse_state)
    (i : phy_interface_t) :
    (parse_compliance_byte0 c id s).interfaces i
      = (s.interfaces i || byte0_interfaces c id i) := by
  unfold parse_compliance_byte0 byte0_interfaces
  dsimp only
  split_ifs <;>
    simp [parse_state.set_mode, parse_state.set_interface, __set_bit, *] <;>
    by_cases h1 : i = phy_interface_t.PHY_INTERFACE_MODE_10GBASER <;>
    simp_all

/-- The interface modes after the tests on compliance byte 3. -/
theorem byte3_interfaces_eq (c : sff_codes) (id : qsfp_eeprom_id) (s : parse_state)
    (i : phy_interface_t) :
    (parse_compliance_byte3 c id s).interfaces i
      = (s.interfaces i || byte3_interfaces c id i) := by
  unfold parse_compliance_byte3 byte3_interfaces
  dsimp only
  split_ifs <;>
    simp [parse_state.set_mode, parse_state.set_interface, __set_bit, *] <;>
    by_cases h1 : i = phy_interface_t.PHY_INTERFACE_MODE_1000BASEX <;>
    by_cases h2 : i = phy_interface_t.PHY_INTERFACE_MODE_SGMII <;>
    simp_all <;>
    tauto

/-- The interface modes after the test on compliance byte 7. -/
theorem byte7_interfaces_eq (c : sff_codes) (id : qsfp_eeprom_id) (s : parse_state)
    (i : phy_interface_t) :
    (parse_compliance_byte7 c id s).interfaces i
      = (s.interfaces i || byte7_interfaces c id i) := by
  unfold parse_compliance_byte7 byte7_interfaces
  dsimp only
  split_ifs <;>
    simp [parse_state.set_mode, parse_state.set_interface, __set_bit, *] <;>
    by_cases h1 : i = phy_interface_t.PHY_INTERFACE_MODE_2500BASEX <;>
    simp_all <;>
    tauto

/-- A byte that is none of the labels of the `switch` on the
extended-compliance byte only gets a diagnostic written. -/
theorem ext_unknown (c : sff_codes) (bus : qsfp_bus) (id : qsfp_eeprom_id)
    (s : parse_state)
    (h : id.base.etile_qsfp_ext_spec_compliance ∉ c.ext_compliance_labels) :
    parse_ext_compliance c bus id s =
      { s with warn := some { dev := bus.qsfp_dev,
                               value := id.base.etile_qsfp_ext_spec_compliance } } := by
  simp only [sff_codes.ext_compliance_labels, List.mem_cons, List.mem_singleton,
    List.not_mem_nil, or_false, not_or] at h
  obtain ⟨h1, h2, h3, h4, h5, h6, h7, h8, h9, h10, h11, h12, h13, h14, h15, h16, h17,
    h18, h19, h20, h21⟩ := h
  unfold parse_ext_compliance
  dsimp only
  simp only [h1, h2, h3, h4, h5, h6, h7, h8, h9, h10, h11, h12, h13, h14, h15, h16, h17,
    h18, h19, h20, h21, or_self, if_false]

/-- C15: when the extended-compliance byte is none of the `case` labels,
`qsfp_parse_support` writes a diagnostic and the byte contributes nothing:
the resulting support set is the incoming one united with the link modes of
compliance bytes 0, 3 and 7 and with Autoneg, Pause and Asym_Pause, and the
resulting interface set is the incoming one united with the interface modes
of compliance bytes 0, 3 and 7. -/
theorem parse_support_unknown_ext (c : sff_codes) (bus : qsfp_bus) (id : qsfp_eeprom_id)
    (support : link_mode_mask) (interfaces : interface_mask)
    (h : id.base.etile_qsfp_ext_spec_compliance ∉ c.ext_compliance_labels) :
    (qsfp_parse_support c bus id support interfaces).support =
      (fun m => support m || byte0_modes c id m || byte3_modes c id m
        || byte7_modes c id m || always_set_modes m) ∧
    (qsfp_parse_support c bus id support interfaces).interfaces =
      (fun i => interfaces i || byte0_interfaces c id i || byte3_interfaces c id i
        || byte7_interfaces c id i) ∧
    (qsfp_parse_support c bus id support interfaces).warn =
      some { dev := bus.qsfp_dev, value := id.base.etile_qsfp_ext_spec_compliance } := by
  refine ⟨?_, ?_, ?_⟩
  · funext m
    simp only [qsfp_parse_support, ext_unknown c bus id _ h]
    simp only [byte7_modes_eq, byte3_modes_eq, byte0_modes_eq, phylink_set, linkmode_or, linkmode_zero,
      always_set_modes]
    by_cases h1 : m = link_mode.ETHTOOL_LINK_MODE_Autoneg_BIT <;>
    by_cases h2 : m = link_mode.ETHTOOL_LINK_MODE_Pause_BIT <;>
    by_cases h3 : m = link_mode.ETHTOOL_LINK_MODE_Asym_Pause_BIT <;>
    simp [h1, h2, h3, Bool.or_assoc]
  · funext i
    simp only [qsfp_parse_support, ext_unknown c bus id _ h]
    simp only [byte7_interfaces_eq, byte3_interfaces_eq, byte0_interfaces_eq]
  · simp only [qsfp_parse_support, ext_unknown c bus id _ h]
    unfold parse_compliance_byte7
    dsimp only
    split_ifs <;> rfl
/-- C15, at an identification whose extended-compliance byte is 0xff, which
is no label of the `switch`, with the 10GBASE-SR and the 1000BASE-T bit:
the diagnostic is written and no 25G or 100G link mode is derived. -/
theorem parse_support_unknown_ext_witness :
    (ex_id 0x07 0xff 0x10 0x08 0).base.etile_qsfp_ext_spec_compliance
      ∉ ex_codes.ext_compliance_labels ∧
    (qsfp_parse_support ex_codes ex_bus (ex_id 0x07 0xff 0x10 0x08 0) linkmode_zero
        ex_no_interfaces).support link_mode.ETHTOOL_LINK_MODE_25000baseKR_Full_BIT = false ∧
    ((qsfp_parse_support ex_codes ex_bus (ex_id 0x07 0xff 0x10 0x08 0) linkmode_zero
        ex_no_interfaces).support =
      (fun m => linkmode_zero m || byte0_modes ex_codes (ex_id 0x07 0xff 0x10 0x08 0) m
        || byte3_modes ex_codes (ex_id 0x07 0xff 0x10 0x08 0) m
        || byte7_modes ex_codes (ex_id 0x07 0xff 0x10 0x08 0) m || always_set_modes m) ∧
    (qsfp_parse_support ex_codes ex_bus (ex_id 0x07 0xff 0x10 0x08 0) linkmode_zero
        ex_no_interfaces).interfaces =
      (fun i => ex_no_interfaces i
        || byte0_interfaces ex_codes (ex_id 0x07 0xff 0x10 0x08 0) i
        || byte3_interfaces ex_codes (ex_id 0x07 0xff 0x10 0x08 0) i
        || byte7_interfaces ex_codes (ex_id 0x07 0xff 0x10 0x08 0) i) ∧
    (qsfp_parse_support ex_codes ex_bus (ex_id 0x07 0xff 0x10 0x08 0) linkmode_zero
        ex_no_interfaces).warn =
      some { dev := ex_bus.qsfp_dev,
             value := (ex_id 0x07 0xff 0x10 0x08 0).base.etile_qsfp_ext_spec_compliance }) :=
  ⟨by decide, by decide,
    parse_support_unknown_ext ex_codes ex_bus (ex_id 0x07 0xff 0x10 0x08 0) linkmode_zero
      ex_no_interfaces (by decide)⟩

/-- C16 (amended): on the connector field `qsfp_parse_port` returns Fibre for
SC, FIBERJACK, LC, MT_RJ, MU, OPTICAL_PIGTAIL, MPO_1X12 and MPO_2X16,
TwistedPair for RJ45 and for UNSPEC, DirectAttach for COPPER_PIGTAIL, for the
ambiguous connectors SG, HSSDC_II, NOSEPARATE and MXC_2X16
AttachmentUnitInterface when the extended-compliance byte ANDed with the
low-BER AOC code is non-zero and Other otherwise, and Other, with a
diagnostic, for every value that is none of these `case` labels. -/
theorem parse_port_table (c : sff_codes) (bus : qsfp_bus) (id : qsfp_eeprom_id)
    (support : Option link_mode_mask) (hd : c.connector_labels.Nodup) :
    (id.base.etile_qsfp_connector_type ∈ c.fibre_connectors →
      (qsfp_parse_port c bus id support).port = port_type.PORT_FIBRE) ∧
    (id.base.etile_qsfp_connector_type = c.SFF8024_QSFP_DD_CONNECTOR_RJ45 →
      (qsfp_parse_port c bus id support).port = port_type.PORT_TP) ∧
    (id.base.etile_qsfp_connector_type = c.SFF8024_QSFP_DD_CONNECTOR_COPPER_PIGTAIL →
      (qsfp_parse_port c bus id support).port = port_type.PORT_DA) ∧
    (id.base.etile_qsfp_connector_type = c.SFF8024_QSFP_DD_CONNECTOR_UNSPEC →
      (qsfp_parse_port c bus id support).port = port_type.PORT_TP) ∧
    (id.base.etile_qsfp_connector_type ∈ c.ambiguous_connectors →
      (qsfp_parse_port c bus id support).port =
        if id.base.etile_qsfp_ext_spec_compliance
            &&& c.SFF8024_QSFP_ECC_100G_25GAUI_C2M_AOC_LOW_BER ≠ 0
        then port_type.PORT_AUI else port_type.PORT_OTHER) ∧
    (id.base.etile_qsfp_connector_type ∉ c.connector_labels →
      (qsfp_parse_port c bus id support).port = port_type.PORT_OTHER ∧
      (qsfp_parse_port c bus id support).warn =
        some { dev := bus.qsfp_dev, value := id.base.etile_qsfp_connector_type }) := by
  have hr := List.nodup_reverse.mpr hd
  simp only [sff_codes.connector_labels, List.reverse_cons, List.reverse_nil,
    List.nil_append, List.cons_append, List.nodup_cons, List.mem_cons,
    List.mem_singleton, List.not_mem_nil, or_false, not_or, List.nodup_nil, and_true,
    not_false_eq_true] at hr
  simp only [sff_codes.connector_labels, sff_codes.fibre_connectors,
    sff_codes.ambiguous_connectors, List.mem_cons, List.mem_singleton,
    List.not_mem_nil, or_false, not_or, qsfp_parse_port]
  generalize id.base.etile_qsfp_connector_type = t
  clear hd
  refine ⟨?_, ?_, ?_, ?_, ?_, ?_⟩
  · intro h
    rw [if_pos h]
  · intro h
    subst h
    simp only [hr, or_self, if_false, if_true]
  · intro h
    subst h
    simp only [hr, or_self, if_false, if_true]
  · intro h
    subst h
    simp only [hr, or_self, if_false, if_true]
  · intro h
    rcases h with h | h | h | h <;> subst h <;>
      simp only [hr, or_self, or_true, true_or, if_false, if_true] <;>
      split_ifs <;> rfl
  · intro h
    simp only [h, or_self, if_false, and_self]
/-- C16 (amended), with the example codes: an LC connector is Fibre, an
unspecified connector is TwistedPair, and the connector 0x7f, which is no
label, is Other. -/
theorem parse_port_table_witness :
    ex_codes.connector_labels.Nodup ∧
    (qsfp_parse_port ex_codes ex_bus (ex_id 0x07 0 0 0 0) none).port
      = port_type.PORT_FIBRE ∧
    (qsfp_parse_port ex_codes ex_bus (ex_id 0x7f 0 0 0 0) none).port
      = port_type.PORT_OTHER ∧
    ((ex_id 0x00 0 0 0 0).base.etile_qsfp_connector_type ∈ ex_codes.fibre_connectors →
      (qsfp_parse_port ex_codes ex_bus (ex_id 0x00 0 0 0 0) none).port
        = port_type.PORT_FIBRE) ∧
    ((ex_id 0x00 0 0 0 0).base.etile_qsfp_connector_type
        = ex_codes.SFF8024_QSFP_DD_CONNECTOR_RJ45 →
      (qsfp_parse_port ex_codes ex_bus (ex_id 0x00 0 0 0 0) none).port
        = port_type.PORT_TP) ∧
    ((ex_id 0x00 0 0 0 0).base.etile_qsfp_connector_type
        = ex_codes.SFF8024_QSFP_DD_CONNECTOR_COPPER_PIGTAIL →
      (qsfp_parse_port ex_codes ex_bus (ex_id 0x00 0 0 0 0) none).port
        = port_type.PORT_DA) ∧
    ((ex_id 0x00 0 0 0 0).base.etile_qsfp_connector_type
        = ex_codes.SFF8024_QSFP_DD_CONNECTOR_UNSPEC →
      (qsfp_parse_port ex_codes ex_bus (ex_id 0x00 0 0 0 0) none).port
        = port_type.PORT_TP) ∧
    ((ex_id 0x00 0 0 0 0).base.etile_qsfp_connector_type ∈ ex_codes.ambiguous_connectors →
      (qsfp_parse_port ex_codes ex_bus (ex_id 0x00 0 0 0 0) none).port =
        if (ex_id 0x00 0 0 0 0).base.etile_qsfp_ext_spec_compliance
            &&& ex_codes.SFF8024_QSFP_ECC_100G_25GAUI_C2M_AOC_LOW_BER ≠ 0
        then port_type.PORT_AUI else port_type.PORT_OTHER) ∧
    ((ex_id 0x00 0 0 0 0).base.etile_qsfp_connector_type ∉ ex_codes.connector_labels →
      (qsfp_parse_port ex_codes ex_bus (ex_id 0x00 0 0 0 0) none).port
        = port_type.PORT_OTHER ∧
      (qsfp_parse_port ex_codes ex_bus (ex_id 0x00 0 0 0 0) none).warn =
        some { dev := ex_bus.qsfp_dev,
               value := (ex_id 0x00 0 0 0 0).base.etile_qsfp_connector_type }) :=
  ⟨by decide, by decide, by decide,
    parse_port_table ex_codes ex_bus (ex_id 0x00 0 0 0 0) none (by decide)⟩

/-- C16 as stated fails: with the example codes, the connector type UNSPEC
is none of the connectors that the claim's table lists, and
`qsfp_parse_port` returns TwistedPair for it, not Other. -/
theorem parse_port_unspec_is_tp :
    (ex_id 0x00 0 0 0 0).base.etile_qsfp_connector_type
      = ex_codes.SFF8024_QSFP_DD_CONNECTOR_UNSPEC ∧
    (ex_id 0x00 0 0 0 0).base.etile_qsfp_connector_type
      ∉ ex_codes.fibre_connectors
          ++ [ex_codes.SFF8024_QSFP_DD_CONNECTOR_RJ45,
              ex_codes.SFF8024_QSFP_DD_CONNECTOR_COPPER_PIGTAIL]
          ++ ex_codes.ambiguous_connectors ∧
    (qsfp_parse_port ex_codes ex_bus (ex_id 0x00 0 0 0 0) none).port
      = port_type.PORT_TP ∧
    (qsfp_parse_port ex_codes ex_bus (ex_id 0x00 0 0 0 0) none).port
      ≠ port_type.PORT_OTHER := by
  decide

/-- C17: when a support set is supplied, `qsfp_parse_port` adds exactly the
FIBRE bit for a Fibre port, exactly the TP bit for a TwistedPair port,
exactly the AUI bit for an AttachmentUnitInterface port, and leaves the set
as it is for an Other or a DirectAttach port; the port it returns is the
same when no support set is supplied, and then there is no resulting
set. -/
theorem parse_port_support (c : sff_codes) (bus : qsfp_bus) (id : qsfp_eeprom_id)
    (support : link_mode_mask) :
    (∃ s1, (qsfp_parse_port c bus id (some support)).support = some s1 ∧
      ((qsfp_parse_port c bus id (some support)).port = port_type.PORT_FIBRE →
        adds_exactly support s1 link_mode.ETHTOOL_LINK_MODE_FIBRE_BIT) ∧
      ((qsfp_parse_port c bus id (some support)).port = port_type.PORT_TP →
        adds_exactly support s1 link_mode.ETHTOOL_LINK_MODE_TP_BIT) ∧
      ((qsfp_parse_port c bus id (some support)).port = port_type.PORT_AUI →
        adds_exactly support s1 link_mode.ETHTOOL_LINK_MODE_AUI_BIT) ∧
      ((qsfp_parse_port c bus id (some support)).port = port_type.PORT_OTHER
          ∨ (qsfp_parse_port c bus id (some support)).port = port_type.PORT_DA →
        s1 = support)) ∧
    (qsfp_parse_port c bus id none).port = (qsfp_parse_port c bus id (some support)).port ∧
    (qsfp_parse_port c bus id none).warn = (qsfp_parse_port c bus id (some support)).warn ∧
    (qsfp_parse_port c bus id none).support = none := by
  refine ⟨?_, rfl, rfl, rfl⟩
  simp only [qsfp_parse_port]
  generalize (if id.base.etile_qsfp_connector_type = c.SFF8024_QSFP_DD_CONNECTOR_SC
      ∨ id.base.etile_qsfp_connector_type = c.SFF8024_QSFP_DD_CONNECTOR_FIBERJACK
      ∨ id.base.etile_qsfp_connector_type = c.SFF8024_QSFP_DD_CONNECTOR_LC
      ∨ id.base.etile_qsfp_connector_type = c.SFF8024_QSFP_DD_CONNECTOR_MT_RJ
      ∨ id.base.etile_qsfp_connector_type = c.SFF8024_QSFP_DD_CONNECTOR_MU
      ∨ id.base.etile_qsfp_connector_type = c.SFF8024_QSFP_DD_CONNECTOR_OPTICAL_PIGTAIL
      ∨ id.base.etile_qsfp_connector_type = c.SFF8024_QSFP_DD_CONNECTOR_MPO_1X12
      ∨ id.base.etile_qsfp_connector_type = c.SFF8024_QSFP_DD_CONNECTOR_MPO_2X16 then
      ((port_type.PORT_FIBRE, none) : port_type × Option diagnostic)
    else _) = r
  obtain ⟨p, w⟩ := r
  cases p <;>
    simp [adds_exactly, phylink_set] <;>
    intro m h1 h2 <;>
    exact absurd h2 h1
/-- C18: when the bus is registered and the upstream provides connect_phy,
`qsfp_add_phy` invokes it once and returns its result, and stores the PHY
handle exactly when that result is 0; otherwise it invokes nothing, returns
0 and stores the handle.  No other field of the bus changes. -/
theorem add_phy_stores_on_success (bus : qsfp_bus) (phydev : Nat) (cb_ret : Int) :
    (∀ uops, bus.registered = true → bus.upstream_ops = some uops →
      uops.connect_phy = true →
      qsfp_add_phy bus phydev cb_ret =
        (cb_ret, (if cb_ret = 0 then { bus with phydev := phydev } else bus),
          [Event.connect_phy bus.upstream phydev])) ∧
    (¬ (bus.registered = true ∧
        ∃ uops, bus.upstream_ops = some uops ∧ uops.connect_phy = true) →
      qsfp_add_phy bus phydev cb_ret = (0, { bus with phydev := phydev }, [])) := by
  constructor
  · intro uops hr hu hc
    simp [qsfp_add_phy, qsfp_get_upstream_ops, hr, hu, hc, call_if]
  · intro h
    by_cases hr : bus.registered = true
    · cases hu : bus.upstream_ops with
      | none => simp [qsfp_add_phy, qsfp_get_upstream_ops, hr, hu, call_if]
      | some uops =>
        have hc : uops.connect_phy = false := by
          cases hcp : uops.connect_phy with
          | false => rfl
          | true => exact absurd ⟨hr, uops, hu, hcp⟩ h
        simp [qsfp_add_phy, qsfp_get_upstream_ops, hr, hu, hc, call_if]
    · simp [qsfp_add_phy, qsfp_get_upstream_ops, hr, call_if]

/-- C19: on a bus that is not registered, whatever its upstream binding is,
each event relay invokes no callback; `qsfp_module_insert` and
`qsfp_module_start` return 0; and no field of the bus changes but the
profile, which `qsfp_module_insert` stores and `qsfp_module_remove`
clears. -/
theorem relays_dropped_when_unregistered (bus : qsfp_bus) (id quirk : Nat)
    (cb_ret : Int) (h : bus.registered = false) :
    qsfp_link_up bus = (bus, []) ∧
    qsfp_link_down bus = (bus, []) ∧
    qsfp_module_insert bus id quirk cb_ret = (0, { bus with qsfp_quirk := quirk }, []) ∧
    qsfp_module_remove bus = ({ bus with qsfp_quirk := 0 }, []) ∧
    qsfp_module_start bus cb_ret = (0, bus, []) ∧
    qsfp_module_stop bus = (bus, []) := by
  refine ⟨?_, ?_, ?_, ?_, ?_, ?_⟩ <;>
    simp [qsfp_link_up, qsfp_link_down, qsfp_module_insert, qsfp_module_remove,
      qsfp_module_start, qsfp_module_stop, qsfp_get_upstream_ops, h, call_if]

/-- C19, at an unregistered bus whose upstream provides every optional
operation, with callbacks that would return the error -5. -/
theorem relays_dropped_when_unregistered_witness :
    ex_bus.registered = false ∧ ex_bus.upstream_ops = some ex_uops ∧
    qsfp_link_up ex_bus = (ex_bus, []) ∧
    qsfp_link_down ex_bus = (ex_bus, []) ∧
    qsfp_module_insert ex_bus 60 70 (-5) = (0, { ex_bus with qsfp_quirk := 70 }, []) ∧
    qsfp_module_remove ex_bus = ({ ex_bus with qsfp_quirk := 0 }, []) ∧
    qsfp_module_start ex_bus (-5) = (0, ex_bus, []) ∧
    qsfp_module_stop ex_bus = (ex_bus, []) :=
  ⟨by decide, by decide, relays_dropped_when_unregistered ex_bus 60 70 (-5) (by decide)⟩

/-- Both branches of a test holding the same sets, the tests hold the same
sets. -/
theorem parse_state.same_sets_ite (a b a1 b1 : parse_state) (p : Prop) [Decidable p]
    (ha : a.same_sets a1) (hb : b.same_sets b1) :
    (if p then a else b).same_sets (if p then a1 else b1) := by
  by_cases h : p
  · rw [if_pos h, if_pos h]
    exact ha
  · rw [if_neg h, if_neg h]
    exact hb

/-- The `switch` on the extended-compliance byte derives the same sets for
every bus. -/
theorem ext_same_sets (c : sff_codes) (bus1 bus2 : qsfp_bus) (id : qsfp_eeprom_id)
    (s : parse_state) :
    (parse_ext_compliance c bus1 id s).same_sets (parse_ext_compliance c bus2 id s) := by
  unfold parse_ext_compliance
  dsimp only
  repeat' apply parse_state.same_sets_ite
  all_goals exact ⟨rfl, rfl⟩

/-- The test on compliance byte 7 derives the same sets from states that
hold the same sets. -/
theorem byte7_same_sets (c : sff_codes) (id : qsfp_eeprom_id) (s t : parse_state)
    (h : s.same_sets t) :
    (parse_compliance_byte7 c id s).same_sets (parse_compliance_byte7 c id t) := by
  unfold parse_compliance_byte7
  dsimp only
  apply parse_state.same_sets_ite
  · exact ⟨by simp [parse_state.set_mode, parse_state.set_interface, h.1],
      by simp [parse_state.set_mode, parse_state.set_interface, h.2]⟩
  · exact h

/-- C20: the sets that `qsfp_parse_support` produces do not depend on the
bus: for any two buses and the same identification, incoming support set and
incoming interface set, the resulting support sets are equal and the
resulting interface sets are equal. -/
theorem parse_support_bus_independent (c : sff_codes) (bus1 bus2 : qsfp_bus)
    (id : qsfp_eeprom_id) (support : link_mode_mask) (interfaces : interface_mask) :
    (qsfp_parse_support c bus1 id support interfaces).support
      = (qsfp_parse_support c bus2 id support interfaces).support ∧
    (qsfp_parse_support c bus1 id support interfaces).interfaces
      = (qsfp_parse_support c bus2 id support interfaces).interfaces := by
  have h := byte7_same_sets c id _ _
    (ext_same_sets c bus1 bus2 id
      (parse_compliance_byte3 c id (parse_compliance_byte0 c id
        { modes := linkmode_zero, interfaces := interfaces, warn := none })))
  simp only [qsfp_parse_support]
  exact ⟨by rw [h.1], h.2⟩

/-- Both branches of a test advertising what they have, the test does. -/
theorem parse_state.advertises_ite (a b : parse_state) (p : Prop) [Decidable p]
    (ha : a.advertises) (hb : b.advertises) : (if p then a else b).advertises := by
  by_cases h : p
  · rw [if_pos h]
    exact ha
  · rw [if_neg h]
    exact hb

/-- A bit cannot be both set and clear. -/
theorem bool_true_false_elim (x : Bool) (q : Prop) : x = true → x = false → q := by
  intro h1 h2
  rw [h1] at h2
  exact absurd h2 (by decide)

/-- A step that keeps the interface modes and adds the interface mode of
every class it adds a link mode to keeps the state advertising what it
has. -/
theorem parse_state.advertises_step (s t : parse_state) (hs : s.advertises)
    (hi : ∀ i, s.interfaces i = true → t.interfaces i = true)
    (hm : ∀ e ∈ interface_priority, ∀ b ∈ e.1,
      (t.modes b && !(s.modes b) && !(t.interfaces e.2)) = false) :
    t.advertises := by
  intro e he hb
  obtain ⟨b, hb, hbt⟩ := hb
  have h := hm e he b hb
  rw [hbt] at h
  cases hsb : s.modes b
  · rw [hsb] at h
    simpa using h
  · exact hi _ (hs e he ⟨b, hb, hsb⟩)

/-- A state without link modes advertises what it has. -/
theorem parse_state.advertises_zero (interfaces : interface_mask)
    (warn : Option diagnostic) :
    parse_state.advertises
      { modes := linkmode_zero, interfaces := interfaces, warn := warn } := by
  intro e _ hb
  obtain ⟨b, _, hbt⟩ := hb
  simp [linkmode_zero] at hbt

/-- The tests on compliance byte 0 add each link mode with its interface
mode. -/
theorem byte0_advertises (c : sff_codes) (id : qsfp_eeprom_id) (s : parse_state)
    (hs : s.advertises) : (parse_compliance_byte0 c id s).advertises := by
  apply parse_state.advertises_step s _ hs
  · exact (byte0_le c id s).2
  · unfold parse_compliance_byte0
    dsimp only
    split_ifs <;>
      (simp [interface_priority, parse_state.set_mode,
        parse_state.set_interface, phylink_set, __set_bit]
       repeat' constructor
       all_goals exact bool_true_false_elim _ _)

/-- The tests on compliance byte 3 add each link mode with its interface
mode. -/
theorem byte3_advertises (c : sff_codes) (id : qsfp_eeprom_id) (s : parse_state)
    (hs : s.advertises) : (parse_compliance_byte3 c id s).advertises := by
  apply parse_state.advertises_step s _ hs
  · exact (byte3_le c id s).2
  · unfold parse_compliance_byte3
    dsimp only
    split_ifs <;>
      (simp [interface_priority, parse_state.set_mode,
        parse_state.set_interface, phylink_set, __set_bit]
       repeat' constructor
       all_goals exact bool_true_false_elim _ _)

/-- The test on compliance byte 7 adds its link mode with its interface
mode. -/
theorem byte7_advertises (c : sff_codes) (id : qsfp_eeprom_id) (s : parse_state)
    (hs : s.advertises) : (parse_compliance_byte7 c id s).advertises := by
  apply parse_state.advertises_step s _ hs
  · exact (byte7_le c id s).2
  · unfold parse_compliance_byte7
    dsimp only
    split_ifs <;>
      (simp [interface_priority, parse_state.set_mode,
        parse_state.set_interface, phylink_set, __set_bit]
       repeat' constructor
       all_goals exact bool_true_false_elim _ _)

set_option maxHeartbeats 4000000 in
/-- Every case of the `switch` on the extended-compliance byte that adds a
link mode of a class of the priority table adds the interface mode of that
class. -/
theorem ext_advertises (c : sff_codes) (bus : qsfp_bus) (id : qsfp_eeprom_id)
    (s : parse_state) (hs : s.advertises) :
    (parse_ext_compliance c bus id s).advertises := by
  unfold parse_ext_compliance
  dsimp only
  repeat' apply parse_state.advertises_ite
  all_goals
    apply parse_state.advertises_step s _ hs
    · intro x hx
      simp [parse_state.set_mode, parse_state.set_interface, __set_bit, hx]
    · simp [interface_priority, parse_state.set_mode,
        parse_state.set_interface, phylink_set, __set_bit]
      repeat' constructor
      all_goals exact bool_true_false_elim _ _

/-- The interface selected from a set of link modes that agrees, on the link
modes of the priority table, with a state advertising what it has is
`PHY_INTERFACE_MODE_NA` or an interface mode of that state. -/
theorem select_advertised (bus : qsfp_bus) (s : parse_state) (hs : s.advertises)
    (support : link_mode_mask)
    (h : ∀ e ∈ interface_priority, ∀ b ∈ e.1, support b = s.modes b) :
    qsfp_select_interface bus support = phy_interface_t.PHY_INTERFACE_MODE_NA
      ∨ s.interfaces (qsfp_select_interface bus support) = true := by
  simp only [parse_state.advertises, interface_priority, List.forall_mem_cons,
    List.exists_mem_cons_iff, List.mem_cons, List.mem_singleton] at hs
  simp [interface_priority] at h hs
  obtain ⟨⟨a1, a2, a3⟩, ⟨b1, b2, b3, b4, b5, b6⟩, c1, d1, ⟨e1, e2⟩, f1, g1⟩ := hs
  obtain ⟨⟨p1, p2, p3⟩, ⟨q1, q2, q3, q4, q5, q6⟩, r1, t1, ⟨u1, u2⟩, v1, w1⟩ := h
  unfold qsfp_select_interface
  simp only [phylink_test, p1, p2, p3, q1, q2, q3, q4, q5, q6, r1, t1, u1, u2, v1, w1]
  split_ifs with h1 h2 h3 h4 h5 h6 h7
  · right
    simp only [Bool.or_eq_true, or_assoc] at h1
    rcases h1 with h | h | h
    exacts [a1 h, a2 h, a3 h]
  · right
    simp only [Bool.or_eq_true, or_assoc] at h2
    rcases h2 with h | h | h | h | h | h
    exacts [b1 h, b2 h, b3 h, b4 h, b5 h, b6 h]
  · right
    exact c1 h3
  · right
    exact d1 h4
  · right
    simp only [Bool.or_eq_true] at h5
    rcases h5 with h | h
    exacts [e1 h, e2 h]
  · right
    exact f1 h6
  · right
    exact g1 h7
  · left
    rfl

/-- C21: for every identification, bus and table of codes, when
`qsfp_parse_support` is run on an empty support set and an empty interface
set, the interface that `qsfp_select_interface` picks from the resulting
support set is `PHY_INTERFACE_MODE_NA` or a member of the resulting interface
set. -/
theorem parse_support_selects_advertised (c : sff_codes) (bus bus2 : qsfp_bus)
    (id : qsfp_eeprom_id) :
    qsfp_select_interface bus2
        (qsfp_parse_support c bus id linkmode_zero (fun _ => false)).support
        = phy_interface_t.PHY_INTERFACE_MODE_NA
      ∨ (qsfp_parse_support c bus id linkmode_zero (fun _ => false)).interfaces
          (qsfp_select_interface bus2
            (qsfp_parse_support c bus id linkmode_zero (fun _ => false)).support)
          = true := by
  have hadv := byte7_advertises c id _ (ext_advertises c bus id _
    (byte3_advertises c id _ (byte0_advertises c id _
      (parse_state.advertises_zero (fun _ => false) none))))
  apply select_advertised bus2 _ hadv
  intro e he b hb
  simp [interface_priority] at he
  rcases he with rfl | rfl | rfl | rfl | rfl | rfl | rfl <;>
    simp at hb <;>
    (try rcases hb with rfl | rfl | rfl | rfl | rfl | rfl) <;>
    simp [qsfp_parse_support, phylink_set, linkmode_or, linkmode_zero]

/-- C21, at an identification whose extended-compliance byte is 2.5GBASE-T
and whose compliance byte 3 is the 1000BASE-T bit: the interface picked is
SGMII, which the decoder put in the interface set. -/
theorem parse_support_selects_advertised_witness :
    qsfp_select_interface ex_bus
        (qsfp_parse_support ex_codes ex_bus (ex_id 0x07 0x1e 0 0x08 0) linkmode_zero
          (fun _ => false)).support
      = phy_interface_t.PHY_INTERFACE_MODE_SGMII ∧
    (qsfp_select_interface ex_bus
        (qsfp_parse_support ex_codes ex_bus (ex_id 0x07 0x1e 0 0x08 0) linkmode_zero
          (fun _ => false)).support
        = phy_interface_t.PHY_INTERFACE_MODE_NA
      ∨ (qsfp_parse_support ex_codes ex_bus (ex_id 0x07 0x1e 0 0x08 0) linkmode_zero
          (fun _ => false)).interfaces
          (qsfp_select_interface ex_bus
            (qsfp_parse_support ex_codes ex_bus (ex_id 0x07 0x1e 0 0x08 0) linkmode_zero
              (fun _ => false)).support)
          = true) :=
  ⟨by decide,
    parse_support_selects_advertised ex_codes ex_bus ex_bus (ex_id 0x07 0x1e 0 0x08 0)⟩

/-- A test leaves a link mode at the value that both its branches give it. -/
theorem modes_ite (a b : parse_state) (p : Prop) [Decidable p] (m : link_mode) (v : Bool)
    (ha : a.modes m = v) (hb : b.modes m = v) : (if p then a else b).modes m = v := by
  by_cases h : p
  · rw [if_pos h]
    exact ha
  · rw [if_neg h]
    exact hb

/-- The `switch` on the extended-compliance byte never touches
10000baseLR_Full. -/
theorem ext_modes_lr (c : sff_codes) (bus : qsfp_bus) (id : qsfp_eeprom_id)
    (s : parse_state) :
    (parse_ext_compliance c bus id s).modes link_mode.ETHTOOL_LINK_MODE_10000baseLR_Full_BIT
      = s.modes link_mode.ETHTOOL_LINK_MODE_10000baseLR_Full_BIT := by
  unfold parse_ext_compliance
  dsimp only
  repeat' apply modes_ite
  all_goals simp [parse_state.set_mode, parse_state.set_interface, phylink_set]

/-- Two states with the same three fields are the same state. -/
theorem parse_state.eq_of_fields (s t : parse_state) (hm : s.modes = t.modes)
    (hi : s.interfaces = t.interfaces) (hw : s.warn = t.warn) : s = t := by
  cases s
  cases t
  simp only [parse_state.mk.injEq]
  exact ⟨hm, hi, hw⟩

/-- The tests on compliance byte 0 record no diagnostic. -/
theorem byte0_warn (c : sff_codes) (id : qsfp_eeprom_id) (s : parse_state) :
    (parse_compliance_byte0 c id s).warn = s.warn := by
  unfold parse_compliance_byte0
  dsimp only
  split_ifs <;> rfl

/-- The tests on compliance byte 0 depend on the 10GBASE-SR and 10GBASE-LR
bits only through their disjunction. -/
theorem byte0_sr_lr_alike (c : sff_codes) (id1 id2 : qsfp_eeprom_id) (s : parse_state)
    (h : (id1.base.etile_qsfp_spec_compliance_1 0 &&& c.SFF8636_QSFP_ECC_10GBASE_SR ≠ 0
          ∨ id1.base.etile_qsfp_spec_compliance_1 0 &&& c.SFF8636_QSFP_ECC_10GBASE_LR ≠ 0)
        ↔ (id2.base.etile_qsfp_spec_compliance_1 0 &&& c.SFF8636_QSFP_ECC_10GBASE_SR ≠ 0
          ∨ id2.base.etile_qsfp_spec_compliance_1 0 &&& c.SFF8636_QSFP_ECC_10GBASE_LR ≠ 0))
    (hlrm : id1.base.etile_qsfp_spec_compliance_1 0 &&& c.SFF8636_QSFP_ECC_10GBASE_LRM ≠ 0
        ↔ id2.base.etile_qsfp_spec_compliance_1 0 &&& c.SFF8636_QSFP_ECC_10GBASE_LRM ≠ 0) :
    parse_compliance_byte0 c id1 s = parse_compliance_byte0 c id2 s := by
  have h1 : (decide (id1.base.etile_qsfp_spec_compliance_1 0
          &&& c.SFF8636_QSFP_ECC_10GBASE_SR ≠ 0)
        || decide (id1.base.etile_qsfp_spec_compliance_1 0
          &&& c.SFF8636_QSFP_ECC_10GBASE_LR ≠ 0))
      = (decide (id2.base.etile_qsfp_spec_compliance_1 0
          &&& c.SFF8636_QSFP_ECC_10GBASE_SR ≠ 0)
        || decide (id2.base.etile_qsfp_spec_compliance_1 0
          &&& c.SFF8636_QSFP_ECC_10GBASE_LR ≠ 0)) := by
    rw [← Bool.decide_or, ← Bool.decide_or]
    exact decide_eq_decide.mpr h
  have h2 : decide (id1.base.etile_qsfp_spec_compliance_1 0
          &&& c.SFF8636_QSFP_ECC_10GBASE_LRM ≠ 0)
      = decide (id2.base.etile_qsfp_spec_compliance_1 0
          &&& c.SFF8636_QSFP_ECC_10GBASE_LRM ≠ 0) :=
    decide_eq_decide.mpr hlrm
  apply parse_state.eq_of_fields
  · funext m
    rw [byte0_modes_eq, byte0_modes_eq]
    unfold byte0_modes
    dsimp only
    rw [h1, h2]
  · funext i
    rw [byte0_interfaces_eq, byte0_interfaces_eq]
    unfold byte0_interfaces
    dsimp only
    rw [h1, h2]
  · rw [byte0_warn, byte0_warn]

/-- The tests on compliance byte 3 read nothing but that byte. -/
theorem byte3_congr (c : sff_codes) (id1 id2 : qsfp_eeprom_id) (s : parse_state)
    (h : id1.base.etile_qsfp_spec_compliance_1 3 = id2.base.etile_qsfp_spec_compliance_1 3) :
    parse_compliance_byte3 c id1 s = parse_compliance_byte3 c id2 s := by
  unfold parse_compliance_byte3
  dsimp only
  rw [h]

/-- The `switch` reads nothing of the identification but the
extended-compliance byte. -/
theorem ext_congr (c : sff_codes) (bus : qsfp_bus) (id1 id2 : qsfp_eeprom_id)
    (s : parse_state)
    (h : id1.base.etile_qsfp_ext_spec_compliance = id2.base.etile_qsfp_ext_spec_compliance) :
    parse_ext_compliance c bus id1 s = parse_ext_compliance c bus id2 s := by
  unfold parse_ext_compliance
  dsimp only
  rw [h]

/-- The test on compliance byte 7 reads nothing but that byte. -/
theorem byte7_congr (c : sff_codes) (id1 id2 : qsfp_eeprom_id) (s : parse_state)
    (h : id1.base.etile_qsfp_spec_compliance_1 7 = id2.base.etile_qsfp_spec_compliance_1 7) :
    parse_compliance_byte7 c id1 s = parse_compliance_byte7 c id2 s := by
  unfold parse_compliance_byte7
  dsimp only
  rw [h]

/-- C22: in `qsfp_parse_support` the 10GBASE-LR bit of compliance byte 0
contributes exactly what the 10GBASE-SR bit contributes. For every
identification with the LR bit set the resulting support set contains
10000baseSR_Full and the resulting interface set contains 10GBASER; for every
identification whatsoever 10000baseLR_Full is in the resulting support set
only if it was in the incoming one; and two identifications that agree on the
extended-compliance byte, on compliance bytes 3 and 7, on the 10GBASE-LRM bit
and on whether at least one of the 10GBASE-SR and 10GBASE-LR bits is set are
decoded to the same result, so that the LR bit in place of the SR bit, or
beside it, changes nothing. -/
theorem parse_support_lr_as_sr (c : sff_codes) (bus : qsfp_bus) (id : qsfp_eeprom_id)
    (support : link_mode_mask) (interfaces : interface_mask) :
    (id.base.etile_qsfp_spec_compliance_1 0 &&& c.SFF8636_QSFP_ECC_10GBASE_LR ≠ 0 →
      (qsfp_parse_support c bus id support interfaces).support
          link_mode.ETHTOOL_LINK_MODE_10000baseSR_Full_BIT = true ∧
      (qsfp_parse_support c bus id support interfaces).interfaces
          phy_interface_t.PHY_INTERFACE_MODE_10GBASER = true) ∧
    ((qsfp_parse_support c bus id support interfaces).support
          link_mode.ETHTOOL_LINK_MODE_10000baseLR_Full_BIT = true →
      support link_mode.ETHTOOL_LINK_MODE_10000baseLR_Full_BIT = true) ∧
    (∀ id2 : qsfp_eeprom_id,
      id2.base.etile_qsfp_ext_spec_compliance = id.base.etile_qsfp_ext_spec_compliance →
      id2.base.etile_qsfp_spec_compliance_1 3 = id.base.etile_qsfp_spec_compliance_1 3 →
      id2.base.etile_qsfp_spec_compliance_1 7 = id.base.etile_qsfp_spec_compliance_1 7 →
      (id2.base.etile_qsfp_spec_compliance_1 0 &&& c.SFF8636_QSFP_ECC_10GBASE_LRM ≠ 0
        ↔ id.base.etile_qsfp_spec_compliance_1 0 &&& c.SFF8636_QSFP_ECC_10GBASE_LRM ≠ 0) →
      ((id2.base.etile_qsfp_spec_compliance_1 0 &&& c.SFF8636_QSFP_ECC_10GBASE_SR ≠ 0
          ∨ id2.base.etile_qsfp_spec_compliance_1 0 &&& c.SFF8636_QSFP_ECC_10GBASE_LR ≠ 0)
        ↔ (id.base.etile_qsfp_spec_compliance_1 0 &&& c.SFF8636_QSFP_ECC_10GBASE_SR ≠ 0
          ∨ id.base.etile_qsfp_spec_compliance_1 0 &&& c.SFF8636_QSFP_ECC_10GBASE_LR ≠ 0)) →
      qsfp_parse_support c bus id2 support interfaces
        = qsfp_parse_support c bus id support interfaces) := by
  refine ⟨?_, ?_, ?_⟩
  · intro hlr
    have h0 : (parse_compliance_byte0 c id
          { modes := linkmode_zero, interfaces := interfaces, warn := none }).modes
          link_mode.ETHTOOL_LINK_MODE_10000baseSR_Full_BIT = true ∧
        (parse_compliance_byte0 c id
          { modes := linkmode_zero, interfaces := interfaces, warn := none }).interfaces
          phy_interface_t.PHY_INTERFACE_MODE_10GBASER = true := by
      unfold parse_compliance_byte0
      dsimp only
      rw [if_pos hlr]
      split_ifs <;>
        simp [parse_state.set_mode, parse_state.set_interface, phylink_set, __set_bit]
    constructor
    · apply parse_support_of_modes
      apply (byte7_le c id _).1
      apply (ext_le c bus id _).1
      apply (byte3_le c id _).1
      exact h0.1
    · simp only [qsfp_parse_support]
      apply (byte7_le c id _).2
      apply (ext_le c bus id _).2
      apply (byte3_le c id _).2
      exact h0.2
  · intro h
    simp only [qsfp_parse_support] at h
    simp only [phylink_set] at h
    simp [linkmode_or, byte7_modes_eq, ext_modes_lr, byte3_modes_eq, byte0_modes_eq,
      byte7_modes, byte3_modes, byte0_modes, linkmode_zero] at h
    exact h
  · intro id2 hext h3 h7 hlrm h
    simp only [qsfp_parse_support]
    rw [byte0_sr_lr_alike c id2 id _ h hlrm, byte3_congr c id2 id _ h3,
      ext_congr c bus id2 id _ hext, byte7_congr c id2 id _ h7]

/-- C22, at an identification whose compliance byte 0 is the 10GBASE-LR bit
alone, decoded into empty sets, against the identification whose compliance
byte 0 is the 10GBASE-SR bit alone. -/
theorem parse_support_lr_as_sr_witness :
    (ex_id 0x07 0xff 0x20 0 0).base.etile_qsfp_spec_compliance_1 0
      &&& ex_codes.SFF8636_QSFP_ECC_10GBASE_LR ≠ 0 ∧
    (qsfp_parse_support ex_codes ex_bus (ex_id 0x07 0xff 0x20 0 0) linkmode_zero
        ex_no_interfaces).support link_mode.ETHTOOL_LINK_MODE_10000baseSR_Full_BIT = true ∧
    (qsfp_parse_support ex_codes ex_bus (ex_id 0x07 0xff 0x20 0 0) linkmode_zero
        ex_no_interfaces).interfaces phy_interface_t.PHY_INTERFACE_MODE_10GBASER = true ∧
    (qsfp_parse_support ex_codes ex_bus (ex_id 0x07 0xff 0x20 0 0) linkmode_zero
        ex_no_interfaces).support link_mode.ETHTOOL_LINK_MODE_10000baseLR_Full_BIT = false ∧
    qsfp_parse_support ex_codes ex_bus (ex_id 0x07 0xff 0x10 0 0) linkmode_zero
        ex_no_interfaces
      = qsfp_parse_support ex_codes ex_bus (ex_id 0x07 0xff 0x20 0 0) linkmode_zero
        ex_no_interfaces :=
  ⟨by decide,
    ((parse_support_lr_as_sr ex_codes ex_bus (ex_id 0x07 0xff 0x20 0 0) linkmode_zero
      ex_no_interfaces).1 (by decide)).1,
    ((parse_support_lr_as_sr ex_codes ex_bus (ex_id 0x07 0xff 0x20 0 0) linkmode_zero
      ex_no_interfaces).1 (by decide)).2,
    by decide,
    (parse_support_lr_as_sr ex_codes ex_bus (ex_id 0x07 0xff 0x20 0 0) linkmode_zero
      ex_no_interfaces).2.2 (ex_id 0x07 0xff 0x10 0 0) rfl rfl rfl (by decide) (by decide)⟩

end QsfpBus
